import Mathlib

/-!
# Verification of the cpfspd header/layout engine

A shallow embedding, in Lean, of the parts of the cpfspd library (pfspd
video-file codec) that the specification's claims are about:

* the layout engine of `cpfspd_low.c` (`p_get_size_comp`, `p_get_size_image`,
  `p_get_size_header`, and the file-offset computation performed by
  `p_read_image` / `p_write_image`);
* the 16-bit float codec of `cpfspd_aux.c` (`p_cce_f16_to_float`,
  `p_cce_float_to_f16`), modelled on the IEEE-754 bit pattern held in the
  `float_u32` union of the C code;
* the color-format catalog and detection of `cpfspd_hdr.c`;
* the header validation and rewrite logic of `cpfspd_hdr.c`;
* the header modification operations of `cpfspd_mod.c`;
* the auxiliary-header catalog of `cpfspd_aux.c`;
* the field/frame read/write orchestration of `cpfspd_rwi.c`.

Modelling conventions:

* C `int` / `long` values are modelled as `Int` (no overflow is relevant to
  any of the claims below); loop counters and byte indices are `Nat`.
* C `double` fields are modelled as `Rat`; the only operations the modelled
  code performs on them are assignment, comparison and multiplication or
  division by small constants, all of which are exact in both `double` (for
  the magnitudes involved) and `Rat`.
* Fixed-width character fields (`data_fmt`, `com_code`, `appl_type`) are
  modelled as `String` holding the stored, space-padded contents; the C code
  compares them with `strncmp` over the full field width, which on these
  fields coincides with equality of the stored strings.
* Byte buffers (`description`, `aux_hdrs`) are modelled as `Nat → Nat`
  (byte value at each index).
* File I/O is kept abstract: reading an image is modelled by the absolute
  byte offset the code computes and the row transfers it performs, and
  reading a header from disk is modelled by passing the on-disk header as an
  argument.
-/

namespace Cpfspd

/-! ## Enumerations from cpfspd.h -/

inductive pT_status where
  | P_OK
  | P_FILE_OPEN_FAILED
  | P_FILE_CREATE_FAILED
  | P_FILE_MODIFY_FAILED
  | P_FILE_IS_NOT_PFSPD_FILE
  | P_WRITE_FAILED
  | P_READ_FAILED
  | P_REWRITE_MODIFIED_HEADER
  | P_TOO_MANY_IMAGES
  | P_TOO_MANY_COMPONENTS
  | P_INVALID_COMPONENT
  | P_ILLEGAL_TEM_SBSMPL
  | P_INVALID_AUXILIARY
  | P_ILLEGAL_LIN_SBSMPL
  | P_ILLEGAL_PIX_SBSMPL
  | P_SHOULD_BE_INTERLACED
  | P_READ_CHR_FROM_LUM_ONLY
  | P_READ_RGB_FROM_LUM_ONLY
  | P_READ_PLANAR_CHR_FROM_MULT_CHR
  | P_READ_RGB_FROM_YUV
  | P_READ_CHR_FROM_RGB
  | P_READ_CHR_FROM_STREAM
  | P_READ_RGB_FROM_STREAM
  | P_READ_INVALID_COMPONENT
  | P_WRITE_INVALID_COMPONENT
  | P_WRONG_LUM_COMP_SIZE
  | P_WRONG_CHR_COMP_SIZE
  | P_WRONG_RGB_COMP_SIZE
  | P_WRONG_STREAM_COMP_SIZE
  | P_WRONG_XYZ_COMP_SIZE
  | P_EXCEEDING_DESCRIPTION_SIZE
  | P_WRONG_EXTRA_COMP_SIZE
  | P_WRONG_SUBSAMPLE_FACTOR
  | P_EXCEEDING_AUXILIARY_HDR_SIZE
  | P_HEADER_IS_MODIFIED
  | P_INCOMP_MULT_COLOR_FORMAT
  | P_INCOMP_PLANAR_COLOR_FORMAT
  | P_ILLEGAL_COLOR_FORMAT
  | P_ILLEGAL_IMAGE_FREQUENCY
  | P_ILLEGAL_IMAGE_FREQ_MOD
  | P_ILLEGAL_ILP_FREQ_MOD
  | P_ILLEGAL_IMAGE_SIZE
  | P_ILLEGAL_INTERLACE
  | P_ILLEGAL_COMP_SIZE
  | P_ILLEGAL_PHSHFT
  | P_ILLEGAL_ASPECT_RATIO
  | P_ILLEGAL_SIZE_FREQUENCY
  | P_ILLEGAL_SIZE_INTERLACED_MODE
  | P_ILLEGAL_SIZE_PROGRESSIVE_MODE
  | P_ILLEGAL_FORMAT_INTERL_MODE
  | P_ILLEGAL_NUM_OF_PIX_PER_LINE
  | P_ILLEGAL_FILE_DATA_FORMAT
  | P_FILE_DATA_FORMATS_NOT_EQUAL
  | P_ILLEGAL_MEM_DATA_FORMAT
  | P_UNKNOWN_MEM_TYPE
  | P_UNKNOWN_FILE_TYPE
  | P_INCOMP_FLOAT_CONVERSION
  | P_MALLOC_FAILED
  deriving DecidableEq, Repr

inductive pT_color where
  | P_NO_COLOR
  | P_COLOR_422
  | P_COLOR_420
  | P_COLOR_444_PL
  | P_COLOR_422_PL
  | P_COLOR_420_PL
  | P_COLOR_RGB
  | P_STREAM
  | P_COLOR_XYZ
  | P_UNKNOWN_COLOR
  deriving DecidableEq, Repr

inductive pT_data_fmt where
  | P_8_BIT_FILE
  | P_10_BIT_FILE
  | P_12_BIT_FILE
  | P_14_BIT_FILE
  | P_16_BIT_FILE
  | P_16_REAL_FILE
  | P_UNKNOWN_DATA_FORMAT
  deriving DecidableEq, Repr

inductive pT_freq where
  | P_24HZ
  | P_REAL_24HZ
  | P_25HZ
  | P_30HZ
  | P_REAL_30HZ
  | P_50HZ
  | P_60HZ
  | P_REAL_60HZ
  | P_75HZ
  | P_90HZ
  | P_REAL_90HZ
  | P_100HZ
  | P_120HZ
  | P_REAL_120HZ
  | P_UNKNOWN_FREQ
  deriving DecidableEq, Repr

inductive pT_size where
  | P_QCIF
  | P_CIF
  | P_SD
  | P_HDp
  | P_HDi
  | P_UNKNOWN_SIZE
  deriving DecidableEq, Repr

inductive pT_asp_rat where
  | P_4_3
  | P_16_9
  | P_AS_WH
  | P_UNKNOWN_ASPECT_RATIO
  deriving DecidableEq, Repr

open pT_status pT_color pT_data_fmt pT_freq pT_size pT_asp_rat

/-! ## Constants from cpfspd.h and cpfspd_aux.c -/

def P_NUM_GLOB_RECS : Int := 2
def P_NUM_COMP_RECS : Int := 2
def P_SNR_IMAGES : Nat := 7
def P_SACT_LINES : Nat := 6
def P_SACT_PIXEL : Nat := 6
def P_SLIN_IMAGE : Nat := 6
def P_SPIX_LINE : Nat := 6
def P_SLIN_SBSMPL : Nat := 2
def P_SPIX_SBSMPL : Nat := 2
def P_STEM_PHSHFT : Nat := 2
def P_SLIN_PHSHFT : Nat := 2
def P_SPIX_PHSHFT : Nat := 2
def P_SDESCRIPTION : Nat := 2048
def P_BYTES_REC : Int := 512
def P_SAUX_NAME : Nat := 16
def P_SAUX_HDR : Nat := 16384
def P_PFSPD_MAX_COMP : Int := 128

def P_Y_COM_CODE : String := "Y    "
def P_UV_COM_CODE : String := "U/V  "
def P_U_COM_CODE : String := "U    "
def P_V_COM_CODE : String := "V    "
def P_R_COM_CODE : String := "R    "
def P_G_COM_CODE : String := "G    "
def P_B_COM_CODE : String := "B    "
def P_S_COM_CODE : String := "S    "
def P_P_COM_CODE : String := "P    "
def P_XYZX_COM_CODE : String := "X    "
def P_XYZY_COM_CODE : String := "Y    "
def P_XYZZ_COM_CODE : String := "Z    "
def P_VOID_COM_CODE : String := "void "

def P_VIDEO_APPL_TYPE : String := "VIDEO                    "

def P_B8_DATA_FMT : String := "B*8 "
def P_B10_DATA_FMT : String := "B*10"
def P_B12_DATA_FMT : String := "B*12"
def P_B14_DATA_FMT : String := "B*14"
def P_I2_DATA_FMT : String := "I*2 "
def P_R2_DATA_FMT : String := "R*2 "

/-- `MAX_DECIMAL(s)` of cpfspd_hdr.c: largest decimal value fitting in `s`
text characters. -/
def MAX_DECIMAL (s : Nat) : Int := (10:Int) ^ s - 1

def P_STD_IMA_FREQ_50HZ : Rat := 50
def P_STD_IMA_FREQ_60HZ : Rat := 5994/100
def P_STD_IMA_FREQ_REAL_60HZ : Rat := 60

/-- Aux-catalog field widths of cpfspd_aux.c. -/
def P_SAUX_HDRLEN : Nat := 8
def P_SMAX_LEN : Nat := 8
def P_SRESERVED : Nat := 16
def P_SMIN_VALID : Nat := 48

/-- `P_AUX_LAST`, the sentinel record text `"       8"`, as byte values. -/
def P_AUX_LAST_BYTES : List Nat := [32, 32, 32, 32, 32, 32, 32, 56]

/-! ## Header data model (pT_header of cpfspd.h) -/

structure pT_component where
  lin_image : Int
  pix_line : Int
  data_fmt : String
  tem_sbsmpl : Int
  lin_sbsmpl : Int
  pix_sbsmpl : Int
  tem_phshft : Int
  lin_phshft : Int
  pix_phshft : Int
  com_code : String
  deriving DecidableEq, Repr

/-- `P_COMPONENT_INIT` of cpfspd.h (also the all-zero state produced by
`memset` in `p_create_free_header`). -/
def P_COMPONENT_INIT : pT_component :=
  { lin_image := 0, pix_line := 0, data_fmt := "", tem_sbsmpl := 0
    lin_sbsmpl := 0, pix_sbsmpl := 0, tem_phshft := 0, lin_phshft := 0
    pix_phshft := 0, com_code := "" }

structure pT_header where
  nr_images : Int
  nr_compon : Int
  nr_fd_recs : Int
  nr_aux_data_recs : Int
  appl_type : String
  bytes_rec : Int
  little_endian : Int
  nr_aux_hdr_recs : Int
  ima_freq : Rat
  lin_freq : Rat
  pix_freq : Rat
  act_lines : Int
  act_pixel : Int
  interlace : Int
  h_pp_size : Int
  v_pp_size : Int
  comp : Nat → pT_component
  description : Nat → Nat
  disable_hdr_checks : Int
  modified : Int
  aux_hdrs : Nat → Nat

/-- Point update of the component array. -/
def pT_header.setComp (h : pT_header) (i : Nat) (c : pT_component) : pT_header :=
  { h with comp := fun j => if j = i then c else h.comp j }

/-! ## Layout engine (cpfspd_low.c)

`p_get_size_comp`, `p_get_size_image` and `p_get_size_header` translated
from cpfspd_low.c; the `for` loop accumulating component sizes becomes a
`List.foldl` over the component indices. -/

/-- `p_get_size_comp` of cpfspd_low.c: bytes of one component raster in the
file (1 byte per sample iff the data format is `B*8`, else 2). -/
def p_get_size_comp (width height : Int) (data_fmt : String) : Int :=
  (if data_fmt = P_B8_DATA_FMT then 1 else 2) * width * height

/-- `p_get_size_image` of cpfspd_low.c: auxiliary data records plus all
component rasters. -/
def p_get_size_image (header : pT_header) : Int :=
  (List.range header.nr_compon.toNat).foldl
    (fun size i => size + p_get_size_comp (header.comp i).pix_line
      (header.comp i).lin_image (header.comp i).data_fmt)
    (header.nr_aux_data_recs * header.bytes_rec)

/-- `p_get_size_header` of cpfspd_low.c. -/
def p_get_size_header (header : pT_header) : Int :=
  P_NUM_GLOB_RECS * header.bytes_rec
    + header.nr_fd_recs * header.bytes_rec
    + P_NUM_COMP_RECS * header.nr_compon * header.bytes_rec

/-- The absolute file byte offset computed by `p_read_image` in
cpfspd_low.c before the row loop: skip the header, the previous images, the
current image's auxiliary data records, and the previous components of the
current image. -/
def p_read_image_offset (header : pT_header) (nr : Int) (comp_nr : Nat) : Int :=
  p_get_size_header header
    + (nr - 1) * p_get_size_image header
    + header.nr_aux_data_recs * header.bytes_rec
    + (List.range comp_nr).foldl
        (fun off i => off + p_get_size_comp (header.comp i).pix_line
          (header.comp i).lin_image (header.comp i).data_fmt) 0

/-- The identical offset computation performed by `p_write_image` in
cpfspd_low.c. -/
def p_write_image_offset (header : pT_header) (nr : Int) (comp_nr : Nat) : Int :=
  p_get_size_header header
    + (nr - 1) * p_get_size_image header
    + header.nr_aux_data_recs * header.bytes_rec
    + (List.range comp_nr).foldl
        (fun off i => off + p_get_size_comp (header.comp i).pix_line
          (header.comp i).lin_image (header.comp i).data_fmt) 0

/-! Helper: the foldl accumulations above are finite sums. -/

theorem foldl_add_comp_sizes (f : Nat → Int) (n : Nat) (init : Int) :
    (List.range n).foldl (fun s i => s + f i) init
      = init + ∑ i ∈ Finset.range n, f i := by
  induction n generalizing init with
  | zero => simp
  | succ n ih =>
      rw [List.range_succ, List.foldl_append, List.foldl_cons, List.foldl_nil, ih,
        Finset.sum_range_succ]
      ring

end Cpfspd

namespace Cpfspd

open pT_status pT_color pT_data_fmt pT_freq pT_size pT_asp_rat

/-! ## Claim-side layout quantities (from the specification text of C1) -/

/-- Bytes per sample of a component: 1 for 8-bit components, 2 otherwise. -/
def bytesPerSample (c : pT_component) : Int :=
  if c.data_fmt = P_B8_DATA_FMT then 1 else 2

/-- Header byte size as stated by the claim:
`(2 + nr_fd_recs + 2 * nr_compon) * bytes_rec`. -/
def claimHeaderSize (h : pT_header) : Int :=
  (2 + h.nr_fd_recs + 2 * h.nr_compon) * h.bytes_rec

/-- Image byte size as stated by the claim. -/
def claimImageSize (h : pT_header) : Int :=
  h.nr_aux_data_recs * h.bytes_rec
    + ∑ i ∈ Finset.range h.nr_compon.toNat,
        bytesPerSample (h.comp i) * (h.comp i).pix_line * (h.comp i).lin_image

/-- Sum of the byte sizes of components `0 .. comp_nr - 1`. -/
def claimCompPrefix (h : pT_header) (comp_nr : Nat) : Int :=
  ∑ i ∈ Finset.range comp_nr,
    bytesPerSample (h.comp i) * (h.comp i).pix_line * (h.comp i).lin_image

theorem p_get_size_comp_eq (c : pT_component) :
    p_get_size_comp c.pix_line c.lin_image c.data_fmt
      = bytesPerSample c * c.pix_line * c.lin_image := by
  simp [p_get_size_comp, bytesPerSample]

theorem p_get_size_image_eq (h : pT_header) : p_get_size_image h = claimImageSize h := by
  unfold p_get_size_image claimImageSize
  rw [foldl_add_comp_sizes]
  simp [p_get_size_comp_eq]

theorem p_get_size_header_eq (h : pT_header) : p_get_size_header h = claimHeaderSize h := by
  unfold p_get_size_header claimHeaderSize P_NUM_GLOB_RECS P_NUM_COMP_RECS
  ring

/-- C1: for every header, image index `nr ≥ 1` and component index
`comp_nr`, the absolute file byte offset at which `p_read_image` and
`p_write_image` access image `nr`, component `comp_nr` equals
`header_size + (nr-1) * image_size + nr_aux_data_recs * bytes_rec +` the sum
of the component byte sizes for components `0 .. comp_nr - 1`, where
`header_size = (2 + nr_fd_recs + 2*nr_compon) * bytes_rec`,
`image_size = nr_aux_data_recs * bytes_rec + Σ bytes-per-sample * pix_line *
lin_image` over all components, and bytes-per-sample is 1 for 8-bit
components and 2 otherwise. -/
theorem C1_image_component_offset (h : pT_header) (nr : Int) (hnr : 1 ≤ nr)
    (comp_nr : Nat) :
    p_read_image_offset h nr comp_nr
        = claimHeaderSize h + (nr - 1) * claimImageSize h
          + h.nr_aux_data_recs * h.bytes_rec + claimCompPrefix h comp_nr
      ∧ p_write_image_offset h nr comp_nr
        = claimHeaderSize h + (nr - 1) * claimImageSize h
          + h.nr_aux_data_recs * h.bytes_rec + claimCompPrefix h comp_nr := by
  constructor <;>
  · simp only [p_read_image_offset, p_write_image_offset]
    rw [foldl_add_comp_sizes, p_get_size_image_eq, p_get_size_header_eq]
    simp [claimCompPrefix, p_get_size_comp_eq]

/-- A small concrete header used to instantiate claim theorems:
a progressive 4:2:0 planar header, 8 bit, 6 lines of 4 pixels. -/
def sampleHeader : pT_header :=
  { nr_images := 10, nr_compon := 3, nr_fd_recs := 36, nr_aux_data_recs := 0
    appl_type := P_VIDEO_APPL_TYPE, bytes_rec := 64, little_endian := 0
    nr_aux_hdr_recs := 0, ima_freq := 50, lin_freq := 25/8, pix_freq := 1/5
    act_lines := 6, act_pixel := 4, interlace := 1, h_pp_size := 4, v_pp_size := 3
    comp := fun i =>
      if i = 0 then
        { lin_image := 6, pix_line := 4, data_fmt := "B*8 ", tem_sbsmpl := 1
          lin_sbsmpl := 1, pix_sbsmpl := 1, tem_phshft := 0, lin_phshft := 0
          pix_phshft := 0, com_code := "Y    " }
      else if i = 1 then
        { lin_image := 3, pix_line := 2, data_fmt := "B*8 ", tem_sbsmpl := 1
          lin_sbsmpl := 2, pix_sbsmpl := 2, tem_phshft := 0, lin_phshft := 0
          pix_phshft := 0, com_code := "U    " }
      else if i = 2 then
        { lin_image := 3, pix_line := 2, data_fmt := "B*8 ", tem_sbsmpl := 1
          lin_sbsmpl := 2, pix_sbsmpl := 2, tem_phshft := 0, lin_phshft := 0
          pix_phshft := 0, com_code := "V    " }
      else P_COMPONENT_INIT
    description := fun _ => 0
    disable_hdr_checks := 0, modified := 0
    aux_hdrs := fun i => if i < 8 then P_AUX_LAST_BYTES.getD i 0 else 0 }

theorem C1_image_component_offset_witness :
    (1 : Int) ≤ 2
      ∧ (p_read_image_offset sampleHeader 2 1
          = claimHeaderSize sampleHeader + ((2:Int) - 1) * claimImageSize sampleHeader
            + sampleHeader.nr_aux_data_recs * sampleHeader.bytes_rec
            + claimCompPrefix sampleHeader 1
        ∧ p_write_image_offset sampleHeader 2 1
          = claimHeaderSize sampleHeader + ((2:Int) - 1) * claimImageSize sampleHeader
            + sampleHeader.nr_aux_data_recs * sampleHeader.bytes_rec
            + claimCompPrefix sampleHeader 1) :=
  ⟨by norm_num, C1_image_component_offset sampleHeader 2 (by norm_num) 1⟩

end Cpfspd

namespace Cpfspd

open pT_status pT_color pT_data_fmt pT_freq pT_size pT_asp_rat

/-! ## 16-bit float codec (cpfspd_aux.c, cce section)

`p_cce_f16_to_float` and `p_cce_float_to_f16` convert between the 16-bit
float file format (1 sign, 5 exponent, 10 mantissa bits, bias 15) and IEEE
754 single precision.  The C code moves between `float` and its bit
pattern through the `float_u32` union; the model below works directly on
the 32-bit pattern (`u32` member of the union).

The C `exponent` variable is a signed `int`.  In `p_cce_f16_to_float` it
stays non-negative on every path, so `Nat` is used directly.  In
`p_cce_float_to_f16` the statement `exponent -= 127 - 15` may make it
negative; the model keeps the biased (non-negative) value and renders the
subsequent signed comparisons on the shifted scale:
`exponent < -9` becomes `exponent < 103`, `exponent <= 0` becomes
`exponent ≤ 112`, `1 - exponent` becomes `113 - exponent`, and in the
regular-number branch (`exponent ≥ 113`) the final unbiased exponent is
`exponent - 112`. -/

/-- The `while ((mantissa & (1 << 10)) == 0) { exponent--; mantissa <<= 1; }`
normalization loop of `p_cce_f16_to_float`; the fuel (11 suffices for any
10-bit mantissa) only bounds the iteration count. -/
def p_cce_f16_normalize (fuel : Nat) : Nat → Nat → Nat × Nat :=
  fuel.rec (fun e m => (e, m))
    (fun _ ih e m => bif m &&& 0x400 == 0 then ih (e - 1) (m <<< 1) else (e, m))

/-- `p_cce_f16_to_float` of cpfspd_aux.c, as the produced IEEE-754 bit
pattern (`bits.u32 = sign | (exponent << 23) | (mantissa << 13)`). -/
def p_cce_f16_to_float_bits (f16 : Nat) : Nat :=
  let sign := (f16 &&& 0x8000) <<< 16
  let exponent := (f16 >>> 10) &&& 0x1F
  let mantissa := f16 &&& 0x3FF
  bif exponent == 0x1F then
    -- infinity or NaN: exponent = 0xFF
    sign ||| (0xFF <<< 23) ||| (mantissa <<< 13)
  else bif exponent == 0 then
    (bif mantissa == 0 then
      -- zero
      sign
    else
      -- subnormal: normalize, then exponent++ and clear the hidden bit
      let p := p_cce_f16_normalize 11 (127 - 15) mantissa
      sign ||| ((p.1 + 1) <<< 23) ||| ((p.2 &&& 0x3FF) <<< 13))
  else
    -- regular number: exponent += 127 - 15
    sign ||| ((exponent + 127 - 15) <<< 23) ||| (mantissa <<< 13)

/-- `p_cce_float_to_f16` of cpfspd_aux.c, taking the IEEE-754 bit pattern
of the argument (`bits.u32`). -/
def p_cce_float_to_f16_bits (u32 : Nat) : Nat :=
  let sign := (u32 >>> 16) &&& 0x8000
  let exponent := (u32 >>> 23) &&& 0xFF
  let mantissa := u32 &&& 0x7FFFFF
  bif exponent == 0 && mantissa == 0 then
    -- zero: return +/- zero
    sign
  else bif exponent == 0xFF then
    (bif mantissa == 0 then
      -- infinity
      sign ||| (0x1F <<< 10)
    else bif mantissa >>> 13 == 0 then
      -- NaN, mantissa truncates to zero
      sign ||| (0x1F <<< 10) ||| 1
    else
      -- NaN
      sign ||| (0x1F <<< 10) ||| (mantissa >>> 13))
  else
    -- here the C code does exponent -= 127 - 15
    bif exponent < 103 then
      -- underflow (exponent < -9): return +/- zero
      sign
    else bif exponent ≤ 112 then
      -- denormalized (exponent <= 0)
      let mantissa := (mantissa ||| 0x800000) >>> (113 - exponent)
      let mantissa := mantissa + 0x1000     -- rounding
      sign ||| (mantissa >>> 13)
    else
      -- regular number
      let mantissa := mantissa + 0x1000     -- rounding
      let p : Nat × Nat :=
        bif mantissa &&& 0x800000 != 0 then
          -- overflow in mantissa; adjust exponent
          (0, exponent - 112 + 1)
        else (mantissa, exponent - 112)
      bif p.2 > 30 then
        -- overflow; convert to infinity
        sign ||| (0x1F <<< 10)
      else
        sign ||| (p.2 <<< 10) ||| (p.1 >>> 13)

/-- One instance of the round-trip property, as a boolean. -/
def f16RoundTripOk (x : Nat) : Bool :=
  p_cce_float_to_f16_bits (p_cce_f16_to_float_bits x) == x

/-- Balanced-tree exhaustive check of a predicate on
`[base * 2^d, (base+1) * 2^d)`; the balanced shape keeps the evaluation
depth logarithmic. -/
def checkTree (p : Nat → Bool) (d : Nat) : Nat → Bool :=
  d.rec (fun base => p base)
    (fun _ ih base => ih (2*base) && ih (2*base + 1))

theorem checkTree_sound (p : Nat → Bool) :
    ∀ d base, checkTree p d base = true → ∀ x < 2^d, p (base * 2^d + x) = true := by
  intro d
  induction d with
  | zero =>
      intro base h x hx
      interval_cases x
      simpa [checkTree] using h
  | succ d ih =>
      intro base h x hx
      simp only [checkTree, Bool.and_eq_true] at h
      have hx2 : x < 2^d + 2^d := by rw [pow_succ] at hx; omega
      have hsplit : (2:Nat)^(d+1) = 2^d * 2 := pow_succ 2 d
      rcases Nat.lt_or_ge x (2^d) with hlt | hge
      · have hrec := ih (2*base) h.1 x hlt
        have heq : 2*base * 2^d + x = base * 2^(d+1) + x := by rw [hsplit]; ring
        rwa [heq] at hrec
      · have hx' : x - 2^d < 2^d := by omega
        have hrec := ih (2*base + 1) h.2 (x - 2^d) hx'
        have heq : (2*base + 1) * 2^d + (x - 2^d) = base * 2^(d+1) + x := by
          have hmul : (2*base + 1) * 2^d = base * (2^d * 2) + 2^d := by ring
          rw [hsplit]; omega
        rwa [heq] at hrec

set_option maxRecDepth 2000 in
theorem f16RoundTripOk_part0 : checkTree f16RoundTripOk 12 0 = true := by decide!

set_option maxRecDepth 2000 in
theorem f16RoundTripOk_part1 : checkTree f16RoundTripOk 12 1 = true := by decide!

set_option maxRecDepth 2000 in
theorem f16RoundTripOk_part2 : checkTree f16RoundTripOk 12 2 = true := by decide!

set_option maxRecDepth 2000 in
theorem f16RoundTripOk_part3 : checkTree f16RoundTripOk 12 3 = true := by decide!

set_option maxRecDepth 2000 in
theorem f16RoundTripOk_part4 : checkTree f16RoundTripOk 12 4 = true := by decide!

set_option maxRecDepth 2000 in
theorem f16RoundTripOk_part5 : checkTree f16RoundTripOk 12 5 = true := by decide!

set_option maxRecDepth 2000 in
theorem f16RoundTripOk_part6 : checkTree f16RoundTripOk 12 6 = true := by decide!

set_option maxRecDepth 2000 in
theorem f16RoundTripOk_part7 : checkTree f16RoundTripOk 12 7 = true := by decide!

set_option maxRecDepth 2000 in
theorem f16RoundTripOk_part8 : checkTree f16RoundTripOk 12 8 = true := by decide!

set_option maxRecDepth 2000 in
theorem f16RoundTripOk_part9 : checkTree f16RoundTripOk 12 9 = true := by decide!

set_option maxRecDepth 2000 in
theorem f16RoundTripOk_part10 : checkTree f16RoundTripOk 12 10 = true := by decide!

set_option maxRecDepth 2000 in
theorem f16RoundTripOk_part11 : checkTree f16RoundTripOk 12 11 = true := by decide!

set_option maxRecDepth 2000 in
theorem f16RoundTripOk_part12 : checkTree f16RoundTripOk 12 12 = true := by decide!

set_option maxRecDepth 2000 in
theorem f16RoundTripOk_part13 : checkTree f16RoundTripOk 12 13 = true := by decide!

set_option maxRecDepth 2000 in
theorem f16RoundTripOk_part14 : checkTree f16RoundTripOk 12 14 = true := by decide!

set_option maxRecDepth 2000 in
theorem f16RoundTripOk_part15 : checkTree f16RoundTripOk 12 15 = true := by decide!

/-- One unfolding step of the balanced checking tree. -/
theorem checkTree_succ_eq (p : Nat → Bool) (d base : Nat) :
    checkTree p (d+1) base
      = (checkTree p d (2*base) && checkTree p d (2*base+1)) := rfl

/-- The exhaustive f16 round-trip check, assembled from the sixteen
depth-12 subtree checks above (one per declaration, to bound the
kernel's evaluation working set). -/
theorem f16RoundTripOk_all : checkTree f16RoundTripOk 16 0 = true := by
  have e16 : ∀ b, checkTree f16RoundTripOk 16 b
      = (checkTree f16RoundTripOk 15 (2*b) && checkTree f16RoundTripOk 15 (2*b+1)) :=
    fun b => checkTree_succ_eq f16RoundTripOk 15 b
  have e15 : ∀ b, checkTree f16RoundTripOk 15 b
      = (checkTree f16RoundTripOk 14 (2*b) && checkTree f16RoundTripOk 14 (2*b+1)) :=
    fun b => checkTree_succ_eq f16RoundTripOk 14 b
  have e14 : ∀ b, checkTree f16RoundTripOk 14 b
      = (checkTree f16RoundTripOk 13 (2*b) && checkTree f16RoundTripOk 13 (2*b+1)) :=
    fun b => checkTree_succ_eq f16RoundTripOk 13 b
  have e13 : ∀ b, checkTree f16RoundTripOk 13 b
      = (checkTree f16RoundTripOk 12 (2*b) && checkTree f16RoundTripOk 12 (2*b+1)) :=
    fun b => checkTree_succ_eq f16RoundTripOk 12 b
  simp only [e16, e15, e14, e13]
  norm_num
  rw [f16RoundTripOk_part0, f16RoundTripOk_part1, f16RoundTripOk_part2,
    f16RoundTripOk_part3, f16RoundTripOk_part4, f16RoundTripOk_part5,
    f16RoundTripOk_part6, f16RoundTripOk_part7, f16RoundTripOk_part8,
    f16RoundTripOk_part9, f16RoundTripOk_part10, f16RoundTripOk_part11,
    f16RoundTripOk_part12, f16RoundTripOk_part13, f16RoundTripOk_part14,
    f16RoundTripOk_part15]
  simp

/-- The round trip is in fact the identity on every 16-bit pattern. -/
theorem f16_roundtrip_exact (x : Nat) (hx : x < 65536) :
    p_cce_float_to_f16_bits (p_cce_f16_to_float_bits x) = x := by
  have h := checkTree_sound f16RoundTripOk 16 0 f16RoundTripOk_all x (by norm_num at hx ⊢; omega)
  simpa [f16RoundTripOk] using h

/-- A 16-bit pattern is a NaN iff its exponent field is all ones and its
mantissa field is non-zero. -/
def f16IsNaN (x : Nat) : Prop := (x >>> 10) &&& 0x1F = 0x1F ∧ x &&& 0x3FF ≠ 0

/-- C2: for every 16-bit pattern `x` (all 65536 values, both sign bits),
`p_cce_float_to_f16(p_cce_f16_to_float(x)) = x`, except that for NaN
patterns only the NaN-kind and the sign bit are required to be preserved.
(The code in fact round-trips NaN patterns exactly as well, which implies
the weaker NaN clause of the claim.) -/
theorem C2_f16_roundtrip (x : Nat) (hx : x < 65536) :
    (¬ f16IsNaN x → p_cce_float_to_f16_bits (p_cce_f16_to_float_bits x) = x)
      ∧ (f16IsNaN x →
          f16IsNaN (p_cce_float_to_f16_bits (p_cce_f16_to_float_bits x))
            ∧ (p_cce_float_to_f16_bits (p_cce_f16_to_float_bits x)) &&& 0x8000
                = x &&& 0x8000) := by
  have h := f16_roundtrip_exact x hx
  refine ⟨fun _ => h, fun hnan => ⟨?_, ?_⟩⟩
  · rw [h]; exact hnan
  · rw [h]

theorem C2_f16_roundtrip_witness :
    (0xFC01 : Nat) < 65536
      ∧ ((¬ f16IsNaN 0xFC01 →
            p_cce_float_to_f16_bits (p_cce_f16_to_float_bits 0xFC01) = 0xFC01)
        ∧ (f16IsNaN 0xFC01 →
            f16IsNaN (p_cce_float_to_f16_bits (p_cce_f16_to_float_bits 0xFC01))
              ∧ (p_cce_float_to_f16_bits (p_cce_f16_to_float_bits 0xFC01)) &&& 0x8000
                  = (0xFC01 : Nat) &&& 0x8000)) :=
  ⟨by norm_num, C2_f16_roundtrip 0xFC01 (by norm_num)⟩

end Cpfspd

namespace Cpfspd

open pT_status pT_color pT_data_fmt pT_freq pT_size pT_asp_rat

/-! ## Standard color formats and detection (cpfspd_hdr.c)

`p_default_formats` is the fixed catalog of standard color formats.  In the
C code each entry carries `nr_comp` and a 3-slot component array whose
slots beyond `nr_comp` hold NULL names and are never read; the model stores
exactly the `nr_comp` used slots as a list.  The terminating
`P_UNKNOWN_COLOR` sentinel entry stops the scan in C and is therefore not
part of the modelled list. -/

structure pT_default_format_comp where
  name : String
  pix_ss : Int
  lin_ss : Int
  mplex : Int
  deriving DecidableEq, Repr

structure pT_default_format where
  format : pT_color
  comps : List pT_default_format_comp
  deriving DecidableEq, Repr

def p_default_formats : List pT_default_format :=
  [ { format := P_NO_COLOR
      comps := [{ name := P_Y_COM_CODE, pix_ss := 1, lin_ss := 1, mplex := 1 }] }
  , { format := P_COLOR_422
      comps := [{ name := P_Y_COM_CODE, pix_ss := 1, lin_ss := 1, mplex := 1 }
               ,{ name := P_UV_COM_CODE, pix_ss := 2, lin_ss := 1, mplex := 2 }] }
  , { format := P_COLOR_420
      comps := [{ name := P_Y_COM_CODE, pix_ss := 1, lin_ss := 1, mplex := 1 }
               ,{ name := P_UV_COM_CODE, pix_ss := 2, lin_ss := 2, mplex := 2 }] }
  , { format := P_COLOR_444_PL
      comps := [{ name := P_Y_COM_CODE, pix_ss := 1, lin_ss := 1, mplex := 1 }
               ,{ name := P_U_COM_CODE, pix_ss := 1, lin_ss := 1, mplex := 1 }
               ,{ name := P_V_COM_CODE, pix_ss := 1, lin_ss := 1, mplex := 1 }] }
  , { format := P_COLOR_422_PL
      comps := [{ name := P_Y_COM_CODE, pix_ss := 1, lin_ss := 1, mplex := 1 }
               ,{ name := P_U_COM_CODE, pix_ss := 2, lin_ss := 1, mplex := 1 }
               ,{ name := P_V_COM_CODE, pix_ss := 2, lin_ss := 1, mplex := 1 }] }
  , { format := P_COLOR_420_PL
      comps := [{ name := P_Y_COM_CODE, pix_ss := 1, lin_ss := 1, mplex := 1 }
               ,{ name := P_U_COM_CODE, pix_ss := 2, lin_ss := 2, mplex := 1 }
               ,{ name := P_V_COM_CODE, pix_ss := 2, lin_ss := 2, mplex := 1 }] }
  , { format := P_COLOR_RGB
      comps := [{ name := P_R_COM_CODE, pix_ss := 1, lin_ss := 1, mplex := 1 }
               ,{ name := P_G_COM_CODE, pix_ss := 1, lin_ss := 1, mplex := 1 }
               ,{ name := P_B_COM_CODE, pix_ss := 1, lin_ss := 1, mplex := 1 }] }
  , { format := P_COLOR_XYZ
      comps := [{ name := P_XYZX_COM_CODE, pix_ss := 1, lin_ss := 1, mplex := 1 }
               ,{ name := P_XYZY_COM_CODE, pix_ss := 1, lin_ss := 1, mplex := 1 }
               ,{ name := P_XYZZ_COM_CODE, pix_ss := 1, lin_ss := 1, mplex := 1 }] }
  , { format := P_STREAM
      comps := [{ name := P_S_COM_CODE, pix_ss := 1, lin_ss := 1, mplex := 1 }] }
  ]

/-- The `match` condition counted by the inner loop of
`p_check_color_format` for component slot `i` of a catalog entry: the
`strncmp` name test, then the subsampling and width conditions. -/
def p_color_comp_cond (h : pT_header) (i : Nat) (c : pT_default_format_comp) : Bool :=
  ((h.comp i).com_code == c.name)
    && (((h.comp i).pix_sbsmpl == c.pix_ss)
        && ((h.comp i).lin_sbsmpl == c.lin_ss)
        && ((h.comp i).pix_line * (h.comp i).pix_sbsmpl == h.act_pixel * c.mplex))

/-- `p_check_color_format` of cpfspd_hdr.c.  The scan over the catalog is
the `for (f=...)` loop; the inner loop counting `match` becomes `countP`
over the entry's component slots, and the entry is taken when the count
equals the entry's component number. -/
def p_check_color_format (h : pT_header) : pT_status × pT_color :=
  let color := p_default_formats.foldl
    (fun acc e =>
      if (e.comps.length : Int) ≤ h.nr_compon then
        if e.comps.enum.countP (fun ic => p_color_comp_cond h ic.1 ic.2)
            = e.comps.length then e.format
        else acc
      else acc)
    P_UNKNOWN_COLOR
  (if color = P_UNKNOWN_COLOR then P_ILLEGAL_COLOR_FORMAT else P_OK, color)

/-- The claim's notion of a catalog entry matching a header. -/
def formatMatches (h : pT_header) (e : pT_default_format) : Bool :=
  decide ((e.comps.length : Int) ≤ h.nr_compon)
    && e.comps.enum.all (fun ic => p_color_comp_cond h ic.1 ic.2)

theorem color_step_eq (h : pT_header) (e : pT_default_format) (acc : pT_color) :
    (if (e.comps.length : Int) ≤ h.nr_compon then
        if e.comps.enum.countP (fun ic => p_color_comp_cond h ic.1 ic.2)
            = e.comps.length then e.format
        else acc
      else acc)
      = if formatMatches h e then e.format else acc := by
  unfold formatMatches
  by_cases hn : (e.comps.length : Int) ≤ h.nr_compon
  · simp only [hn, if_true, decide_eq_true_eq, decide_True, Bool.true_and]
    by_cases hc : e.comps.enum.countP (fun ic => p_color_comp_cond h ic.1 ic.2)
        = e.comps.length
    · have hall : e.comps.enum.all (fun ic => p_color_comp_cond h ic.1 ic.2) = true := by
        rw [List.all_eq_true]
        intro a ha
        have := (List.countP_eq_length).mp (by simpa [List.enum_length] using hc) a ha
        exact this
      simp [hc, hall]
    · have hall : e.comps.enum.all (fun ic => p_color_comp_cond h ic.1 ic.2) ≠ true := by
        intro hcon
        apply hc
        rw [List.all_eq_true] at hcon
        have := (List.countP_eq_length).mpr hcon
        simpa [List.enum_length] using this
      simp [hc, hall]
  · simp [hn]

theorem foldl_last_match {α β : Type} (q : α → Bool) (g : α → β) :
    ∀ (L : List α) (acc : β),
      L.foldl (fun a e => if q e then g e else a) acc
        = ((L.filter q).getLast?).elim acc g := by
  intro L
  induction L with
  | nil => intro acc; simp
  | cons e L ih =>
      intro acc
      by_cases hq : q e
      · rw [List.foldl_cons, if_pos hq, ih, List.filter_cons_of_pos hq]
        cases hfl : L.filter q with
        | nil => simp
        | cons e' L' =>
            simp only [List.getLast?_cons_cons]
            cases hg : (e' :: L').getLast? with
            | none => simp at hg
            | some x => simp [hg]
      · rw [List.foldl_cons, if_neg hq, ih, List.filter_cons_of_neg hq]

/-- C3: `p_check_color_format` scans the whole fixed catalog of standard
color formats in order and returns the format of the last catalog entry
that matches the header, where an entry matches if the header has at least
the entry's number of components and, for each required component `i`, the
component-code name equals the entry's name, pixel and line subsample
factors equal the entry's, and `pix_line * pix_sbsmpl = act_pixel *
multiplex`; a header matching several entries resolves to the
latest-defined matching entry, and if no entry matches the function
returns `P_ILLEGAL_COLOR_FORMAT` with color format `P_UNKNOWN_COLOR`. -/
theorem C3_color_format_last_match (h : pT_header) :
    p_check_color_format h
      = match (p_default_formats.filter (formatMatches h)).getLast? with
        | some e => (P_OK, e.format)
        | none => (P_ILLEGAL_COLOR_FORMAT, P_UNKNOWN_COLOR) := by
  unfold p_check_color_format
  have hfold : p_default_formats.foldl
      (fun acc e =>
        if (e.comps.length : Int) ≤ h.nr_compon then
          if e.comps.enum.countP (fun ic => p_color_comp_cond h ic.1 ic.2)
              = e.comps.length then e.format
          else acc
        else acc)
      P_UNKNOWN_COLOR
      = ((p_default_formats.filter (formatMatches h)).getLast?).elim
          P_UNKNOWN_COLOR (·.format) := by
    have hstep : (fun (acc : pT_color) (e : pT_default_format) =>
        if (e.comps.length : Int) ≤ h.nr_compon then
          if e.comps.enum.countP (fun ic => p_color_comp_cond h ic.1 ic.2)
              = e.comps.length then e.format
          else acc
        else acc)
        = fun acc e => if formatMatches h e then e.format else acc := by
      funext acc e
      exact color_step_eq h e acc
    rw [hstep, foldl_last_match]
  rw [hfold]
  cases hlast : (p_default_formats.filter (formatMatches h)).getLast? with
  | none => simp
  | some e =>
      have hne : e.format ≠ P_UNKNOWN_COLOR := by
        have hmem : e ∈ p_default_formats.filter (formatMatches h) := by
          obtain ⟨hne', he⟩ := List.mem_getLast?_eq_getLast (x := e) hlast
          rw [he]; exact List.getLast_mem hne'
        have hmem' : e ∈ p_default_formats := (List.mem_filter.mp hmem).1
        fin_cases hmem' <;> simp
      simp [hne]

end Cpfspd

namespace Cpfspd

open pT_status pT_color pT_data_fmt pT_freq pT_size pT_asp_rat

/-! ## Auxiliary header catalog (cpfspd_aux.c)

The `aux_hdrs` byte region holds a chain of records; each record starts
with an 8-character decimal length field, followed by a 16-character name,
an 8-character maximum-data-size field and 16 reserved characters
(48 bytes minimum), then an optional description.  A parsed length below
`P_SMIN_VALID` (48) terminates the chain.

All scanning loops of the C code walk the chain by adding the parsed
length to the current offset.  They are modelled with an explicit fuel
argument (passed as `P_SAUX_HDR`, far more iterations than any chain that
fits the region can have); the fuel-exhausted result is irrelevant for any
chain that actually terminates. -/

/-- Test of `(ch == ' ') || isdigit(ch)` in `p_aux_parse_int`. -/
def isSpaceOrDigitByte (b : Nat) : Bool := b == 32 || (48 ≤ b && b ≤ 57)

/-- `atoi` on a byte list whose characters are spaces and digits: skip
leading spaces, then read digits up to the first non-digit. -/
def atoiBytes (l : List Nat) : Nat :=
  ((l.dropWhile (fun b => b == 32)).takeWhile (fun b => 48 ≤ b && b ≤ 57)).foldl
    (fun acc b => 10 * acc + (b - 48)) 0

/-- `p_aux_parse_int` of cpfspd_aux.c: interpret `len` bytes (at most 8)
at `off` as a right-justified decimal integer; any byte that is neither a
space nor a digit aborts with 0. -/
def p_aux_parse_int (B : Nat → Nat) (off len : Nat) : Nat :=
  let bytes := (List.range (min len 8)).map (fun i => B (off + i))
  if bytes.all isSpaceOrDigitByte then atoiBytes bytes else 0

/-- The scan loop of `p_aux_get_total`: sum `maxlen + P_SMAX_LEN` over the
records with non-zero `maxlen`. -/
def p_aux_total_scan (B : Nat → Nat) (fuel : Nat) : Nat → Nat :=
  fuel.rec (fun _ => 0)
    (fun _ ih off =>
      let len := p_aux_parse_int B off P_SAUX_HDRLEN
      if P_SMIN_VALID ≤ len then
        (let maxlen := p_aux_parse_int B (off + P_SAUX_HDRLEN + P_SAUX_NAME) P_SMAX_LEN
         (if 0 < maxlen then maxlen + P_SMAX_LEN else 0) + ih (off + len))
      else 0)

/-- `p_aux_get_total` of cpfspd_aux.c. -/
def p_aux_get_total (B : Nat → Nat) : Nat := p_aux_total_scan B P_SAUX_HDR 0

/-- The `do { offset += len; aux_id++; len = parse(offset); } while (len >= 48)`
loop of `p_mod_add_aux`: returns the sentinel offset and the record count. -/
def p_add_scan (B : Nat → Nat) (fuel : Nat) : Nat → Nat → Nat × Nat :=
  fuel.rec (fun off aux_id => (off, aux_id))
    (fun _ ih off aux_id =>
      let len := p_aux_parse_int B off P_SAUX_HDRLEN
      if P_SMIN_VALID ≤ len then ih (off + len) (aux_id + 1) else (off, aux_id))

/-- The scan loop of `p_get_num_aux`. -/
def p_num_aux_scan (B : Nat → Nat) (fuel : Nat) : Nat → Nat :=
  fuel.rec (fun _ => 0)
    (fun _ ih off =>
      let len := p_aux_parse_int B off P_SAUX_HDRLEN
      if P_SMIN_VALID ≤ len then 1 + ih (off + len) else 0)

/-- `p_get_num_aux` of cpfspd_aux.c. -/
def p_get_num_aux (h : pT_header) : Nat := p_num_aux_scan h.aux_hdrs P_SAUX_HDR 0

/-- `sprintf(name_space, "%-*s", P_SAUX_NAME, name)`: the name bytes padded
with spaces to 16 characters (the model assumes `name.length ≤ 16`; a
longer name overruns the C buffer). -/
def padAuxName (name : List Nat) : List Nat :=
  name ++ List.replicate (P_SAUX_NAME - name.length) 32

/-- The scan loop of `p_get_aux_by_name`; the `strncmp` of the 16 name
bytes is byte-wise equality (the padded probe name contains no NUL). -/
def p_by_name_scan (B : Nat → Nat) (padded : List Nat) (fuel : Nat) : Nat → Nat → Int :=
  fuel.rec (fun _ _ => (-1 : Int))
    (fun _ ih off i =>
      let len := p_aux_parse_int B off P_SAUX_HDRLEN
      if P_SMIN_VALID ≤ len then
        if (List.range P_SAUX_NAME).all
            (fun j => B (off + P_SAUX_HDRLEN + j) == padded.getD j 0) then (i : Int)
        else ih (off + len) (i + 1)
      else (-1 : Int))

/-- `p_get_aux_by_name` of cpfspd_aux.c. -/
def p_get_aux_by_name (h : pT_header) (name : List Nat) : Int :=
  p_by_name_scan h.aux_hdrs (padAuxName name) P_SAUX_HDR 0 0

/-- The `for (i=0; i<aux_id; i++) { len = parse(offset); offset += len; }`
record-skipping loop of `p_mod_rm_aux` and `p_get_aux`. -/
def p_skip_records (B : Nat → Nat) : Nat → Nat → Nat
  | 0, off => off
  | k+1, off => p_skip_records B k (off + p_aux_parse_int B off P_SAUX_HDRLEN)

/-- Offsets of the valid records of the chain (used to state what the
lock-step aux comparison of `p_rewrite_header` computes). -/
def p_aux_offsets_scan (B : Nat → Nat) (fuel : Nat) : Nat → List Nat :=
  fuel.rec (fun _ => [])
    (fun _ ih off =>
      let len := p_aux_parse_int B off P_SAUX_HDRLEN
      if P_SMIN_VALID ≤ len then off :: ih (off + len) else [])

def p_aux_offsets (B : Nat → Nat) : List Nat := p_aux_offsets_scan B P_SAUX_HDR 0

/-- The `max_size` field of the record at `off`. -/
def p_aux_max_size_at (B : Nat → Nat) (off : Nat) : Nat :=
  p_aux_parse_int B (off + P_SAUX_HDRLEN + P_SAUX_NAME) P_SMAX_LEN

/-- The sequence of `max_size` values of the records that carry data
(`max_size ≠ 0`), in chain order.  The aux-definition comparison loop of
`p_rewrite_header` walks the old and the new chain in lock step, skipping
records with `max_size == 0` on both sides and comparing the sizes of the
remaining records pairwise (including that neither chain has extra data
records); that comparison succeeds exactly when these sequences are
equal. -/
def auxDataSizes (B : Nat → Nat) : List Nat :=
  (p_aux_offsets B).filterMap (fun off =>
    let ms := p_aux_max_size_at B off
    if ms ≠ 0 then some ms else none)

/-! Byte-buffer write primitives (for `sprintf` / `memcpy` / `strcpy` /
`memmove` / `memset` on `aux_hdrs`). -/

/-- Write the byte list `l` at offset `off`. -/
def writeBytes (B : Nat → Nat) (off : Nat) (l : List Nat) : Nat → Nat :=
  fun i => if off ≤ i ∧ i < off + l.length then l.getD (i - off) 0 else B i

/-- Write the single byte `v` at index `j`. -/
def writeByte (B : Nat → Nat) (j v : Nat) : Nat → Nat :=
  fun i => if i = j then v else B i

/-- Byte `j` (0-based, 8 bytes) of `sprintf("%8d", n)` for `n < 10^8`:
leading spaces, then the decimal digits. -/
def fmt8Byte (n j : Nat) : Nat :=
  if n < 10 ^ (7 - j) ∧ j ≠ 7 then 32 else 48 + (n / 10 ^ (7 - j)) % 10

/-- `sprintf("%8d", n)` as a byte list (for `n < 10^8`). -/
def fmt8 (n : Nat) : List Nat := (List.range 8).map (fmt8Byte n)

/-- `p_mod_add_aux` of cpfspd_aux.c.  The 48 mandatory bytes written by
`sprintf("%*d%-*s%*d%-*s", 8, 48+descr_len, 16, name, 8, max_size, 16, " ")`
are `fmt8 (48+descr_len) ++ padAuxName name ++ fmt8 max_size ++` 16 spaces,
followed by the terminating NUL of `sprintf`, the description bytes, and
the `P_AUX_LAST` sentinel written by `strcpy` (8 characters plus NUL).
On the duplicate-name and no-space error paths the function returns -1
without touching the header (in particular without setting `modified`). -/
def p_mod_add_aux (h : pT_header) (max_size : Nat) (name : List Nat)
    (descr : List Nat) : Int × pT_header :=
  if 0 ≤ p_get_aux_by_name h name then
    (-1, h)
  else
    let s := p_add_scan h.aux_hdrs P_SAUX_HDR 0 0
    let offset := s.1
    let aux_id := s.2
    if P_SAUX_HDR < offset + P_SMIN_VALID + descr.length + P_SAUX_HDRLEN + 1 then
      (-1, h)
    else
      let B1 := writeBytes h.aux_hdrs offset
        (fmt8 (P_SMIN_VALID + descr.length) ++ padAuxName name
          ++ fmt8 max_size ++ List.replicate P_SRESERVED 32)
      let B2 := writeByte B1 (offset + P_SMIN_VALID) 0
      let B3 := writeBytes B2 (offset + P_SMIN_VALID) descr
      let B4 := writeBytes B3 (offset + P_SMIN_VALID + descr.length) P_AUX_LAST_BYTES
      let B5 := writeByte B4 (offset + P_SMIN_VALID + descr.length + 8) 0
      ((aux_id : Int),
        { h with aux_hdrs := B5
                 nr_aux_data_recs :=
                   Int.tdiv ((p_aux_get_total B5 : Int) + h.bytes_rec - 1) h.bytes_rec
                 modified := 1 })

/-- `p_mod_rm_aux` of cpfspd_aux.c: splice the record out by moving the
following bytes forward (`memmove`), zero the vacated tail (`memset`), and
recompute `nr_aux_data_recs`.  `modified` is set to 1 even on the
invalid-id error path. -/
def p_mod_rm_aux (h : pT_header) (aux_id : Int) : pT_status × pT_header :=
  if aux_id < 0 ∨ (p_get_num_aux h : Int) ≤ aux_id then
    (P_INVALID_AUXILIARY, { h with modified := 1 })
  else
    let offset := p_skip_records h.aux_hdrs aux_id.toNat 0
    let len := p_aux_parse_int h.aux_hdrs offset P_SAUX_HDRLEN
    let moved : Nat → Nat := fun i =>
      if offset ≤ i ∧ i < P_SAUX_HDR - len then h.aux_hdrs (i + len) else h.aux_hdrs i
    let cleared : Nat → Nat := fun i =>
      if P_SAUX_HDR - len ≤ i ∧ i < P_SAUX_HDR then 0 else moved i
    (P_OK,
      { h with aux_hdrs := cleared
               nr_aux_data_recs :=
                 Int.tdiv ((p_aux_get_total cleared : Int) + h.bytes_rec - 1) h.bytes_rec
               modified := 1 })

end Cpfspd

namespace Cpfspd

open pT_status pT_color pT_data_fmt pT_freq pT_size pT_asp_rat

/-! ## Reasoning about the auxiliary record chain -/

/-- `AuxChain B o ls`: starting at offset `o`, the buffer `B` holds a chain
of valid records of lengths `ls` (each parsed length at least 48), followed
by a terminator (a parsed length below 48). -/
inductive AuxChain (B : Nat → Nat) : Nat → List Nat → Prop where
  | nil {o : Nat} : p_aux_parse_int B o P_SAUX_HDRLEN < P_SMIN_VALID → AuxChain B o []
  | cons {o l : Nat} {ls : List Nat} :
      p_aux_parse_int B o P_SAUX_HDRLEN = l → P_SMIN_VALID ≤ l →
      AuxChain B (o + l) ls → AuxChain B o (l :: ls)

theorem AuxChain.all_ge {B : Nat → Nat} {o : Nat} {ls : List Nat}
    (h : AuxChain B o ls) : ∀ l ∈ ls, P_SMIN_VALID ≤ l := by
  induction h with
  | nil => simp
  | cons hp hge _ ih =>
      intro l hl
      rcases List.mem_cons.mp hl with rfl | hl
      · exact hge
      · exact ih l hl

theorem AuxChain.length_le {B : Nat → Nat} {o : Nat} {ls : List Nat}
    (h : AuxChain B o ls) : 48 * ls.length ≤ ls.sum := by
  induction h with
  | nil => simp
  | cons hp hge _ ih =>
      simp only [List.length_cons, List.sum_cons]
      simp only [P_SMIN_VALID] at hge
      omega

theorem p_add_scan_succ (B : Nat → Nat) (fuel off i : Nat) :
    p_add_scan B (fuel + 1) off i
      = if P_SMIN_VALID ≤ p_aux_parse_int B off P_SAUX_HDRLEN then
          p_add_scan B fuel (off + p_aux_parse_int B off P_SAUX_HDRLEN) (i + 1)
        else (off, i) := rfl

theorem p_num_aux_scan_succ (B : Nat → Nat) (fuel off : Nat) :
    p_num_aux_scan B (fuel + 1) off
      = if P_SMIN_VALID ≤ p_aux_parse_int B off P_SAUX_HDRLEN then
          1 + p_num_aux_scan B fuel (off + p_aux_parse_int B off P_SAUX_HDRLEN)
        else 0 := rfl

theorem p_aux_total_scan_succ (B : Nat → Nat) (fuel off : Nat) :
    p_aux_total_scan B (fuel + 1) off
      = if P_SMIN_VALID ≤ p_aux_parse_int B off P_SAUX_HDRLEN then
          (if 0 < p_aux_parse_int B (off + P_SAUX_HDRLEN + P_SAUX_NAME) P_SMAX_LEN then
              p_aux_parse_int B (off + P_SAUX_HDRLEN + P_SAUX_NAME) P_SMAX_LEN + P_SMAX_LEN
            else 0)
            + p_aux_total_scan B fuel (off + p_aux_parse_int B off P_SAUX_HDRLEN)
        else 0 := rfl

theorem p_aux_offsets_scan_succ (B : Nat → Nat) (fuel off : Nat) :
    p_aux_offsets_scan B (fuel + 1) off
      = if P_SMIN_VALID ≤ p_aux_parse_int B off P_SAUX_HDRLEN then
          off :: p_aux_offsets_scan B fuel (off + p_aux_parse_int B off P_SAUX_HDRLEN)
        else [] := rfl

/-- `p_aux_parse_int` only reads the 8 bytes at its offset. -/
theorem p_aux_parse_int_congr {B1 B0 : Nat → Nat} {off : Nat}
    (h : ∀ j < 8, B1 (off + j) = B0 (off + j)) :
    p_aux_parse_int B1 off P_SAUX_HDRLEN = p_aux_parse_int B0 off P_SAUX_HDRLEN := by
  unfold p_aux_parse_int
  have hl : (List.range (min P_SAUX_HDRLEN 8)).map (fun i => B1 (off + i))
      = (List.range (min P_SAUX_HDRLEN 8)).map (fun i => B0 (off + i)) := by
    refine List.map_congr_left ?_
    intro a ha
    exact h a (by simpa [P_SAUX_HDRLEN] using List.mem_range.mp ha)
  rw [hl]

theorem p_add_scan_eq {B : Nat → Nat} {o : Nat} {ls : List Nat}
    (h : AuxChain B o ls) :
    ∀ fuel i, ls.length < fuel → p_add_scan B fuel o i = (o + ls.sum, i + ls.length) := by
  induction h with
  | @nil o hp =>
      intro fuel i hf
      cases fuel with
      | zero => omega
      | succ fuel => rw [p_add_scan_succ, if_neg (Nat.not_le.mpr hp)]; simp
  | @cons o l ls hp hge _ ih =>
      intro fuel i hf
      cases fuel with
      | zero => simp at hf
      | succ fuel =>
          have hrec := ih fuel (i + 1) (by simpa using Nat.lt_of_succ_lt_succ hf)
          rw [p_add_scan_succ, hp, if_pos hge, hrec]
          simp only [List.sum_cons, List.length_cons, Prod.mk.injEq]
          exact ⟨by omega, by omega⟩

theorem p_num_aux_scan_eq {B : Nat → Nat} {o : Nat} {ls : List Nat}
    (h : AuxChain B o ls) :
    ∀ fuel, ls.length < fuel → p_num_aux_scan B fuel o = ls.length := by
  induction h with
  | @nil o hp =>
      intro fuel hf
      cases fuel with
      | zero => omega
      | succ fuel => rw [p_num_aux_scan_succ, if_neg (Nat.not_le.mpr hp)]; simp
  | @cons o l ls hp hge _ ih =>
      intro fuel hf
      cases fuel with
      | zero => simp at hf
      | succ fuel =>
          have hrec := ih fuel (by simpa using Nat.lt_of_succ_lt_succ hf)
          rw [p_num_aux_scan_succ, hp, if_pos hge, hrec]
          simp only [List.length_cons]
          omega

theorem p_skip_records_eq {B : Nat → Nat} :
    ∀ (ls rest : List Nat) (o : Nat), AuxChain B o (ls ++ rest) →
      p_skip_records B ls.length o = o + ls.sum := by
  intro ls
  induction ls with
  | nil => intro rest o _; simp [p_skip_records]
  | cons l ls ih =>
      intro rest o h
      cases h with
      | cons hp hge htail =>
          simp only [List.length_cons, List.sum_cons, p_skip_records, hp]
          rw [ih rest _ htail]
          omega

/-- A chain is preserved, and extended by one record, when the bytes below
its sentinel offset are unchanged and a new valid record followed by a
terminator is found at the old sentinel offset. -/
theorem AuxChain.append_one {B B1 : Nat → Nat} {L : Nat} :
    ∀ {o : Nat} {ls : List Nat}, AuxChain B o ls →
      (∀ i, o ≤ i → i < o + ls.sum → B1 i = B i) →
      p_aux_parse_int B1 (o + ls.sum) P_SAUX_HDRLEN = L →
      P_SMIN_VALID ≤ L →
      p_aux_parse_int B1 (o + ls.sum + L) P_SAUX_HDRLEN < P_SMIN_VALID →
      AuxChain B1 o (ls ++ [L]) := by
  intro o ls h
  induction h with
  | @nil o hp =>
      intro _ hL hge hterm
      simp only [List.sum_nil, Nat.add_zero] at hL hterm
      exact AuxChain.cons hL hge (AuxChain.nil hterm)
  | @cons o l ls hp hge htail ih =>
      intro hagree hL hge' hterm
      have h48 : 48 ≤ l := by simpa [P_SMIN_VALID] using hge
      have hsum : (l :: ls).sum = l + ls.sum := List.sum_cons
      refine AuxChain.cons ?_ hge ?_
      · rw [@p_aux_parse_int_congr B1 B o fun j hj =>
          hagree (o + j) (by omega) (by rw [hsum]; omega)]
        exact hp
      · refine ih (fun i h1 h2 => hagree i (by omega) (by rw [hsum]; omega)) ?_ hge' ?_
        · rw [show o + l + ls.sum = o + (l :: ls).sum by rw [hsum]; omega]
          exact hL
        · rw [show o + l + ls.sum + L = o + (l :: ls).sum + L by rw [hsum]; omega]
          exact hterm

end Cpfspd

namespace Cpfspd

open pT_status pT_color pT_data_fmt pT_freq pT_size pT_asp_rat

/-! ## Parsing back a formatted decimal field -/

theorem dropWhile_spaces_replicate (k : Nat) (D : List Nat) :
    (List.replicate k 32 ++ D).dropWhile (fun b => b == 32)
      = D.dropWhile (fun b => b == 32) := by
  induction k with
  | zero => simp
  | succ k ih => simpa [List.replicate_succ] using ih

theorem dropWhile_spaces_of_digit {b : Nat} (hb : 48 ≤ b) (t : List Nat) :
    (b :: t).dropWhile (fun b => b == 32) = b :: t := by
  have : (b == 32) = false := by simp; omega
  simp [List.dropWhile, this]

theorem takeWhile_digits_self {D : List Nat} (hD : ∀ b ∈ D, 48 ≤ b ∧ b ≤ 57) :
    D.takeWhile (fun b => 48 ≤ b && b ≤ 57) = D := by
  induction D with
  | nil => rfl
  | cons b t ih =>
      have hb := hD b (by simp)
      have h1 : (decide (48 ≤ b) && decide (b ≤ 57)) = true := by
        simp [hb.1, hb.2]
      simp only [List.takeWhile]
      rw [h1]
      simp [ih (fun x hx => hD x (by simp [hx]))]

theorem atoiBytes_spaces_digits {k : Nat} {D : List Nat} (hne : D ≠ [])
    (hdig : ∀ b ∈ D, 48 ≤ b ∧ b ≤ 57) :
    atoiBytes (List.replicate k 32 ++ D)
      = D.foldl (fun acc b => 10 * acc + (b - 48)) 0 := by
  unfold atoiBytes
  rw [dropWhile_spaces_replicate]
  cases D with
  | nil => simp at hne
  | cons b t =>
      rw [dropWhile_spaces_of_digit (hdig b (by simp)).1]
      rw [takeWhile_digits_self hdig]

theorem fmt8_list (n : Nat) :
    fmt8 n = [fmt8Byte n 0, fmt8Byte n 1, fmt8Byte n 2, fmt8Byte n 3,
      fmt8Byte n 4, fmt8Byte n 5, fmt8Byte n 6, fmt8Byte n 7] := by
  simp [fmt8, List.range_succ]

theorem fmt8Byte_space {n j : Nat} (h : n < 10 ^ (7 - j)) (hj : j ≠ 7) :
    fmt8Byte n j = 32 := by
  unfold fmt8Byte
  rw [if_pos ⟨h, hj⟩]

theorem fmt8Byte_digit {n j : Nat} (h : ¬(n < 10 ^ (7 - j) ∧ j ≠ 7)) :
    fmt8Byte n j = 48 + (n / 10 ^ (7 - j)) % 10 := by
  unfold fmt8Byte
  rw [if_neg h]

theorem digit_byte_bounds (m : Nat) : 48 ≤ 48 + m % 10 ∧ 48 + m % 10 ≤ 57 := by omega

theorem fmt8_all_space_or_digit (n : Nat) :
    (fmt8 n).all isSpaceOrDigitByte = true := by
  rw [fmt8_list, List.all_cons, List.all_cons, List.all_cons, List.all_cons,
    List.all_cons, List.all_cons, List.all_cons, List.all_cons]
  have h : ∀ j, isSpaceOrDigitByte (fmt8Byte n j) = true := by
    intro j
    unfold fmt8Byte isSpaceOrDigitByte
    by_cases hc : n < 10 ^ (7 - j) ∧ j ≠ 7
    · rw [if_pos hc]; simp
    · rw [if_neg hc]; simp; omega
  simp [h]

/-- `atoi` reads back the value written by `sprintf("%8d", n)` for any
`n < 10^8`. -/
theorem atoiBytes_fmt8 (n : Nat) (hn : n < 100000000) : atoiBytes (fmt8 n) = n := by
  rcases Nat.lt_or_ge n 10 with h1 | h1
  · rw [fmt8_list,
      fmt8Byte_space (j := 0) (by norm_num; omega) (by omega),
      fmt8Byte_space (j := 1) (by norm_num; omega) (by omega),
      fmt8Byte_space (j := 2) (by norm_num; omega) (by omega),
      fmt8Byte_space (j := 3) (by norm_num; omega) (by omega),
      fmt8Byte_space (j := 4) (by norm_num; omega) (by omega),
      fmt8Byte_space (j := 5) (by norm_num; omega) (by omega),
      fmt8Byte_space (j := 6) (by norm_num; omega) (by omega),
      fmt8Byte_digit (j := 7) (by simp)]
    have hfold := atoiBytes_spaces_digits (k := 7)
      (D := [48 + n / 10 ^ (7 - (7:Nat)) % 10]) (by simp)
      (by intro b hb; fin_cases hb <;> omega)
    simp only [List.replicate] at hfold
    rw [show ([32, 32, 32, 32, 32, 32, 32, 48 + n / 10 ^ (7 - (7:Nat)) % 10] : List Nat)
        = [32, 32, 32, 32, 32, 32, 32] ++ [48 + n / 10 ^ (7 - (7:Nat)) % 10] by simp]
    rw [hfold]
    simp only [List.foldl]
    norm_num
    omega
  rcases Nat.lt_or_ge n 100 with h2 | h2
  · rw [fmt8_list,
      fmt8Byte_space (j := 0) (by norm_num; omega) (by omega),
      fmt8Byte_space (j := 1) (by norm_num; omega) (by omega),
      fmt8Byte_space (j := 2) (by norm_num; omega) (by omega),
      fmt8Byte_space (j := 3) (by norm_num; omega) (by omega),
      fmt8Byte_space (j := 4) (by norm_num; omega) (by omega),
      fmt8Byte_space (j := 5) (by norm_num; omega) (by omega),
      fmt8Byte_digit (j := 6) (by norm_num; omega),
      fmt8Byte_digit (j := 7) (by simp)]
    have hfold := atoiBytes_spaces_digits (k := 6)
      (D := [48 + n / 10 ^ (7 - (6:Nat)) % 10, 48 + n / 10 ^ (7 - (7:Nat)) % 10]) (by simp)
      (by intro b hb; fin_cases hb <;> omega)
    simp only [List.replicate] at hfold
    rw [show ([32, 32, 32, 32, 32, 32, 48 + n / 10 ^ (7 - (6:Nat)) % 10, 48 + n / 10 ^ (7 - (7:Nat)) % 10] : List Nat)
        = [32, 32, 32, 32, 32, 32] ++ [48 + n / 10 ^ (7 - (6:Nat)) % 10, 48 + n / 10 ^ (7 - (7:Nat)) % 10] by simp]
    rw [hfold]
    simp only [List.foldl]
    norm_num
    omega
  rcases Nat.lt_or_ge n 1000 with h3 | h3
  · rw [fmt8_list,
      fmt8Byte_space (j := 0) (by norm_num; omega) (by omega),
      fmt8Byte_space (j := 1) (by norm_num; omega) (by omega),
      fmt8Byte_space (j := 2) (by norm_num; omega) (by omega),
      fmt8Byte_space (j := 3) (by norm_num; omega) (by omega),
      fmt8Byte_space (j := 4) (by norm_num; omega) (by omega),
      fmt8Byte_digit (j := 5) (by norm_num; omega),
      fmt8Byte_digit (j := 6) (by norm_num; omega),
      fmt8Byte_digit (j := 7) (by simp)]
    have hfold := atoiBytes_spaces_digits (k := 5)
      (D := [48 + n / 10 ^ (7 - (5:Nat)) % 10, 48 + n / 10 ^ (7 - (6:Nat)) % 10, 48 + n / 10 ^ (7 - (7:Nat)) % 10]) (by simp)
      (by intro b hb; fin_cases hb <;> omega)
    simp only [List.replicate] at hfold
    rw [show ([32, 32, 32, 32, 32, 48 + n / 10 ^ (7 - (5:Nat)) % 10, 48 + n / 10 ^ (7 - (6:Nat)) % 10, 48 + n / 10 ^ (7 - (7:Nat)) % 10] : List Nat)
        = [32, 32, 32, 32, 32] ++ [48 + n / 10 ^ (7 - (5:Nat)) % 10, 48 + n / 10 ^ (7 - (6:Nat)) % 10, 48 + n / 10 ^ (7 - (7:Nat)) % 10] by simp]
    rw [hfold]
    simp only [List.foldl]
    norm_num
    omega
  rcases Nat.lt_or_ge n 10000 with h4 | h4
  · rw [fmt8_list,
      fmt8Byte_space (j := 0) (by norm_num; omega) (by omega),
      fmt8Byte_space (j := 1) (by norm_num; omega) (by omega),
      fmt8Byte_space (j := 2) (by norm_num; omega) (by omega),
      fmt8Byte_space (j := 3) (by norm_num; omega) (by omega),
      fmt8Byte_digit (j := 4) (by norm_num; omega),
      fmt8Byte_digit (j := 5) (by norm_num; omega),
      fmt8Byte_digit (j := 6) (by norm_num; omega),
      fmt8Byte_digit (j := 7) (by simp)]
    have hfold := atoiBytes_spaces_digits (k := 4)
      (D := [48 + n / 10 ^ (7 - (4:Nat)) % 10, 48 + n / 10 ^ (7 - (5:Nat)) % 10, 48 + n / 10 ^ (7 - (6:Nat)) % 10, 48 + n / 10 ^ (7 - (7:Nat)) % 10]) (by simp)
      (by intro b hb; fin_cases hb <;> omega)
    simp only [List.replicate] at hfold
    rw [show ([32, 32, 32, 32, 48 + n / 10 ^ (7 - (4:Nat)) % 10, 48 + n / 10 ^ (7 - (5:Nat)) % 10, 48 + n / 10 ^ (7 - (6:Nat)) % 10, 48 + n / 10 ^ (7 - (7:Nat)) % 10] : List Nat)
        = [32, 32, 32, 32] ++ [48 + n / 10 ^ (7 - (4:Nat)) % 10, 48 + n / 10 ^ (7 - (5:Nat)) % 10, 48 + n / 10 ^ (7 - (6:Nat)) % 10, 48 + n / 10 ^ (7 - (7:Nat)) % 10] by simp]
    rw [hfold]
    simp only [List.foldl]
    norm_num
    omega
  rcases Nat.lt_or_ge n 100000 with h5 | h5
  · rw [fmt8_list,
      fmt8Byte_space (j := 0) (by norm_num; omega) (by omega),
      fmt8Byte_space (j := 1) (by norm_num; omega) (by omega),
      fmt8Byte_space (j := 2) (by norm_num; omega) (by omega),
      fmt8Byte_digit (j := 3) (by norm_num; omega),
      fmt8Byte_digit (j := 4) (by norm_num; omega),
      fmt8Byte_digit (j := 5) (by norm_num; omega),
      fmt8Byte_digit (j := 6) (by norm_num; omega),
      fmt8Byte_digit (j := 7) (by simp)]
    have hfold := atoiBytes_spaces_digits (k := 3)
      (D := [48 + n / 10 ^ (7 - (3:Nat)) % 10, 48 + n / 10 ^ (7 - (4:Nat)) % 10, 48 + n / 10 ^ (7 - (5:Nat)) % 10, 48 + n / 10 ^ (7 - (6:Nat)) % 10, 48 + n / 10 ^ (7 - (7:Nat)) % 10]) (by simp)
      (by intro b hb; fin_cases hb <;> omega)
    simp only [List.replicate] at hfold
    rw [show ([32, 32, 32, 48 + n / 10 ^ (7 - (3:Nat)) % 10, 48 + n / 10 ^ (7 - (4:Nat)) % 10, 48 + n / 10 ^ (7 - (5:Nat)) % 10, 48 + n / 10 ^ (7 - (6:Nat)) % 10, 48 + n / 10 ^ (7 - (7:Nat)) % 10] : List Nat)
        = [32, 32, 32] ++ [48 + n / 10 ^ (7 - (3:Nat)) % 10, 48 + n / 10 ^ (7 - (4:Nat)) % 10, 48 + n / 10 ^ (7 - (5:Nat)) % 10, 48 + n / 10 ^ (7 - (6:Nat)) % 10, 48 + n / 10 ^ (7 - (7:Nat)) % 10] by simp]
    rw [hfold]
    simp only [List.foldl]
    norm_num
    omega
  rcases Nat.lt_or_ge n 1000000 with h6 | h6
  · rw [fmt8_list,
      fmt8Byte_space (j := 0) (by norm_num; omega) (by omega),
      fmt8Byte_space (j := 1) (by norm_num; omega) (by omega),
      fmt8Byte_digit (j := 2) (by norm_num; omega),
      fmt8Byte_digit (j := 3) (by norm_num; omega),
      fmt8Byte_digit (j := 4) (by norm_num; omega),
      fmt8Byte_digit (j := 5) (by norm_num; omega),
      fmt8Byte_digit (j := 6) (by norm_num; omega),
      fmt8Byte_digit (j := 7) (by simp)]
    have hfold := atoiBytes_spaces_digits (k := 2)
      (D := [48 + n / 10 ^ (7 - (2:Nat)) % 10, 48 + n / 10 ^ (7 - (3:Nat)) % 10, 48 + n / 10 ^ (7 - (4:Nat)) % 10, 48 + n / 10 ^ (7 - (5:Nat)) % 10, 48 + n / 10 ^ (7 - (6:Nat)) % 10, 48 + n / 10 ^ (7 - (7:Nat)) % 10]) (by simp)
      (by intro b hb; fin_cases hb <;> omega)
    simp only [List.replicate] at hfold
    rw [show ([32, 32, 48 + n / 10 ^ (7 - (2:Nat)) % 10, 48 + n / 10 ^ (7 - (3:Nat)) % 10, 48 + n / 10 ^ (7 - (4:Nat)) % 10, 48 + n / 10 ^ (7 - (5:Nat)) % 10, 48 + n / 10 ^ (7 - (6:Nat)) % 10, 48 + n / 10 ^ (7 - (7:Nat)) % 10] : List Nat)
        = [32, 32] ++ [48 + n / 10 ^ (7 - (2:Nat)) % 10, 48 + n / 10 ^ (7 - (3:Nat)) % 10, 48 + n / 10 ^ (7 - (4:Nat)) % 10, 48 + n / 10 ^ (7 - (5:Nat)) % 10, 48 + n / 10 ^ (7 - (6:Nat)) % 10, 48 + n / 10 ^ (7 - (7:Nat)) % 10] by simp]
    rw [hfold]
    simp only [List.foldl]
    norm_num
    omega
  rcases Nat.lt_or_ge n 10000000 with h7 | h7
  · rw [fmt8_list,
      fmt8Byte_space (j := 0) (by norm_num; omega) (by omega),
      fmt8Byte_digit (j := 1) (by norm_num; omega),
      fmt8Byte_digit (j := 2) (by norm_num; omega),
      fmt8Byte_digit (j := 3) (by norm_num; omega),
      fmt8Byte_digit (j := 4) (by norm_num; omega),
      fmt8Byte_digit (j := 5) (by norm_num; omega),
      fmt8Byte_digit (j := 6) (by norm_num; omega),
      fmt8Byte_digit (j := 7) (by simp)]
    have hfold := atoiBytes_spaces_digits (k := 1)
      (D := [48 + n / 10 ^ (7 - (1:Nat)) % 10, 48 + n / 10 ^ (7 - (2:Nat)) % 10, 48 + n / 10 ^ (7 - (3:Nat)) % 10, 48 + n / 10 ^ (7 - (4:Nat)) % 10, 48 + n / 10 ^ (7 - (5:Nat)) % 10, 48 + n / 10 ^ (7 - (6:Nat)) % 10, 48 + n / 10 ^ (7 - (7:Nat)) % 10]) (by simp)
      (by intro b hb; fin_cases hb <;> omega)
    simp only [List.replicate] at hfold
    rw [show ([32, 48 + n / 10 ^ (7 - (1:Nat)) % 10, 48 + n / 10 ^ (7 - (2:Nat)) % 10, 48 + n / 10 ^ (7 - (3:Nat)) % 10, 48 + n / 10 ^ (7 - (4:Nat)) % 10, 48 + n / 10 ^ (7 - (5:Nat)) % 10, 48 + n / 10 ^ (7 - (6:Nat)) % 10, 48 + n / 10 ^ (7 - (7:Nat)) % 10] : List Nat)
        = [32] ++ [48 + n / 10 ^ (7 - (1:Nat)) % 10, 48 + n / 10 ^ (7 - (2:Nat)) % 10, 48 + n / 10 ^ (7 - (3:Nat)) % 10, 48 + n / 10 ^ (7 - (4:Nat)) % 10, 48 + n / 10 ^ (7 - (5:Nat)) % 10, 48 + n / 10 ^ (7 - (6:Nat)) % 10, 48 + n / 10 ^ (7 - (7:Nat)) % 10] by simp]
    rw [hfold]
    simp only [List.foldl]
    norm_num
    omega
  · rw [fmt8_list,
      fmt8Byte_digit (j := 0) (by norm_num; omega),
      fmt8Byte_digit (j := 1) (by norm_num; omega),
      fmt8Byte_digit (j := 2) (by norm_num; omega),
      fmt8Byte_digit (j := 3) (by norm_num; omega),
      fmt8Byte_digit (j := 4) (by norm_num; omega),
      fmt8Byte_digit (j := 5) (by norm_num; omega),
      fmt8Byte_digit (j := 6) (by norm_num; omega),
      fmt8Byte_digit (j := 7) (by simp)]
    have hfold := atoiBytes_spaces_digits (k := 0)
      (D := [48 + n / 10 ^ (7 - (0:Nat)) % 10, 48 + n / 10 ^ (7 - (1:Nat)) % 10, 48 + n / 10 ^ (7 - (2:Nat)) % 10, 48 + n / 10 ^ (7 - (3:Nat)) % 10, 48 + n / 10 ^ (7 - (4:Nat)) % 10, 48 + n / 10 ^ (7 - (5:Nat)) % 10, 48 + n / 10 ^ (7 - (6:Nat)) % 10, 48 + n / 10 ^ (7 - (7:Nat)) % 10]) (by simp)
      (by intro b hb; fin_cases hb <;> omega)
    simp only [List.replicate] at hfold
    rw [show ([48 + n / 10 ^ (7 - (0:Nat)) % 10, 48 + n / 10 ^ (7 - (1:Nat)) % 10, 48 + n / 10 ^ (7 - (2:Nat)) % 10, 48 + n / 10 ^ (7 - (3:Nat)) % 10, 48 + n / 10 ^ (7 - (4:Nat)) % 10, 48 + n / 10 ^ (7 - (5:Nat)) % 10, 48 + n / 10 ^ (7 - (6:Nat)) % 10, 48 + n / 10 ^ (7 - (7:Nat)) % 10] : List Nat)
        = [] ++ [48 + n / 10 ^ (7 - (0:Nat)) % 10, 48 + n / 10 ^ (7 - (1:Nat)) % 10, 48 + n / 10 ^ (7 - (2:Nat)) % 10, 48 + n / 10 ^ (7 - (3:Nat)) % 10, 48 + n / 10 ^ (7 - (4:Nat)) % 10, 48 + n / 10 ^ (7 - (5:Nat)) % 10, 48 + n / 10 ^ (7 - (6:Nat)) % 10, 48 + n / 10 ^ (7 - (7:Nat)) % 10] by simp]
    rw [hfold]
    simp only [List.foldl]
    norm_num
    omega

end Cpfspd

namespace Cpfspd

open pT_status pT_color pT_data_fmt pT_freq pT_size pT_asp_rat

/-! ## Byte-buffer access lemmas -/

theorem writeBytes_out {B : Nat → Nat} {off : Nat} {l : List Nat} {i : Nat}
    (h : i < off ∨ off + l.length ≤ i) : writeBytes B off l i = B i := by
  unfold writeBytes
  rw [if_neg]
  omega

theorem writeBytes_in {B : Nat → Nat} {off : Nat} {l : List Nat} {i : Nat}
    (h1 : off ≤ i) (h2 : i < off + l.length) :
    writeBytes B off l i = l.getD (i - off) 0 := by
  unfold writeBytes
  rw [if_pos ⟨h1, h2⟩]

theorem writeByte_ne {B : Nat → Nat} {j v i : Nat} (h : i ≠ j) :
    writeByte B j v i = B i := by
  unfold writeByte
  rw [if_neg h]

theorem writeByte_at {B : Nat → Nat} {j v : Nat} : writeByte B j v j = v := by
  unfold writeByte
  rw [if_pos rfl]

/-- When the 8 bytes at `off` spell out the list `l`, parsing reduces to
`atoiBytes l` (guarded by the character check). -/
theorem p_aux_parse_int_eq_of_bytes {B : Nat → Nat} {off : Nat} {l : List Nat}
    (hlen : l.length = 8) (hb : ∀ j < 8, B (off + j) = l.getD j 0) :
    p_aux_parse_int B off P_SAUX_HDRLEN
      = if l.all isSpaceOrDigitByte then atoiBytes l else 0 := by
  unfold p_aux_parse_int
  have hmap : (List.range (min P_SAUX_HDRLEN 8)).map (fun i => B (off + i)) = l := by
    apply List.ext_getElem
    · simp [P_SAUX_HDRLEN, hlen]
    · intro j h1 h2
      simp only [List.getElem_map, List.getElem_range]
      rw [hb j (by simpa [P_SAUX_HDRLEN] using h1)]
      exact List.getD_eq_getElem l 0 h2
  rw [hmap]

theorem atoiBytes_sentinel : atoiBytes P_AUX_LAST_BYTES = 8 := by decide

theorem sentinel_all_space_or_digit : P_AUX_LAST_BYTES.all isSpaceOrDigitByte = true := by
  decide

/-- Parsing at an offset holding the `P_AUX_LAST` sentinel yields 8. -/
theorem p_aux_parse_int_sentinel {B : Nat → Nat} {off : Nat}
    (hb : ∀ j < 8, B (off + j) = P_AUX_LAST_BYTES.getD j 0) :
    p_aux_parse_int B off P_SAUX_HDRLEN = 8 := by
  rw [p_aux_parse_int_eq_of_bytes (l := P_AUX_LAST_BYTES) (by decide) hb,
    if_pos sentinel_all_space_or_digit, atoiBytes_sentinel]

/-- Parsing at an offset holding `fmt8 n` yields `n` (for `n < 10^8`). -/
theorem p_aux_parse_int_fmt8 {B : Nat → Nat} {off n : Nat} (hn : n < 100000000)
    (hb : ∀ j < 8, B (off + j) = (fmt8 n).getD j 0) :
    p_aux_parse_int B off P_SAUX_HDRLEN = n := by
  rw [p_aux_parse_int_eq_of_bytes (l := fmt8 n) (by simp [fmt8]) hb,
    if_pos (fmt8_all_space_or_digit n), atoiBytes_fmt8 n hn]

end Cpfspd

namespace Cpfspd

open pT_status pT_color pT_data_fmt pT_freq pT_size pT_asp_rat

/-- Behaviour of a successful `p_mod_add_aux` on a well-formed catalog:
it returns the index of the new record (the old record count), writes the
new record at the old sentinel offset followed by a fresh sentinel, and
leaves all bytes below the old sentinel offset and beyond the written
region untouched.  (Constants are unfolded: `P_SMIN_VALID = 48`,
`P_SAUX_HDRLEN = 8`.) -/
theorem p_mod_add_aux_spec (h : pT_header) (max_size : Nat) (name descr : List Nat)
    (ls : List Nat)
    (hchain : AuxChain h.aux_hdrs 0 ls)
    (hfit : ls.sum + 48 + descr.length + 9 ≤ 16384)
    (hnodup : p_get_aux_by_name h name = -1)
    (hname : name.length ≤ 16) :
    ∃ B5 : Nat → Nat,
      p_mod_add_aux h max_size name descr
        = ((ls.length : Int),
           { h with aux_hdrs := B5
                    nr_aux_data_recs :=
                      Int.tdiv ((p_aux_get_total B5 : Int) + h.bytes_rec - 1) h.bytes_rec
                    modified := 1 })
      ∧ (∀ i, i < ls.sum → B5 i = h.aux_hdrs i)
      ∧ (∀ j, j < 8 → B5 (ls.sum + j) = (fmt8 (48 + descr.length)).getD j 0)
      ∧ (∀ j, j < 8 →
          B5 (ls.sum + 48 + descr.length + j) = P_AUX_LAST_BYTES.getD j 0)
      ∧ B5 (ls.sum + 48 + descr.length + 8) = 0
      ∧ (∀ i, ls.sum + 48 + descr.length + 9 ≤ i → B5 i = h.aux_hdrs i) := by
  have hlen48 : 48 * ls.length ≤ ls.sum := hchain.length_le
  have hscan : p_add_scan h.aux_hdrs 16384 0 0 = (ls.sum, ls.length) := by
    simpa [P_SAUX_HDR] using p_add_scan_eq hchain P_SAUX_HDR 0 (by simp [P_SAUX_HDR]; omega)
  have hRlen : (fmt8 (48 + descr.length) ++ padAuxName name
      ++ fmt8 max_size ++ List.replicate 16 32).length = 48 := by
    simp [fmt8, padAuxName, P_SAUX_NAME]
    omega
  have hPadLen : (padAuxName name).length = 16 := by
    simp [padAuxName, P_SAUX_NAME]
    omega
  refine ⟨writeByte (writeBytes (writeBytes (writeByte (writeBytes h.aux_hdrs ls.sum
      (fmt8 (48 + descr.length) ++ padAuxName name
        ++ fmt8 max_size ++ List.replicate 16 32))
      (ls.sum + 48) 0)
      (ls.sum + 48) descr)
      (ls.sum + 48 + descr.length) P_AUX_LAST_BYTES)
      (ls.sum + 48 + descr.length + 8) 0, ?_, ?_, ?_, ?_, ?_, ?_⟩
  · simp only [p_mod_add_aux, P_SMIN_VALID, P_SAUX_HDRLEN, P_SAUX_HDR, P_SRESERVED,
      hnodup, hscan]
    rw [if_neg (by norm_num), if_neg (by omega)]
  · intro i hi
    rw [writeByte_ne (by omega),
      writeBytes_out (Or.inl (by omega)),
      writeBytes_out (Or.inl (by omega)),
      writeByte_ne (by omega),
      writeBytes_out (Or.inl (by omega))]
  · intro j hj
    rw [writeByte_ne (by omega),
      writeBytes_out (Or.inl (by omega)),
      writeBytes_out (Or.inl (by omega)),
      writeByte_ne (by omega),
      writeBytes_in (by omega) (by rw [hRlen]; omega)]
    rw [show ls.sum + j - ls.sum = j by omega]
    rw [List.getD_append _ _ _ _ (by simp [fmt8, hPadLen]; omega),
      List.getD_append _ _ _ _ (by simp [fmt8, hPadLen]; omega),
      List.getD_append _ _ _ _ (by simp [fmt8]; omega)]
  · intro j hj
    rw [writeByte_ne (by omega),
      writeBytes_in (by omega) (by simp [P_AUX_LAST_BYTES]; omega)]
    rw [show ls.sum + 48 + descr.length + j - (ls.sum + 48 + descr.length) = j by omega]
  · exact writeByte_at
  · intro i hi
    rw [writeByte_ne (by omega),
      writeBytes_out (Or.inr (by simp [P_AUX_LAST_BYTES]; omega)),
      writeBytes_out (Or.inr (by omega)),
      writeByte_ne (by omega),
      writeBytes_out (Or.inr (by rw [hRlen]; omega))]

end Cpfspd

namespace Cpfspd

open pT_status pT_color pT_data_fmt pT_freq pT_size pT_asp_rat

/-- Behaviour of `p_mod_rm_aux` when removing the last record of a
well-formed chain: the bytes from the removed record onward are shifted
forward by its length, the vacated tail is zero-filled, and
`nr_aux_data_recs` is recomputed. -/
theorem p_mod_rm_aux_last_spec (h1 : pT_header) (ls : List Nat) (L : Nat)
    (hchain5 : AuxChain h1.aux_hdrs 0 (ls ++ [L]))
    (hparse : p_aux_parse_int h1.aux_hdrs ls.sum P_SAUX_HDRLEN = L)
    (hlslen : ls.length + 1 < 16384) :
    p_mod_rm_aux h1 (ls.length : Int)
      = (P_OK,
         { h1 with
           aux_hdrs := fun i =>
             if P_SAUX_HDR - L ≤ i ∧ i < P_SAUX_HDR then 0
             else if ls.sum ≤ i ∧ i < P_SAUX_HDR - L then h1.aux_hdrs (i + L)
             else h1.aux_hdrs i
           nr_aux_data_recs :=
             Int.tdiv ((p_aux_get_total (fun i =>
               if P_SAUX_HDR - L ≤ i ∧ i < P_SAUX_HDR then 0
               else if ls.sum ≤ i ∧ i < P_SAUX_HDR - L then h1.aux_hdrs (i + L)
               else h1.aux_hdrs i) : Int) + h1.bytes_rec - 1) h1.bytes_rec
           modified := 1 }) := by
  have hlen48 : 48 * (ls ++ [L]).length ≤ (ls ++ [L]).sum := hchain5.length_le
  have hsum48 : (ls ++ [L]).sum = ls.sum + L := by simp
  have hnum1 : p_get_num_aux h1 = ls.length + 1 := by
    unfold p_get_num_aux
    have := p_num_aux_scan_eq hchain5 P_SAUX_HDR
      (by simp only [P_SAUX_HDR]; simp; omega)
    simpa using this
  have hskip : p_skip_records h1.aux_hdrs ls.length 0 = ls.sum := by
    simpa using p_skip_records_eq ls [L] 0 hchain5
  simp only [p_mod_rm_aux, hnum1]
  rw [if_neg (by push_cast; omega)]
  simp only [Int.toNat_natCast, hskip, hparse]

/-- C9, amended: on a header whose auxiliary catalog is a well-formed
chain terminated by the standard sentinel with a zero-filled tail, a
successful `p_mod_add_aux` followed by `p_mod_rm_aux` of the id it
returned always restores the `aux_hdrs` byte region byte-identically
(including the zero-filled tail); `nr_aux_data_recs`, however, is not
copied back but recomputed from the restored catalog as
`⌈total payload / bytes_rec⌉`, so it regains its old value exactly when
the old value already equaled that recomputed consistent value. -/
theorem C9_aux_add_remove_roundtrip (h : pT_header) (max_size : Nat)
    (name descr ls : List Nat)
    (hchain : AuxChain h.aux_hdrs 0 ls)
    (hsent : ∀ j, j < 8 → h.aux_hdrs (ls.sum + j) = P_AUX_LAST_BYTES.getD j 0)
    (htail : ∀ i, ls.sum + 8 ≤ i → h.aux_hdrs i = 0)
    (hfit : ls.sum + 48 + descr.length + 9 ≤ 16384)
    (hnodup : p_get_aux_by_name h name = -1)
    (hname : name.length ≤ 16) :
    0 ≤ (p_mod_add_aux h max_size name descr).1
      ∧ (p_mod_rm_aux (p_mod_add_aux h max_size name descr).2
          (p_mod_add_aux h max_size name descr).1).1 = P_OK
      ∧ (∀ i, (p_mod_rm_aux (p_mod_add_aux h max_size name descr).2
          (p_mod_add_aux h max_size name descr).1).2.aux_hdrs i = h.aux_hdrs i)
      ∧ (p_mod_rm_aux (p_mod_add_aux h max_size name descr).2
          (p_mod_add_aux h max_size name descr).1).2.nr_aux_data_recs
          = Int.tdiv ((p_aux_get_total h.aux_hdrs : Int) + h.bytes_rec - 1) h.bytes_rec
      ∧ ((p_mod_rm_aux (p_mod_add_aux h max_size name descr).2
          (p_mod_add_aux h max_size name descr).1).2.nr_aux_data_recs
            = h.nr_aux_data_recs
          ↔ h.nr_aux_data_recs
            = Int.tdiv ((p_aux_get_total h.aux_hdrs : Int) + h.bytes_rec - 1)
                h.bytes_rec) := by
  obtain ⟨B5, hadd, hlow, hrec, hsentB5, hnul, habove⟩ :=
    p_mod_add_aux_spec h max_size name descr ls hchain hfit hnodup hname
  have hL : 48 + descr.length < 100000000 := by omega
  have hparseS : p_aux_parse_int B5 ls.sum P_SAUX_HDRLEN = 48 + descr.length :=
    p_aux_parse_int_fmt8 hL hrec
  have hparseSent : p_aux_parse_int B5 (ls.sum + (48 + descr.length)) P_SAUX_HDRLEN = 8 := by
    apply p_aux_parse_int_sentinel
    intro j hj
    rw [show ls.sum + (48 + descr.length) + j = ls.sum + 48 + descr.length + j by omega]
    exact hsentB5 j hj
  have hchain5 : AuxChain B5 0 (ls ++ [48 + descr.length]) := by
    refine AuxChain.append_one hchain (fun i h1 h2 => hlow i (by omega)) ?_ ?_ ?_
    · simpa using hparseS
    · simp [P_SMIN_VALID]
    · rw [show (0 : Nat) + ls.sum + (48 + descr.length)
          = ls.sum + (48 + descr.length) by omega, hparseSent]
      simp [P_SMIN_VALID]
  rw [hadd]
  have hrm := p_mod_rm_aux_last_spec
    { h with aux_hdrs := B5
             nr_aux_data_recs :=
               Int.tdiv ((p_aux_get_total B5 : Int) + h.bytes_rec - 1) h.bytes_rec
             modified := 1 }
    ls (48 + descr.length) hchain5 hparseS
    (by have := hchain.length_le; omega)
  rw [hrm]
  have hbytes : ∀ i,
      (if P_SAUX_HDR - (48 + descr.length) ≤ i ∧ i < P_SAUX_HDR then 0
       else if ls.sum ≤ i ∧ i < P_SAUX_HDR - (48 + descr.length) then B5 (i + (48 + descr.length))
       else B5 i) = h.aux_hdrs i := by
    intro i
    simp only [P_SAUX_HDR]
    by_cases hc1 : 16384 - (48 + descr.length) ≤ i ∧ i < 16384
    · rw [if_pos hc1]
      exact (htail i (by omega)).symm
    · rw [if_neg hc1]
      by_cases hc2 : ls.sum ≤ i ∧ i < 16384 - (48 + descr.length)
      · rw [if_pos hc2]
        by_cases hj8 : i < ls.sum + 8
        · have hj : i - ls.sum < 8 := by omega
          have h2' := hsent (i - ls.sum) hj
          rw [show ls.sum + (i - ls.sum) = i by omega] at h2'
          rw [show i + (48 + descr.length)
              = ls.sum + 48 + descr.length + (i - ls.sum) by omega,
            hsentB5 (i - ls.sum) hj]
          exact h2'.symm
        · by_cases hj9 : i = ls.sum + 8
          · rw [show i + (48 + descr.length) = ls.sum + 48 + descr.length + 8 by omega,
              hnul]
            exact (htail i (by omega)).symm
          · rw [habove (i + (48 + descr.length)) (by omega),
              htail (i + (48 + descr.length)) (by omega)]
            exact (htail i (by omega)).symm
      · rw [if_neg hc2]
        by_cases hlt : i < ls.sum
        · exact hlow i hlt
        · exact habove i (by omega)
  have hfun : (fun i =>
      if P_SAUX_HDR - (48 + descr.length) ≤ i ∧ i < P_SAUX_HDR then 0
      else if ls.sum ≤ i ∧ i < P_SAUX_HDR - (48 + descr.length) then B5 (i + (48 + descr.length))
      else B5 i) = h.aux_hdrs := funext hbytes
  refine ⟨by positivity, rfl, ?_, ?_, ?_⟩
  · intro i
    simpa using hbytes i
  · simp only [hfun]
  · simp only [hfun]
    exact eq_comm

/-- A header with a zero-filled catalog tail but an inconsistent
`nr_aux_data_recs` field (7 records although the catalog is empty). -/
def auxBadHeader : pT_header := { sampleHeader with nr_aux_data_recs := 7 }

theorem C9_counterexample :
    0 ≤ (p_mod_add_aux auxBadHeader 0 [65] []).1
      ∧ (p_mod_rm_aux (p_mod_add_aux auxBadHeader 0 [65] []).2
          (p_mod_add_aux auxBadHeader 0 [65] []).1).1 = P_OK
      ∧ (p_mod_rm_aux (p_mod_add_aux auxBadHeader 0 [65] []).2
          (p_mod_add_aux auxBadHeader 0 [65] []).1).2.nr_aux_data_recs
          ≠ auxBadHeader.nr_aux_data_recs := by
  refine ⟨by decide, by decide, by decide⟩

theorem C9_aux_add_remove_roundtrip_witness :
    (∀ i, (p_mod_rm_aux (p_mod_add_aux sampleHeader 16 [65] []).2
        (p_mod_add_aux sampleHeader 16 [65] []).1).2.aux_hdrs i
        = sampleHeader.aux_hdrs i)
      ∧ (p_mod_rm_aux (p_mod_add_aux sampleHeader 16 [65] []).2
          (p_mod_add_aux sampleHeader 16 [65] []).1).2.nr_aux_data_recs
          = Int.tdiv ((p_aux_get_total sampleHeader.aux_hdrs : Int)
              + sampleHeader.bytes_rec - 1) sampleHeader.bytes_rec :=
  ⟨(C9_aux_add_remove_roundtrip sampleHeader 16 [65] [] []
      (AuxChain.nil (by decide))
      (by decide)
      (fun i hi => by
        show (if i < 8 then P_AUX_LAST_BYTES.getD i 0 else 0) = 0
        rw [if_neg (by omega)])
      (by norm_num)
      (by decide)
      (by decide)).2.2.1,
   (C9_aux_add_remove_roundtrip sampleHeader 16 [65] [] []
      (AuxChain.nil (by decide))
      (by decide)
      (fun i hi => by
        show (if i < 8 then P_AUX_LAST_BYTES.getD i 0 else 0) = 0
        rw [if_neg (by omega)])
      (by norm_num)
      (by decide)
      (by decide)).2.2.2.1⟩

end Cpfspd

namespace Cpfspd

open pT_status pT_color pT_data_fmt pT_freq pT_size pT_asp_rat

/-! ## Header validation (cpfspd_hdr.c)

The C checks assign to a single `status` variable without early return
(except that the per-component loop of `p_check_hdr_basic` stops once
`status` is no longer `P_OK`); a later failing check therefore overrides
an earlier one.  The model chains the assignments the same way. -/

/-- `p_get_comp_data_format` of cpfspd_hdr.c. -/
def p_get_comp_data_format (h : pT_header) (comp_nr : Nat) : pT_data_fmt :=
  if (h.comp comp_nr).data_fmt = P_B8_DATA_FMT then P_8_BIT_FILE
  else if (h.comp comp_nr).data_fmt = P_B10_DATA_FMT then P_10_BIT_FILE
  else if (h.comp comp_nr).data_fmt = P_B12_DATA_FMT then P_12_BIT_FILE
  else if (h.comp comp_nr).data_fmt = P_B14_DATA_FMT then P_14_BIT_FILE
  else if (h.comp comp_nr).data_fmt = P_I2_DATA_FMT then P_16_BIT_FILE
  else if (h.comp comp_nr).data_fmt = P_R2_DATA_FMT then P_16_REAL_FILE
  else P_UNKNOWN_DATA_FORMAT

/-- The per-component checks inside the loop of `p_check_hdr_basic`. -/
def p_check_comp_basic (h : pT_header) (i : Nat) : pT_status :=
  let st := P_OK
  let st := if (h.comp i).lin_image < 0 ∨ MAX_DECIMAL P_SLIN_IMAGE < (h.comp i).lin_image
    then P_ILLEGAL_COMP_SIZE else st
  let st := if (h.comp i).pix_line < 0 ∨ MAX_DECIMAL P_SPIX_LINE < (h.comp i).pix_line
    then P_ILLEGAL_COMP_SIZE else st
  let st := if (h.comp i).tem_sbsmpl ≠ 1 then P_ILLEGAL_TEM_SBSMPL else st
  let st := if (h.comp i).lin_sbsmpl < 0 ∨ MAX_DECIMAL P_SLIN_SBSMPL < (h.comp i).lin_sbsmpl
    then P_ILLEGAL_LIN_SBSMPL else st
  let st := if (h.comp i).pix_sbsmpl < 0 ∨ MAX_DECIMAL P_SPIX_SBSMPL < (h.comp i).pix_sbsmpl
    then P_ILLEGAL_PIX_SBSMPL else st
  let st := if (h.comp i).tem_phshft < 0 ∨ MAX_DECIMAL P_STEM_PHSHFT < (h.comp i).tem_phshft
    then P_ILLEGAL_PHSHFT else st
  let st := if (h.comp i).lin_phshft < 0 ∨ MAX_DECIMAL P_SLIN_PHSHFT < (h.comp i).lin_phshft
    then P_ILLEGAL_PHSHFT else st
  let st := if (h.comp i).pix_phshft < 0 ∨ MAX_DECIMAL P_SPIX_PHSHFT < (h.comp i).pix_phshft
    then P_ILLEGAL_PHSHFT else st
  st

/-- `p_check_hdr_basic` of cpfspd_hdr.c. -/
def p_check_hdr_basic (h : pT_header) : pT_status :=
  let status := P_OK
  let status := if h.nr_images < 0 ∨ MAX_DECIMAL P_SNR_IMAGES < h.nr_images
    then P_TOO_MANY_IMAGES else status
  let status := if h.nr_compon < 0 ∨ P_PFSPD_MAX_COMP < h.nr_compon
    then P_TOO_MANY_COMPONENTS else status
  let status := if (P_SAUX_HDR : Int) < h.nr_aux_hdr_recs * h.bytes_rec
    then P_EXCEEDING_AUXILIARY_HDR_SIZE else status
  let status := if h.act_lines < 0 ∨ MAX_DECIMAL P_SACT_LINES < h.act_lines
    then P_ILLEGAL_IMAGE_SIZE else status
  let status := if h.act_pixel < 0 ∨ MAX_DECIMAL P_SACT_PIXEL < h.act_pixel
    then P_ILLEGAL_IMAGE_SIZE else status
  let status := if h.interlace < 0 ∨ 2 < h.interlace
    then P_ILLEGAL_INTERLACE else status
  (List.range h.nr_compon.toNat).foldl
    (fun st i => if st = P_OK then p_check_comp_basic h i else st) status

/-- First block of `p_check_component_sizes`: component 0 (and 1, 2 for
RGB/XYZ) against the active sizes. -/
def p_check_comp0_sizes (h : pT_header) (color_format : pT_color) : pT_status :=
  match color_format with
  | P_NO_COLOR | P_COLOR_422 | P_COLOR_420
  | P_COLOR_444_PL | P_COLOR_422_PL | P_COLOR_420_PL =>
      if (h.comp 0).pix_line ≠ h.act_pixel
          ∨ (h.comp 0).lin_image * h.interlace ≠ h.act_lines
      then P_WRONG_LUM_COMP_SIZE else P_OK
  | P_STREAM =>
      if (h.comp 0).pix_line ≠ h.act_pixel
          ∨ (h.comp 0).lin_image * h.interlace ≠ h.act_lines
      then P_WRONG_STREAM_COMP_SIZE else P_OK
  | P_COLOR_RGB =>
      if (h.comp 0).pix_line ≠ h.act_pixel
          ∨ (h.comp 0).lin_image * h.interlace ≠ h.act_lines
          ∨ (h.comp 1).pix_line ≠ h.act_pixel
          ∨ (h.comp 1).lin_image * h.interlace ≠ h.act_lines
          ∨ (h.comp 2).pix_line ≠ h.act_pixel
          ∨ (h.comp 2).lin_image * h.interlace ≠ h.act_lines
      then P_WRONG_RGB_COMP_SIZE else P_OK
  | P_COLOR_XYZ =>
      if (h.comp 0).pix_line ≠ h.act_pixel
          ∨ (h.comp 0).lin_image * h.interlace ≠ h.act_lines
          ∨ (h.comp 1).pix_line ≠ h.act_pixel
          ∨ (h.comp 1).lin_image * h.interlace ≠ h.act_lines
          ∨ (h.comp 2).pix_line ≠ h.act_pixel
          ∨ (h.comp 2).lin_image * h.interlace ≠ h.act_lines
      then P_WRONG_XYZ_COMP_SIZE else P_OK
  | P_UNKNOWN_COLOR => P_ILLEGAL_COLOR_FORMAT

/-- Second block of `p_check_component_sizes`: the chrominance components. -/
def p_check_chroma_sizes (h : pT_header) (color_format : pT_color) : pT_status :=
  match color_format with
  | P_COLOR_422 | P_COLOR_420 =>
      if (h.comp 1).pix_line * (h.comp 1).pix_sbsmpl ≠ h.act_pixel * 2
          ∨ (h.comp 1).lin_image * (h.comp 1).lin_sbsmpl * h.interlace ≠ h.act_lines
      then P_WRONG_CHR_COMP_SIZE else P_OK
  | P_COLOR_444_PL | P_COLOR_422_PL | P_COLOR_420_PL =>
      if (h.comp 1).pix_line * (h.comp 1).pix_sbsmpl ≠ h.act_pixel
          ∨ (h.comp 1).lin_image * (h.comp 1).lin_sbsmpl * h.interlace ≠ h.act_lines
          ∨ (h.comp 2).pix_line * (h.comp 2).pix_sbsmpl ≠ h.act_pixel
          ∨ (h.comp 2).lin_image * (h.comp 2).lin_sbsmpl * h.interlace ≠ h.act_lines
      then P_WRONG_CHR_COMP_SIZE else P_OK
  | _ => P_OK

/-- Number of components mandated by a color format (the `nr_compon` /
`i` initialization switches shared by `p_check_component_sizes`,
`p_check_file_data_format`, `p_mod_file_data_format` and
`p_mod_rm_extra_comps`). -/
def p_color_nr_comps (color_format : pT_color) : Nat :=
  match color_format with
  | P_NO_COLOR | P_STREAM => 1
  | P_COLOR_422 | P_COLOR_420 => 2
  | P_COLOR_444_PL | P_COLOR_422_PL | P_COLOR_420_PL | P_COLOR_RGB | P_COLOR_XYZ => 3
  | P_UNKNOWN_COLOR => 0

/-- `p_check_component_sizes` of cpfspd_hdr.c. -/
def p_check_component_sizes (h : pT_header) (color_format : pT_color) : pT_status :=
  let status := p_check_comp0_sizes h color_format
  let status := if status = P_OK then p_check_chroma_sizes h color_format else status
  let status :=
    if status = P_OK then
      ((List.range h.nr_compon.toNat).drop (p_color_nr_comps color_format)).foldl
        (fun st i =>
          if (h.comp i).com_code ≠ P_P_COM_CODE then
            let multiplex := Int.tdiv ((h.comp i).pix_line * (h.comp i).pix_sbsmpl) h.act_pixel
            if (h.comp i).pix_line * (h.comp i).pix_sbsmpl ≠ h.act_pixel * multiplex
                ∨ (h.comp i).lin_image * (h.comp i).lin_sbsmpl * h.interlace ≠ h.act_lines
            then P_WRONG_EXTRA_COMP_SIZE else st
          else st) status
    else status
  status

/-- `p_check_file_data_format` of cpfspd_hdr.c: the loop compares every
component's data format against the first one. -/
def p_check_file_data_format (h : pT_header) (color_format : pT_color) :
    pT_status × pT_data_fmt :=
  let nr_compon : Nat := p_color_nr_comps color_format
  let res := (List.range nr_compon).foldl
    (fun (acc : pT_status × pT_data_fmt) i =>
      let temp := p_get_comp_data_format h i
      if i = 0 then (acc.1, temp)
      else if acc.2 ≠ temp then (P_FILE_DATA_FORMATS_NOT_EQUAL, acc.2) else acc)
    (P_OK, P_UNKNOWN_DATA_FORMAT)
  let status :=
    if res.2 = P_UNKNOWN_DATA_FORMAT
        ∨ (h.disable_hdr_checks = 0 ∧ res.2 = P_16_REAL_FILE
            ∧ color_format ≠ P_COLOR_RGB ∧ color_format ≠ P_COLOR_XYZ)
    then P_ILLEGAL_FILE_DATA_FORMAT else res.1
  (status, res.2)

/-- `p_check_header` of cpfspd_hdr.c. -/
def p_check_header (h : pT_header) : pT_status :=
  let status := p_check_hdr_basic h
  if h.disable_hdr_checks ≠ 0 then status
  else
    let cres := p_check_color_format h
    let status := if status = P_OK then cres.1 else status
    let status := if status = P_OK then p_check_component_sizes h cres.2 else status
    let status := if status = P_OK then (p_check_file_data_format h cres.2).1 else status
    status

end Cpfspd

namespace Cpfspd

open pT_status pT_color pT_data_fmt pT_freq pT_size pT_asp_rat

/-! ## Header read/write/rewrite (cpfspd_hdr.c)

File I/O is abstracted: `readResult` stands for the outcome of
`p_read_hdr` (its status and, on success, the header it parsed from disk)
and `writeStatus` for the outcome of `p_write_hdr`; `filenameNull` models
the `filename == NULL` test. -/

/-- `p_read_header` of cpfspd_hdr.c.  Whatever happens, `modified` is
cleared before returning. -/
def p_read_header (filenameNull : Bool) (readResult : pT_status × pT_header)
    (h : pT_header) : pT_status × pT_header :=
  let status := if filenameNull then P_FILE_OPEN_FAILED else P_OK
  let sh := if status = P_OK then readResult else (status, h)
  let status := sh.1
  let h := sh.2
  let status := if status = P_OK then p_check_header h else status
  (status, { h with modified := 0 })

/-- `p_write_header` of cpfspd_hdr.c: validate, force minimum description
and auxiliary header sizes (unless checks are disabled), write.
`modified` is cleared before returning on every path. -/
def p_write_header (filenameNull : Bool) (writeStatus : pT_status)
    (h : pT_header) : pT_status × pT_header :=
  let status := if filenameNull then P_FILE_CREATE_FAILED else P_OK
  let status := if status = P_OK then p_check_header h else status
  let h :=
    if status = P_OK ∧ h.disable_hdr_checks = 0 then
      let min_aux_recs := Int.tdiv (P_SAUX_HDR : Int) h.bytes_rec
      let min_fd_recs := Int.tdiv (P_SDESCRIPTION : Int) h.bytes_rec
      let h := { h with nr_aux_hdr_recs := max h.nr_aux_hdr_recs min_aux_recs }
      { h with nr_fd_recs := max h.nr_fd_recs (h.nr_aux_hdr_recs + min_fd_recs) }
    else h
  let status := if status = P_OK then writeStatus else status
  (status, { h with modified := 0 })

/-- The main-header field comparison of `p_rewrite_header`: all fields
other than `appl_type`, the frequencies and the aspect ratio must match,
where the active sizes are compared through their product. -/
def p_rewrite_compare_main (h old : pT_header) : pT_status :=
  if old.nr_images ≠ h.nr_images ∨ old.nr_compon ≠ h.nr_compon
      ∨ old.nr_fd_recs ≠ h.nr_fd_recs ∨ old.nr_aux_data_recs ≠ h.nr_aux_data_recs
      ∨ old.bytes_rec ≠ h.bytes_rec ∨ old.little_endian ≠ h.little_endian
      ∨ old.nr_aux_hdr_recs ≠ h.nr_aux_hdr_recs ∨ old.interlace ≠ h.interlace
      ∨ old.act_lines * old.act_pixel ≠ h.act_lines * h.act_pixel
  then P_REWRITE_MODIFIED_HEADER else P_OK

/-- The per-component comparison loop of `p_rewrite_header`: sizes are
compared through the product `lin_image * pix_line`, data formats
exactly. -/
def p_rewrite_compare_comps (h old : pT_header) (status : pT_status) : pT_status :=
  (List.range h.nr_compon.toNat).foldl
    (fun st i =>
      if (old.comp i).lin_image * (old.comp i).pix_line
          ≠ (h.comp i).lin_image * (h.comp i).pix_line
        ∨ (old.comp i).data_fmt ≠ (h.comp i).data_fmt
      then P_REWRITE_MODIFIED_HEADER else st) status

/-- The description-space check of `p_rewrite_header`: data in the
description but no file-description records. -/
def p_rewrite_check_description (h : pT_header) : pT_status :=
  if h.nr_fd_recs = 0 ∧ (List.range P_SDESCRIPTION).any (fun i => h.description i ≠ 0)
  then P_EXCEEDING_DESCRIPTION_SIZE else P_OK

/-- The auxiliary-definition comparison of `p_rewrite_header` (the
lock-step walk over both chains skipping records without data), expressed
through `auxDataSizes`. -/
def p_rewrite_compare_aux (h old : pT_header) : pT_status :=
  if auxDataSizes old.aux_hdrs = auxDataSizes h.aux_hdrs
  then P_OK else P_REWRITE_MODIFIED_HEADER

/-- `p_rewrite_header` of cpfspd_hdr.c.  `modified` is cleared before
returning on every path. -/
def p_rewrite_header (filenameNull : Bool) (readResult : pT_status × pT_header)
    (writeStatus : pT_status) (h : pT_header) : pT_status × pT_header :=
  let status := if filenameNull then P_FILE_MODIFY_FAILED else P_OK
  let status := if status = P_OK then p_check_header h else status
  let status :=
    if status = P_OK then
      if readResult.1 ≠ P_OK then readResult.1
      else
        let old := readResult.2
        let st := p_rewrite_compare_main h old
        let st := if st = P_OK then p_rewrite_compare_comps h old st else st
        let st := if st = P_OK then p_rewrite_check_description h else st
        let st := if st = P_OK then p_rewrite_compare_aux h old else st
        let st := if st = P_OK then writeStatus else st
        st
    else status
  (status, { h with modified := 0 })

theorem foldl_const_if {α : Type} (p : α → Prop) [DecidablePred p] (c : pT_status) :
    ∀ (l : List α) (st0 : pT_status),
      l.foldl (fun st i => if p i then c else st) st0
        = if l.any (fun i => decide (p i)) then c else st0 := by
  intro l
  induction l with
  | nil => intro st0; simp
  | cons a l ih =>
      intro st0
      by_cases hp : p a
      · simp only [List.foldl_cons, if_pos hp, ih, List.any_cons]
        simp [hp]
      · simp only [List.foldl_cons, if_neg hp, ih, List.any_cons]
        simp [hp]

/-- C10: `p_read_header`, `p_write_header` and `p_rewrite_header` clear
`header->modified` unconditionally before returning, even when they
return an error status. -/
theorem C10_modified_cleared_unconditionally
    (fn1 fn2 fn3 : Bool) (rr1 rr3 : pT_status × pT_header)
    (ws2 ws3 : pT_status) (h1 h2 h3 : pT_header) :
    (p_read_header fn1 rr1 h1).2.modified = 0
      ∧ (p_write_header fn2 ws2 h2).2.modified = 0
      ∧ (p_rewrite_header fn3 rr3 ws3 h3).2.modified = 0 := by
  refine ⟨?_, ?_, ?_⟩ <;> simp [p_read_header, p_write_header, p_rewrite_header]

end Cpfspd

namespace Cpfspd

open pT_status pT_color pT_data_fmt pT_freq pT_size pT_asp_rat

/-- C4, amended: with a header that passes validation and an on-disk header
that reads back successfully, `p_rewrite_header` rejects the rewrite with
`P_REWRITE_MODIFIED_HEADER` whenever one of the compared main-header fields
differs (image count, record counts, bytes per record, endianness,
interlace factor, or the product of the active sizes), or some component
within `nr_compon` differs in the product `lin_image * pix_line` or in its
data format; a header that agrees with the on-disk one on all of those
fields and differs only in description, application type, frequencies, or
aspect-ratio fields is rewritten successfully, provided its description
fits the file (`nr_fd_recs ≠ 0` or an all-NUL description). -/
theorem C4_rewrite_structural_mismatch (h old : pT_header) (ws : pT_status)
    (hchk : p_check_header h = P_OK) :
    ((old.nr_images ≠ h.nr_images ∨ old.nr_compon ≠ h.nr_compon
        ∨ old.nr_fd_recs ≠ h.nr_fd_recs ∨ old.nr_aux_data_recs ≠ h.nr_aux_data_recs
        ∨ old.bytes_rec ≠ h.bytes_rec ∨ old.little_endian ≠ h.little_endian
        ∨ old.nr_aux_hdr_recs ≠ h.nr_aux_hdr_recs ∨ old.interlace ≠ h.interlace
        ∨ old.act_lines * old.act_pixel ≠ h.act_lines * h.act_pixel) →
      (p_rewrite_header false (P_OK, old) ws h).1 = P_REWRITE_MODIFIED_HEADER)
    ∧ ((∃ i, i < h.nr_compon.toNat ∧
          ((old.comp i).lin_image * (old.comp i).pix_line
              ≠ (h.comp i).lin_image * (h.comp i).pix_line
            ∨ (old.comp i).data_fmt ≠ (h.comp i).data_fmt)) →
      (p_rewrite_header false (P_OK, old) ws h).1 = P_REWRITE_MODIFIED_HEADER)
    ∧ ((old.nr_images = h.nr_images ∧ old.nr_compon = h.nr_compon
        ∧ old.nr_fd_recs = h.nr_fd_recs ∧ old.nr_aux_data_recs = h.nr_aux_data_recs
        ∧ old.bytes_rec = h.bytes_rec ∧ old.little_endian = h.little_endian
        ∧ old.nr_aux_hdr_recs = h.nr_aux_hdr_recs ∧ old.interlace = h.interlace
        ∧ old.act_lines = h.act_lines ∧ old.act_pixel = h.act_pixel
        ∧ old.comp = h.comp ∧ old.aux_hdrs = h.aux_hdrs
        ∧ (h.nr_fd_recs ≠ 0 ∨ ∀ i, i < P_SDESCRIPTION → h.description i = 0)) →
      (p_rewrite_header false (P_OK, old) P_OK h).1 = P_OK) := by
  refine ⟨?_, ?_, ?_⟩
  · intro hne
    have hmain : p_rewrite_compare_main h old = P_REWRITE_MODIFIED_HEADER := by
      unfold p_rewrite_compare_main
      rw [if_pos hne]
    simp [p_rewrite_header, hchk, hmain]
  · intro hne
    by_cases hmain : p_rewrite_compare_main h old = P_OK
    · have hcomps : p_rewrite_compare_comps h old P_OK = P_REWRITE_MODIFIED_HEADER := by
        unfold p_rewrite_compare_comps
        rw [foldl_const_if]
        rw [if_pos]
        obtain ⟨i, hi, hmis⟩ := hne
        refine List.any_eq_true.mpr ⟨i, List.mem_range.mpr hi, by simpa using hmis⟩
      simp [p_rewrite_header, hchk, hmain, hcomps]
    · have hmain' : p_rewrite_compare_main h old = P_REWRITE_MODIFIED_HEADER := by
        unfold p_rewrite_compare_main at hmain ⊢
        by_cases hc : (old.nr_images ≠ h.nr_images ∨ old.nr_compon ≠ h.nr_compon
            ∨ old.nr_fd_recs ≠ h.nr_fd_recs ∨ old.nr_aux_data_recs ≠ h.nr_aux_data_recs
            ∨ old.bytes_rec ≠ h.bytes_rec ∨ old.little_endian ≠ h.little_endian
            ∨ old.nr_aux_hdr_recs ≠ h.nr_aux_hdr_recs ∨ old.interlace ≠ h.interlace
            ∨ old.act_lines * old.act_pixel ≠ h.act_lines * h.act_pixel)
        · rw [if_pos hc]
        · rw [if_neg hc] at hmain; simp at hmain
      simp [p_rewrite_header, hchk, hmain']
  · rintro ⟨e1, e2, e3, e4, e5, e6, e7, e8, e9, e10, ecomp, eaux, hdesc⟩
    have hmain : p_rewrite_compare_main h old = P_OK := by
      unfold p_rewrite_compare_main
      rw [if_neg]
      simp [e1, e2, e3, e4, e5, e6, e7, e8, e9, e10]
    have hcomps : p_rewrite_compare_comps h old P_OK = P_OK := by
      unfold p_rewrite_compare_comps
      rw [foldl_const_if, if_neg]
      rw [List.any_eq_true]
      rintro ⟨i, _, hmis⟩
      rw [ecomp] at hmis
      simp at hmis
    have hdesc' : p_rewrite_check_description h = P_OK := by
      unfold p_rewrite_check_description
      rw [if_neg]
      rintro ⟨hfd, hany⟩
      rcases hdesc with hfd' | hall
      · exact hfd' hfd
      · rw [List.any_eq_true] at hany
        obtain ⟨i, hi, hne0⟩ := hany
        rw [hall i (List.mem_range.mp hi)] at hne0
        simp at hne0
    have haux : p_rewrite_compare_aux h old = P_OK := by
      unfold p_rewrite_compare_aux
      rw [eaux, if_pos rfl]
    simp [p_rewrite_header, hchk, hmain, hcomps, hdesc', haux]

/-- A valid single-component progressive header, 6 active lines of 4
pixels. -/
def rwOld : pT_header :=
  { nr_images := 0, nr_compon := 1, nr_fd_recs := 8, nr_aux_data_recs := 0
    appl_type := P_VIDEO_APPL_TYPE, bytes_rec := 64, little_endian := 0
    nr_aux_hdr_recs := 0, ima_freq := 50, lin_freq := 0, pix_freq := 0
    act_lines := 6, act_pixel := 4, interlace := 1, h_pp_size := 4, v_pp_size := 3
    comp := fun _ =>
      { lin_image := 6, pix_line := 4, data_fmt := "B*8 ", tem_sbsmpl := 1
        lin_sbsmpl := 1, pix_sbsmpl := 1, tem_phshft := 0, lin_phshft := 0
        pix_phshft := 0, com_code := "Y    " }
    description := fun _ => 0
    disable_hdr_checks := 0, modified := 0
    aux_hdrs := fun _ => 0 }

/-- The same header with the component geometry transposed (4 lines of 6
pixels): the component geometry and the active sizes differ from `rwOld`,
but all compared products are equal. -/
def rwNew : pT_header :=
  { rwOld with
    act_lines := 4, act_pixel := 6
    comp := fun _ =>
      { lin_image := 4, pix_line := 6, data_fmt := "B*8 ", tem_sbsmpl := 1
        lin_sbsmpl := 1, pix_sbsmpl := 1, tem_phshft := 0, lin_phshft := 0
        pix_phshft := 0, com_code := "Y    " } }

/-- C4, counterexample to the claim as stated: `rwNew` differs from the
on-disk header `rwOld` in component geometry (lines and pixels of
component 0 are transposed), yet `p_rewrite_header` accepts the rewrite,
because it only compares the products of the dimensions. -/
theorem C4_counterexample :
    (rwNew.comp 0).lin_image ≠ (rwOld.comp 0).lin_image
      ∧ (rwNew.comp 0).pix_line ≠ (rwOld.comp 0).pix_line
      ∧ rwNew.act_lines ≠ rwOld.act_lines
      ∧ (p_rewrite_header false (P_OK, rwOld) P_OK rwNew).1 = P_OK := by
  refine ⟨by decide, by decide, by decide, by decide⟩

theorem C4_rewrite_structural_mismatch_witness :
    p_check_header rwOld = P_OK
      ∧ (p_rewrite_header false (P_OK, { rwOld with nr_images := 1 }) P_OK rwOld).1
          = P_REWRITE_MODIFIED_HEADER
      ∧ (p_rewrite_header false (P_OK, rwOld) P_OK rwOld).1 = P_OK :=
  ⟨by decide,
   (C4_rewrite_structural_mismatch rwOld { rwOld with nr_images := 1 } P_OK
      (by decide)).1 (Or.inl (by decide)),
   (C4_rewrite_structural_mismatch rwOld rwOld P_OK (by decide)).2.2
     ⟨rfl, rfl, rfl, rfl, rfl, rfl, rfl, rfl, rfl, rfl, rfl, rfl,
      Or.inl (by decide)⟩⟩

end Cpfspd

namespace Cpfspd

open pT_status pT_color pT_data_fmt pT_freq pT_size pT_asp_rat

/-! ## Header getters (cpfspd_get.c) -/

/-- `p_get_num_frames` of cpfspd_get.c (C integer division). -/
def p_get_num_frames (h : pT_header) : Int := Int.tdiv h.nr_images h.interlace

/-- `p_is_interlaced` of cpfspd_get.c. -/
def p_is_interlaced (h : pT_header) : Int := if h.interlace = 2 then 1 else 0

/-- `p_is_progressive` of cpfspd_get.c. -/
def p_is_progressive (h : pT_header) : Int := if h.interlace = 1 then 1 else 0

def p_get_frame_width (h : pT_header) : Int := h.act_pixel

def p_get_frame_height (h : pT_header) : Int := h.act_lines

/-- `p_get_color_format` of cpfspd_get.c. -/
def p_get_color_format (h : pT_header) : pT_color :=
  let r := p_check_color_format h
  if r.1 ≠ P_OK then P_UNKNOWN_COLOR else r.2

/-- The C cast `(int)` applied to a non-negative-or-negative `double`:
truncation toward zero. -/
def c_int_of_double (q : Rat) : Int := if 0 ≤ q then ⌊q⌋ else ⌈q⌉

/-- The `P_TO_INT(a) = (int)(100.0 * (a) + 0.5)` macro of cpfspd_get.c. -/
def P_TO_INT (a : Rat) : Int := c_int_of_double (100 * a + 1/2)

/-- `p_get_image_freq` of cpfspd_get.c. -/
def p_get_image_freq (h : pT_header) : pT_freq :=
  let int_image_freq := P_TO_INT h.ima_freq
  if int_image_freq = P_TO_INT (0.4 * P_STD_IMA_FREQ_60HZ) then P_24HZ
  else if int_image_freq = P_TO_INT (0.4 * P_STD_IMA_FREQ_REAL_60HZ) then P_REAL_24HZ
  else if int_image_freq = P_TO_INT (0.5 * P_STD_IMA_FREQ_50HZ) then P_25HZ
  else if int_image_freq = P_TO_INT (0.5 * P_STD_IMA_FREQ_60HZ) then P_30HZ
  else if int_image_freq = P_TO_INT (0.5 * P_STD_IMA_FREQ_REAL_60HZ) then P_REAL_30HZ
  else if int_image_freq = P_TO_INT P_STD_IMA_FREQ_50HZ then P_50HZ
  else if int_image_freq = P_TO_INT P_STD_IMA_FREQ_60HZ then P_60HZ
  else if int_image_freq = P_TO_INT P_STD_IMA_FREQ_REAL_60HZ then P_REAL_60HZ
  else if int_image_freq = P_TO_INT (1.5 * P_STD_IMA_FREQ_50HZ) then P_75HZ
  else if int_image_freq = P_TO_INT (1.5 * P_STD_IMA_FREQ_60HZ) then P_90HZ
  else if int_image_freq = P_TO_INT (1.5 * P_STD_IMA_FREQ_REAL_60HZ) then P_REAL_90HZ
  else if int_image_freq = P_TO_INT (2.0 * P_STD_IMA_FREQ_50HZ) then P_100HZ
  else if int_image_freq = P_TO_INT (2.0 * P_STD_IMA_FREQ_60HZ) then P_120HZ
  else if int_image_freq = P_TO_INT (2.0 * P_STD_IMA_FREQ_REAL_60HZ) then P_REAL_120HZ
  else P_UNKNOWN_FREQ

/-- `p_get_image_size` of cpfspd_get.c. -/
def p_get_image_size (h : pT_header) : pT_size :=
  if p_get_color_format h = P_STREAM then
    if h.act_lines = 525 ∨ h.act_lines = 625 then P_SD else P_UNKNOWN_SIZE
  else
    if h.act_lines = 120 ∨ h.act_lines = 144 then P_QCIF
    else if h.act_lines = 240 ∨ h.act_lines = 288 then P_CIF
    else if h.act_lines = 480 ∨ h.act_lines = 576 then P_SD
    else if h.act_lines = 1080 ∨ h.act_lines = 1152 then P_HDi
    else if h.act_lines = 720 then P_HDp
    else P_UNKNOWN_SIZE

/-- `p_get_aspect_ratio` of cpfspd_get.c.  The C code compares
`fabs(width/h_ratio - height/v_ratio) < 0.001` in `double`; the model uses
exact rationals (division by a zero ratio is 0 in the model where C would
produce an infinity; such headers are outside every use below). -/
def p_get_aspect_ratio (h : pT_header) : pT_asp_rat :=
  if h.h_pp_size = 4 ∧ h.v_pp_size = 3 then P_4_3
  else if h.h_pp_size = 16 ∧ h.v_pp_size = 9 then P_16_9
  else if |(h.act_pixel : Rat) / (h.h_pp_size : Rat)
      - (h.act_lines : Rat) / (h.v_pp_size : Rat)| < 1/1000 then P_AS_WH
  else P_UNKNOWN_ASPECT_RATIO

/-- `p_get_file_data_format` of cpfspd_get.c. -/
def p_get_file_data_format (h : pT_header) : pT_data_fmt :=
  let r := p_check_file_data_format h (p_get_color_format h)
  if r.1 ≠ P_OK then P_UNKNOWN_DATA_FORMAT else r.2

/-! ## Header creation (cpfspd_hdr.c) -/

/-- The all-zero header produced by `memset (header, 0, sizeof(pT_header))`. -/
def zeroHeader : pT_header :=
  { nr_images := 0, nr_compon := 0, nr_fd_recs := 0, nr_aux_data_recs := 0
    appl_type := "", bytes_rec := 0, little_endian := 0, nr_aux_hdr_recs := 0
    ima_freq := 0, lin_freq := 0, pix_freq := 0, act_lines := 0, act_pixel := 0
    interlace := 0, h_pp_size := 0, v_pp_size := 0
    comp := fun _ => P_COMPONENT_INIT
    description := fun _ => 0
    disable_hdr_checks := 0, modified := 0
    aux_hdrs := fun _ => 0 }

/-- The `lcd` helper of cpfspd_hdr.c / cpfspd_mod.c (greatest common
divisor by repeated remainder; the fuel bounds the loop). -/
def lcd_loop : Nat → Int → Int → Int
  | 0, x, y => x + y
  | fuel+1, x, y =>
      if x * y ≠ 0 then
        if x > y then lcd_loop fuel (Int.tmod x y) y
        else lcd_loop fuel x (Int.tmod y x)
      else x + y

def lcd (x y : Int) : Int :=
  if x ≤ 0 ∨ y ≤ 0 then 1 else lcd_loop (x.toNat + y.toNat + 1) x y

/-- `p_mod_add_comp` of cpfspd_mod.c: append a void component. -/
def p_mod_add_comp (h : pT_header) : Int × pT_header :=
  if h.nr_compon < P_PFSPD_MAX_COMP then
    let comp := h.nr_compon
    let h := { h with nr_compon := h.nr_compon + 1 }
    let h := h.setComp comp.toNat
      { lin_image := Int.tdiv h.act_lines h.interlace
        pix_line := h.act_pixel
        data_fmt := P_B8_DATA_FMT
        tem_sbsmpl := 1, lin_sbsmpl := 1, pix_sbsmpl := 1
        tem_phshft := 0, lin_phshft := 0, pix_phshft := 0
        com_code := P_VOID_COM_CODE }
    (comp, { h with modified := 1 })
  else (-1, h)

/-- `sprintf(com_code, "%-*s", P_SCOM_CODE, name_str)` after truncating
the name to 5 characters. -/
def padComCode (name : String) : String :=
  let t := name.take 5
  t ++ String.mk (List.replicate (5 - t.length) ' ')

/-- `p_mod_set_comp_2` of cpfspd_mod.c.  Note that a later failing check
overrides an earlier one, and `modified` is set even on error. -/
def p_mod_set_comp_2 (h : pT_header) (comp : Int) (name : String)
    (file_data_fmt : pT_data_fmt) (pix_subsample line_subsample multiplex_factor : Int) :
    pT_status × pT_header :=
  let status := P_OK
  let status := if comp < 0 ∨ h.nr_compon ≤ comp then P_INVALID_COMPONENT else status
  let status := if Int.tmod h.act_pixel pix_subsample ≠ 0
      ∨ Int.tmod h.act_lines line_subsample ≠ 0
    then P_WRONG_SUBSAMPLE_FACTOR else status
  let fmt : Option String :=
    match file_data_fmt with
    | P_8_BIT_FILE => some P_B8_DATA_FMT
    | P_10_BIT_FILE => some P_B10_DATA_FMT
    | P_12_BIT_FILE => some P_B12_DATA_FMT
    | P_14_BIT_FILE => some P_B14_DATA_FMT
    | P_16_BIT_FILE => some P_I2_DATA_FMT
    | P_16_REAL_FILE => some P_R2_DATA_FMT
    | P_UNKNOWN_DATA_FORMAT => none
  let status := if fmt.isNone then P_ILLEGAL_FILE_DATA_FORMAT else status
  let h :=
    if status = P_OK then
      h.setComp comp.toNat
        { lin_image := Int.tdiv (Int.tdiv h.act_lines line_subsample) h.interlace
          pix_line := Int.tdiv (multiplex_factor * h.act_pixel) pix_subsample
          data_fmt := fmt.getD " "
          tem_sbsmpl := 1, lin_sbsmpl := line_subsample, pix_sbsmpl := pix_subsample
          tem_phshft := 0, lin_phshft := 0, pix_phshft := 0
          com_code := padComCode name }
    else h
  (status, { h with modified := 1 })

/-- `p_create_free_header` of cpfspd_hdr.c.  The C function first zeroes
the whole structure (`memset`); on an illegal color it therefore leaves
the caller's header zeroed. -/
def p_create_free_header (color : pT_color) (ima_freq lin_freq pix_freq : Rat)
    (act_lines act_pixel interlace_factor h_ratio v_ratio : Int) :
    pT_status × pT_header :=
  if color = P_UNKNOWN_COLOR then (P_ILLEGAL_COLOR_FORMAT, zeroHeader)
  else
    let nr_fd : Int := Int.tdiv ((P_SDESCRIPTION : Int) + P_BYTES_REC - 1) P_BYTES_REC
    let nr_aux_hdr : Int := Int.tdiv ((P_SAUX_HDR : Int) + P_BYTES_REC - 1) P_BYTES_REC
    let h := { zeroHeader with
      nr_images := 0, nr_compon := 0
      nr_fd_recs := nr_fd + nr_aux_hdr
      nr_aux_data_recs := 0
      appl_type := P_VIDEO_APPL_TYPE
      bytes_rec := P_BYTES_REC
      little_endian := 0
      nr_aux_hdr_recs := nr_aux_hdr
      ima_freq := ima_freq, lin_freq := lin_freq, pix_freq := pix_freq
      act_lines := act_lines, act_pixel := act_pixel
      interlace := interlace_factor
      h_pp_size := h_ratio, v_pp_size := v_ratio
      aux_hdrs := writeBytes (fun _ => 0) 0 (P_AUX_LAST_BYTES ++ [0]) }
    let comps := ((p_default_formats.find? (fun e => e.format = color)).map
      (fun e => e.comps)).getD []
    comps.foldl
      (fun (acc : pT_status × pT_header) c =>
        if acc.1 = P_OK then
          let r1 := p_mod_add_comp acc.2
          p_mod_set_comp_2 r1.2 r1.1 c.name P_8_BIT_FILE c.pix_ss c.lin_ss c.mplex
        else acc)
      (P_OK, h)

end Cpfspd

namespace Cpfspd

open pT_status pT_color pT_data_fmt pT_freq pT_size pT_asp_rat

/-! ## Header modification (cpfspd_mod.c) -/

/-- `p_mod_num_frames` of cpfspd_mod.c. -/
def p_mod_num_frames (h : pT_header) (num_frames : Int) : pT_status × pT_header :=
  (P_OK, { h with nr_images := num_frames * h.interlace, modified := 1 })

/-- `p_mod_file_data_format` of cpfspd_mod.c.  A later failing check
overrides an earlier one; `modified` is set even on error. -/
def p_mod_file_data_format (h : pT_header) (file_data_fmt : pT_data_fmt) :
    pT_status × pT_header :=
  let color_format := p_get_color_format h
  let fmt : Option String :=
    match file_data_fmt with
    | P_8_BIT_FILE => some P_B8_DATA_FMT
    | P_10_BIT_FILE => some P_B10_DATA_FMT
    | P_12_BIT_FILE => some P_B12_DATA_FMT
    | P_14_BIT_FILE => some P_B14_DATA_FMT
    | P_16_BIT_FILE => some P_I2_DATA_FMT
    | P_16_REAL_FILE =>
        if color_format = P_COLOR_RGB ∨ color_format = P_COLOR_XYZ
        then some P_R2_DATA_FMT else none
    | P_UNKNOWN_DATA_FORMAT => none
  let status := if fmt.isNone then P_ILLEGAL_FILE_DATA_FORMAT else P_OK
  let nr_compon := p_color_nr_comps color_format
  let status := if color_format = P_UNKNOWN_COLOR then P_ILLEGAL_COLOR_FORMAT else status
  let h :=
    if status = P_OK then
      (List.range nr_compon).foldl
        (fun h i => h.setComp i { h.comp i with data_fmt := fmt.getD " " }) h
    else h
  (status, { h with modified := 1 })

/-- `p_mod_color_format` of cpfspd_mod.c.  On an unchanged color format
the header is untouched except for `modified`; otherwise it is recreated
(and zeroed if the creation fails). -/
def p_mod_color_format (h : pT_header) (color_format : pT_color) :
    pT_status × pT_header :=
  let old_color_format := p_get_color_format h
  let num_frames := p_get_num_frames h
  let file_data_fmt := p_get_file_data_format h
  let r : pT_status × pT_header :=
    if old_color_format ≠ color_format then
      let r := p_create_free_header color_format h.ima_freq h.lin_freq h.pix_freq
        h.act_lines h.act_pixel h.interlace h.h_pp_size h.v_pp_size
      let r := if r.1 = P_OK then p_mod_num_frames r.2 num_frames else r
      let r := if r.1 = P_OK then p_mod_file_data_format r.2 file_data_fmt else r
      r
    else (P_OK, h)
  (r.1, { r.2 with modified := 1 })

/-- `p_mod_aspect_ratio` of cpfspd_mod.c. -/
def p_mod_aspect_ratio (h : pT_header) (ratio : pT_asp_rat) : pT_status × pT_header :=
  let r : pT_status × Int × Int :=
    match ratio with
    | P_4_3 => (P_OK, 4, 3)
    | P_16_9 => (P_OK, 16, 9)
    | P_AS_WH =>
        let d := lcd h.act_pixel h.act_lines
        (P_OK, Int.tdiv h.act_pixel d, Int.tdiv h.act_lines d)
    | P_UNKNOWN_ASPECT_RATIO => ( P_ILLEGAL_ASPECT_RATIO, 0, 0)
  let h :=
    if r.1 = P_OK then { h with h_pp_size := r.2.1, v_pp_size := r.2.2 } else h
  (r.1, { h with modified := 1 })

/-- Number of components whose `lin_image` is rescaled by
`p_mod_to_progressive` / `p_mod_to_interlaced` for a given color format. -/
def p_interlace_nr_comps : pT_color → Nat
  | P_NO_COLOR => 1
  | P_COLOR_422 | P_COLOR_420 => 2
  | P_COLOR_444_PL | P_COLOR_422_PL | P_COLOR_420_PL | P_COLOR_RGB | P_COLOR_XYZ => 3
  | _ => 0

/-- `p_mod_to_progressive` of cpfspd_mod.c. -/
def p_mod_to_progressive (h : pT_header) : pT_status × pT_header :=
  let color_format := p_get_color_format h
  let h :=
    if p_is_interlaced h ≠ 0 then
      let h := { h with nr_images := Int.tdiv h.nr_images 2
                        lin_freq := h.lin_freq * 2, pix_freq := h.pix_freq * 2
                        interlace := 1 }
      (List.range (p_interlace_nr_comps color_format)).foldl
        (fun h i => h.setComp i { h.comp i with lin_image := (h.comp i).lin_image * 2 }) h
    else h
  (P_OK, { h with modified := 1 })

/-- `p_mod_to_interlaced` of cpfspd_mod.c. -/
def p_mod_to_interlaced (h : pT_header) : pT_status × pT_header :=
  let color_format := p_get_color_format h
  let h :=
    if p_is_progressive h ≠ 0 then
      let h := { h with nr_images := h.nr_images * 2
                        lin_freq := h.lin_freq / 2, pix_freq := h.pix_freq / 2
                        interlace := 2 }
      (List.range (p_interlace_nr_comps color_format)).foldl
        (fun h i => h.setComp i
          { h.comp i with lin_image := Int.tdiv (h.comp i).lin_image 2 }) h
    else h
  (P_OK, { h with modified := 1 })

/-- `p_mod_to_dbl_image_rate` of cpfspd_mod.c.  `modified` is set even on
the illegal-frequency error path. -/
def p_mod_to_dbl_image_rate (h : pT_header) : pT_status × pT_header :=
  let old_image_freq := p_get_image_freq h
  let r : pT_status × pT_header :=
    if old_image_freq = P_50HZ ∨ old_image_freq = P_60HZ ∨ old_image_freq = P_REAL_60HZ
    then (P_OK, { h with nr_images := h.nr_images * 2, ima_freq := h.ima_freq * 2
                         lin_freq := h.lin_freq * 2, pix_freq := h.pix_freq * 2 })
    else (P_ILLEGAL_IMAGE_FREQ_MOD, h)
  (r.1, { r.2 with modified := 1 })

/-- `p_mod_to_onehalf_image_rate` of cpfspd_mod.c.  The C statement
`header->nr_images = (int)((double)header->nr_images * 1.5)` is exact in
`double` for every representable image count, so it is modelled as
truncation of the rational `nr_images * 3/2`. -/
def p_mod_to_onehalf_image_rate (h : pT_header) : pT_status × pT_header :=
  let old_image_freq := p_get_image_freq h
  let r : pT_status × pT_header :=
    if old_image_freq = P_50HZ ∨ old_image_freq = P_60HZ ∨ old_image_freq = P_REAL_60HZ
    then (P_OK, { h with nr_images := c_int_of_double ((h.nr_images : Rat) * 1.5)
                         ima_freq := h.ima_freq * 1.5
                         lin_freq := h.lin_freq * 1.5, pix_freq := h.pix_freq * 1.5 })
    else (P_ILLEGAL_IMAGE_FREQ_MOD, h)
  (r.1, { r.2 with modified := 1 })

/-- `p_mod_image_size` of cpfspd_mod.c. -/
def p_mod_image_size (h : pT_header) (width height : Int) : pT_status × pT_header :=
  let reset_freq := ¬(width ≤ h.act_pixel ∧ height ≤ h.act_lines)
  let h0 := h
  let h := (List.range h.nr_compon.toNat).foldl
    (fun h i =>
      let h_subsample := Int.tdiv h0.act_pixel (h.comp i).pix_line
      let v_subsample := Int.tdiv h0.act_lines (h.comp i).lin_image
      h.setComp i { h.comp i with pix_line := Int.tdiv width h_subsample
                                  lin_image := Int.tdiv height v_subsample }) h
  let h := { h with act_pixel := width, act_lines := height }
  let h := if reset_freq then { h with pix_freq := 0, lin_freq := 0 } else h
  (P_OK, { h with modified := 1 })

/-- `p_mod_all_freqs` of cpfspd_mod.c: the only modification operation
whose error path leaves `modified` untouched. -/
def p_mod_all_freqs (h : pT_header) (image_freq line_freq pixel_freq : Rat) :
    pT_status × pT_header :=
  if 0 ≤ image_freq ∧ 0 ≤ line_freq ∧ 0 ≤ pixel_freq then
    (P_OK, { h with ima_freq := image_freq, lin_freq := line_freq
                    pix_freq := pixel_freq, modified := 1 })
  else (P_ILLEGAL_ILP_FREQ_MOD, h)

/-- `p_mod_file_description` of cpfspd_mod.c (the C string argument as a
NUL-free byte list). -/
def p_mod_file_description (h : pT_header) (description : List Nat) :
    pT_status × pT_header :=
  if P_SDESCRIPTION ≤ description.length then
    (P_EXCEEDING_DESCRIPTION_SIZE, { h with modified := 1 })
  else
    (P_OK,
      { h with
          description := fun i =>
            if i < description.length then description.getD i 0 else 0
          modified := 1 })

/-- `p_mod_rm_comp` of cpfspd_mod.c.  Component id -1 is ignored entirely
(no `modified`); an otherwise invalid id sets `modified` and fails. -/
def p_mod_rm_comp (h : pT_header) (comp : Int) : pT_status × pT_header :=
  if comp = -1 then (P_OK, h)
  else if comp < 0 ∨ h.nr_compon ≤ comp then
    (P_INVALID_COMPONENT, { h with modified := 1 })
  else
    (P_OK,
      { h with
          comp := fun j =>
            if comp.toNat ≤ j ∧ (j : Int) < h.nr_compon - 1 then h.comp (j + 1)
            else h.comp j
          nr_compon := h.nr_compon - 1
          modified := 1 })

/-- `p_mod_rm_extra_comps` of cpfspd_mod.c (`modified` is set even when
the color-format check fails). -/
def p_mod_rm_extra_comps (h : pT_header) : pT_status × pT_header :=
  let r := p_check_color_format h
  let h :=
    if r.1 = P_OK ∧ r.2 ≠ P_UNKNOWN_COLOR then
      { h with nr_compon := p_color_nr_comps r.2 }
    else h
  (r.1, { h with modified := 1 })

end Cpfspd

namespace Cpfspd

open pT_status pT_color pT_data_fmt pT_freq pT_size pT_asp_rat

/-! ## Extended header creation (cpfspd_hdr.c) -/

/-- The output locals of `p_set_header_values` /
`p_set_stream_header_values` (initialised to zero by their caller
`p_create_ext_header`). -/
structure pT_hdr_vals where
  ima_freq : Rat
  lin_freq : Rat
  pix_freq : Rat
  act_lines : Int
  act_pixel : Int
  interlace_factor : Int
  h_ratio : Int
  v_ratio : Int
deriving DecidableEq, Repr

def hdrVals0 : pT_hdr_vals :=
  { ima_freq := 0, lin_freq := 0, pix_freq := 0, act_lines := 0, act_pixel := 0
    interlace_factor := 0, h_ratio := 0, v_ratio := 0 }

/-- The image-frequency table of `p_set_header_values`. -/
def p_hdr_ima_freq : pT_freq → Option Rat
  | P_50HZ => some P_STD_IMA_FREQ_50HZ
  | P_25HZ => some (P_STD_IMA_FREQ_50HZ / 2)
  | P_60HZ => some P_STD_IMA_FREQ_60HZ
  | P_24HZ => some (P_STD_IMA_FREQ_60HZ / 2.5)
  | P_30HZ => some (P_STD_IMA_FREQ_60HZ / 2)
  | P_REAL_60HZ => some P_STD_IMA_FREQ_REAL_60HZ
  | P_REAL_24HZ => some (P_STD_IMA_FREQ_REAL_60HZ / 2.5)
  | P_REAL_30HZ => some (P_STD_IMA_FREQ_REAL_60HZ / 2)
  | _ => none

/-- Line frequency and active lines of `p_set_header_values` (interlaced
values; `none` when either `switch` hits its error default). -/
def p_hdr_lines (image_freq : pT_freq) (image_size : pT_size) : Option (Rat × Int) :=
  if image_freq = P_50HZ ∨ image_freq = P_25HZ then
    match image_size with
    | P_QCIF => some (15.625, 144)
    | P_CIF => some (15.625, 288)
    | P_SD => some (15.625, 576)
    | P_HDi => some (31.25, 1152)
    | _ => none
  else
    let ntsc := image_freq = P_60HZ ∨ image_freq = P_24HZ ∨ image_freq = P_30HZ
    match image_size with
    | P_QCIF => some (if ntsc then 15.734264 else 15.75, 120)
    | P_CIF => some (if ntsc then 15.734264 else 15.75, 240)
    | P_SD => some (if ntsc then 15.734264 else 15.75, 480)
    | P_HDp => some (if ntsc then 22.4775 else 22.5, 720)
    | P_HDi => some (if ntsc then 33.71625 else 33.75, 1080)
    | _ => none

/-- Pixel frequency and active pixels of `p_set_header_values` (`none`
when the `pixels_per_line` switch hits its error default). -/
def p_hdr_pixels (image_freq : pT_freq) (image_size : pT_size)
    (pixels_per_line : Int) : Option (Rat × Int) :=
  match image_size with
  | P_QCIF =>
      if pixels_per_line = 0 ∨ pixels_per_line = 176 then some (13.5, 176)
      else if pixels_per_line = 180 then some (13.5, 180)
      else none
  | P_CIF =>
      if pixels_per_line = 0 ∨ pixels_per_line = 352 then some (13.5, 352)
      else if pixels_per_line = 360 then some (13.5, 360)
      else none
  | P_SD =>
      if pixels_per_line = 512 then some (9.6, 512)
      else if pixels_per_line = 640 then some (12, 640)
      else if pixels_per_line = 704 then some (13.5, 704)
      else if pixels_per_line = 0 ∨ pixels_per_line = 720 then some (13.5, 720)
      else if pixels_per_line = 848 then some (16, 848)
      else if pixels_per_line = 960 then some (18, 960)
      else if pixels_per_line = 1024 then some (19.2, 1024)
      else if pixels_per_line = 1280 then some (24, 1280)
      else if pixels_per_line = 1440 then some (27, 1440)
      else none
  | P_HDp =>
      if pixels_per_line = 960 then some (27.84375, 960)
      else if pixels_per_line = 1024 then some (29.7, 1024)
      else if pixels_per_line = 0 ∨ pixels_per_line = 1280 then some (37.125, 1280)
      else if pixels_per_line = 1440 then some (41.765625, 1440)
      else if pixels_per_line = 1920 then some (55.6875, 1920)
      else none
  | P_HDi =>
      if image_freq = P_50HZ ∨ image_freq = P_25HZ then
        if pixels_per_line = 960 then some (36, 960)
        else if pixels_per_line = 1024 then some (38.4, 1024)
        else if pixels_per_line = 1280 then some (48, 1280)
        else if pixels_per_line = 0 ∨ pixels_per_line = 1440 then some (54, 1440)
        else if pixels_per_line = 1920 then some (72, 1920)
        else none
      else
        if pixels_per_line = 960 then some (37.125, 960)
        else if pixels_per_line = 1024 then some (39.6, 1024)
        else if pixels_per_line = 1280 then some (49.5, 1280)
        else if pixels_per_line = 1440 then some (55.6875, 1440)
        else if pixels_per_line = 0 ∨ pixels_per_line = 1920 then some (74.25, 1920)
        else none
  | P_UNKNOWN_SIZE => none

/-- Aspect-ratio defaulting and table shared by `p_set_header_values`
(the `ratio` switch, after the automatic default determination). -/
def p_hdr_ratio (image_size : pT_size) (pixels_per_line : Int) (ratio : pT_asp_rat)
    (act_lines act_pixel : Int) : Option (Int × Int) :=
  let ratio :=
    if ratio = P_UNKNOWN_ASPECT_RATIO then
      match image_size with
      | P_SD => if pixels_per_line > 720 then P_16_9 else P_4_3
      | P_CIF => if pixels_per_line > 352 then P_16_9 else P_4_3
      | P_QCIF => if pixels_per_line > 176 then P_16_9 else P_4_3
      | P_HDp | P_HDi => P_16_9
      | _ => ratio
    else ratio
  match ratio with
  | P_4_3 => some (4, 3)
  | P_16_9 => some (16, 9)
  | P_AS_WH =>
      let d := lcd act_pixel act_lines
      some (Int.tdiv act_pixel d, Int.tdiv act_lines d)
  | P_UNKNOWN_ASPECT_RATIO => none

/-- `p_set_header_values` of cpfspd_hdr.c: early return on each failing
stage, with the output locals holding the values assigned so far. -/
def p_set_header_values (image_freq : pT_freq) (image_size : pT_size)
    (pixels_per_line progressive : Int) (ratio : pT_asp_rat) :
    pT_status × pT_hdr_vals :=
  match p_hdr_ima_freq image_freq with
  | none => (P_ILLEGAL_IMAGE_FREQUENCY, hdrVals0)
  | some imaf =>
    match p_hdr_lines image_freq image_size with
    | none => (P_ILLEGAL_IMAGE_SIZE, { hdrVals0 with ima_freq := imaf })
    | some (linf, actl) =>
      match p_hdr_pixels image_freq image_size pixels_per_line with
      | none =>
          (if image_size = P_UNKNOWN_SIZE then P_ILLEGAL_IMAGE_SIZE
           else P_ILLEGAL_NUM_OF_PIX_PER_LINE,
           { hdrVals0 with ima_freq := imaf, lin_freq := linf, act_lines := actl })
      | some (pixf, actp) =>
        let film := image_freq = P_25HZ ∨ image_freq = P_24HZ ∨ image_freq = P_30HZ
          ∨ image_freq = P_REAL_24HZ ∨ image_freq = P_REAL_30HZ
        let linf := if film then 0 else linf
        let pixf := if film then 0 else pixf
        let (il, linf, pixf) :=
          if progressive ≠ 0 then (1, linf * 2, pixf * 2) else ((2 : Int), linf, pixf)
        match p_hdr_ratio image_size pixels_per_line ratio actl actp with
        | none =>
            ( P_ILLEGAL_ASPECT_RATIO,
             { ima_freq := imaf, lin_freq := linf, pix_freq := pixf
               act_lines := actl, act_pixel := actp, interlace_factor := il
               h_ratio := 0, v_ratio := 0 })
        | some (hr, vr) =>
            (P_OK,
             { ima_freq := imaf, lin_freq := linf, pix_freq := pixf
               act_lines := actl, act_pixel := actp, interlace_factor := il
               h_ratio := hr, v_ratio := vr })

/-- `p_set_stream_header_values` of cpfspd_hdr.c. -/
def p_set_stream_header_values (image_freq : pT_freq) (image_size : pT_size)
    (pixels_per_line : Int) (ratio : pT_asp_rat) : pT_status × pT_hdr_vals :=
  let r : pT_status × Rat × Rat × Int × Rat × Int :=
    match image_freq with
    | P_25HZ =>
        let imaf := P_STD_IMA_FREQ_50HZ / 2
        match image_size with
        | P_SD =>
            if pixels_per_line = 0 ∨ pixels_per_line = 864 then
              (P_OK, imaf, 15.625, 625, 13.5, 864)
            else if pixels_per_line = 1024 then (P_OK, imaf, 15.625, 625, 16, 1024)
            else if pixels_per_line = 1152 then (P_OK, imaf, 15.625, 625, 18, 1152)
            else (P_ILLEGAL_NUM_OF_PIX_PER_LINE, imaf, 15.625, 625, 0, 0)
        | _ => (P_ILLEGAL_IMAGE_SIZE, imaf, 0, 0, 0, 0)
    | P_30HZ =>
        let imaf := P_STD_IMA_FREQ_60HZ / 2
        match image_size with
        | P_SD =>
            if pixels_per_line = 0 ∨ pixels_per_line = 858 then
              (P_OK, imaf, 15.734264, 525, 13.5, 858)
            else if pixels_per_line = 1144 then (P_OK, imaf, 15.734264, 525, 18, 1144)
            else (P_ILLEGAL_NUM_OF_PIX_PER_LINE, imaf, 15.734264, 525, 0, 0)
        | _ => (P_ILLEGAL_IMAGE_SIZE, imaf, 0, 0, 0, 0)
    | _ => (P_ILLEGAL_IMAGE_FREQUENCY, 0, 0, 0, 0, 0)
  match r with
  | (st, imaf, linf, actl, pixf, actp) =>
    if st ≠ P_OK then
      (st, { hdrVals0 with ima_freq := imaf, lin_freq := linf, pix_freq := pixf
                           act_lines := actl, act_pixel := actp })
    else
      let ratio :=
        if ratio = P_UNKNOWN_ASPECT_RATIO then
          if pixels_per_line > 720 then P_16_9 else P_4_3
        else ratio
      let rr : pT_status × Int × Int :=
        match ratio with
        | P_4_3 => (P_OK, 4, 3)
        | P_16_9 => (P_OK, 16, 9)
        | P_AS_WH =>
            let d := lcd actp actl
            (P_OK, Int.tdiv actp d, Int.tdiv actl d)
        | P_UNKNOWN_ASPECT_RATIO => ( P_ILLEGAL_ASPECT_RATIO, 0, 0)
      (rr.1, { ima_freq := imaf, lin_freq := linf, pix_freq := pixf
               act_lines := actl, act_pixel := actp, interlace_factor := 1
               h_ratio := rr.2.1, v_ratio := rr.2.2 })

/-- `p_create_ext_header` of cpfspd_hdr.c.  `modified` is set to 1 at the
end on every path, including failures that leave the rest of the caller's
header untouched. -/
def p_create_ext_header (h : pT_header) (color : pT_color) (image_freq : pT_freq)
    (image_size : pT_size) (pixels_per_line progressive : Int) (ratio : pT_asp_rat) :
    pT_status × pT_header :=
  let status := P_OK
  let status := if image_size = P_HDp ∧ (image_freq = P_50HZ ∨ image_freq = P_25HZ)
    then P_ILLEGAL_SIZE_FREQUENCY else status
  let status := if image_size = P_HDp ∧ progressive = 0
    then P_ILLEGAL_SIZE_INTERLACED_MODE else status
  let status := if image_size = P_HDi ∧ progressive = 1
    then P_ILLEGAL_SIZE_PROGRESSIVE_MODE else status
  let status := if color = P_STREAM ∧ progressive = 0
    then P_ILLEGAL_FORMAT_INTERL_MODE else status
  let r : pT_status × pT_hdr_vals :=
    if status = P_OK then
      if color = P_STREAM then
        p_set_stream_header_values image_freq image_size pixels_per_line ratio
      else
        p_set_header_values image_freq image_size pixels_per_line progressive ratio
    else (status, hdrVals0)
  let r2 : pT_status × pT_header :=
    if r.1 = P_OK then
      p_create_free_header color r.2.ima_freq r.2.lin_freq r.2.pix_freq
        r.2.act_lines r.2.act_pixel r.2.interlace_factor r.2.h_ratio r.2.v_ratio
    else (r.1, h)
  (r2.1, { r2.2 with modified := 1 })

/-- `p_create_header` of cpfspd_hdr.c. -/
def p_create_header (h : pT_header) (color : pT_color) (image_freq : pT_freq) :
    pT_status × pT_header :=
  if color = P_STREAM then p_create_ext_header h color image_freq P_SD 0 1 P_4_3
  else p_create_ext_header h color image_freq P_SD 0 0 P_4_3

/-- `p_mod_defined_image_size` of cpfspd_mod.c. -/
def p_mod_defined_image_size (h : pT_header) (image_size : pT_size)
    (pixels_per_line : Int) : pT_status × pT_header :=
  let color_format := p_get_color_format h
  let image_freq := p_get_image_freq h
  let progressive := p_is_progressive h
  let ratio := p_get_aspect_ratio h
  let file_data_fmt := p_get_file_data_format h
  let num_frames := p_get_num_frames h
  let r := p_create_ext_header h color_format image_freq image_size
    pixels_per_line progressive ratio
  let r := if r.1 = P_OK then p_mod_num_frames r.2 num_frames else r
  let r := if r.1 = P_OK then p_mod_file_data_format r.2 file_data_fmt else r
  (r.1, { r.2 with modified := 1 })

/-- `p_mod_defined_image_freq` of cpfspd_mod.c. -/
def p_mod_defined_image_freq (h : pT_header) (image_freq : pT_freq) :
    pT_status × pT_header :=
  let color_format := p_get_color_format h
  let image_size := p_get_image_size h
  let pixels_per_line := p_get_frame_width h
  let progressive := p_is_progressive h
  let ratio := p_get_aspect_ratio h
  let file_data_fmt := p_get_file_data_format h
  let num_frames := p_get_num_frames h
  let r := p_create_ext_header h color_format image_freq image_size
    pixels_per_line progressive ratio
  let r := if r.1 = P_OK then p_mod_num_frames r.2 num_frames else r
  let r := if r.1 = P_OK then p_mod_file_data_format r.2 file_data_fmt else r
  (r.1, { r.2 with modified := 1 })

end Cpfspd

namespace Cpfspd

open pT_status pT_color pT_data_fmt pT_freq pT_size pT_asp_rat

/-- C5 counterexample: `p_mod_all_freqs` called with a negative image
frequency on an unmodified header returns the error status
`P_ILLEGAL_ILP_FREQ_MOD` and leaves `modified` at 0, so not every listed
modification operation sets `modified` unconditionally. -/
theorem C5_counterexample :
    sampleHeader.modified = 0
      ∧ (p_mod_all_freqs sampleHeader (-1) 0 0).1 = P_ILLEGAL_ILP_FREQ_MOD
      ∧ (p_mod_all_freqs sampleHeader (-1) 0 0).2.modified = 0 := by
  exact ⟨rfl, by decide, by decide⟩

/-- C5 (amended): `p_mod_num_frames`, `p_mod_color_format`,
`p_mod_aspect_ratio`, `p_mod_to_progressive`, `p_mod_to_interlaced`,
`p_mod_image_size`, `p_mod_file_data_format`, `p_mod_file_description`,
`p_mod_set_comp_2` and `p_mod_rm_aux` set `header->modified` to 1
unconditionally, even on a no-op or an error return; the exceptions are
`p_mod_all_freqs` (sets it only when all three frequencies are
non-negative, i.e. only on success), `p_mod_add_comp` (only when a
component slot was available), `p_mod_rm_comp` (not for the ignored
component id -1), and `p_mod_add_aux` (only on success, i.e. only when it
does not return -1). -/
theorem C5_modified_flag_policy :
    (∀ h n, ((p_mod_num_frames h n).2).modified = 1)
    ∧ (∀ h cf, ((p_mod_color_format h cf).2).modified = 1)
    ∧ (∀ h r, ((p_mod_aspect_ratio h r).2).modified = 1)
    ∧ (∀ h, ((p_mod_to_progressive h).2).modified = 1)
    ∧ (∀ h, ((p_mod_to_interlaced h).2).modified = 1)
    ∧ (∀ h w t, ((p_mod_image_size h w t).2).modified = 1)
    ∧ (∀ h f, ((p_mod_file_data_format h f).2).modified = 1)
    ∧ (∀ h d, ((p_mod_file_description h d).2).modified = 1)
    ∧ (∀ h c nm f ps ls m, ((p_mod_set_comp_2 h c nm f ps ls m).2).modified = 1)
    ∧ (∀ h i, ((p_mod_rm_aux h i).2).modified = 1)
    ∧ (∀ h i l p, ((p_mod_all_freqs h i l p).2).modified
        = if 0 ≤ i ∧ 0 ≤ l ∧ 0 ≤ p then 1 else h.modified)
    ∧ (∀ h, ((p_mod_add_comp h).2).modified
        = if h.nr_compon < P_PFSPD_MAX_COMP then 1 else h.modified)
    ∧ (∀ h c, ((p_mod_rm_comp h c).2).modified = if c = -1 then h.modified else 1)
    ∧ (∀ h m nm d, ((p_mod_add_aux h m nm d).2).modified
        = if (p_mod_add_aux h m nm d).1 < 0 then h.modified else 1) := by
  refine ⟨?_, ?_, ?_, ?_, ?_, ?_, ?_, ?_, ?_, ?_, ?_, ?_, ?_, ?_⟩
  · intro h n; rfl
  · intro h cf; simp [p_mod_color_format]
  · intro h r; simp [p_mod_aspect_ratio]
  · intro h; simp [p_mod_to_progressive]
  · intro h; simp [p_mod_to_interlaced]
  · intro h w t; simp [p_mod_image_size]
  · intro h f; simp [p_mod_file_data_format]
  · intro h d; unfold p_mod_file_description; split <;> rfl
  · intro h c nm f ps ls m; simp [p_mod_set_comp_2]
  · intro h i; unfold p_mod_rm_aux; split <;> rfl
  · intro h i l p; unfold p_mod_all_freqs; split <;> rfl
  · intro h; unfold p_mod_add_comp; split <;> rfl
  · intro h c
    unfold p_mod_rm_comp
    split
    · rfl
    · split <;> rfl
  · intro h m nm d
    unfold p_mod_add_aux
    split
    · norm_num
    · dsimp only
      split
      · norm_num
      · rw [if_neg (by omega)]

end Cpfspd

namespace Cpfspd

open pT_status pT_color pT_data_fmt pT_freq pT_size pT_asp_rat

/-! ## The frame-count invariant (C6) -/

/-- The invariant claimed by the spec: the image count is the frame count
(as returned by `p_get_num_frames`) times the interlace factor. -/
def framesInvariant (h : pT_header) : Prop :=
  h.nr_images = p_get_num_frames h * h.interlace

theorem framesInvariant_mul {h : pT_header} (hk : ∃ k, h.nr_images = k * h.interlace) :
    framesInvariant h := by
  obtain ⟨k, hk⟩ := hk
  unfold framesInvariant p_get_num_frames
  rw [hk]
  rcases eq_or_ne h.interlace 0 with h0 | h0
  · rw [h0]; ring
  · rw [Int.mul_tdiv_cancel _ h0]

theorem inv_of_fields {h h' : pT_header}
    (hf : h'.nr_images = h.nr_images ∧ h'.interlace = h.interlace)
    (hh : framesInvariant h) : framesInvariant h' := by
  unfold framesInvariant p_get_num_frames at *
  rw [hf.1, hf.2]
  exact hh

theorem framesInvariant_of_zero {h : pT_header} (hn : h.nr_images = 0) :
    framesInvariant h := by
  unfold framesInvariant p_get_num_frames
  rw [hn]
  simp

theorem framesInvariant_of_interlace_one {h : pT_header} (hi : h.interlace = 1) :
    framesInvariant h := by
  unfold framesInvariant p_get_num_frames
  rw [hi]
  simp

/-- A header left by a structure update that only changes `modified`
keeps the invariant. -/
theorem framesInvariant_modified {h : pT_header} {m : Int}
    (hh : framesInvariant h) : framesInvariant { h with modified := m } :=
  inv_of_fields ⟨rfl, rfl⟩ hh

theorem foldl_setComp_nr {α : Type} (F : pT_header → α → Nat)
    (G : pT_header → α → pT_component) :
    ∀ (l : List α) (h : pT_header),
      (l.foldl (fun g a => g.setComp (F g a) (G g a)) h).nr_images = h.nr_images := by
  intro l
  induction l with
  | nil => intro h; rfl
  | cons a t ih =>
      intro h
      rw [List.foldl_cons]
      exact ih _

theorem foldl_setComp_interlace {α : Type} (F : pT_header → α → Nat)
    (G : pT_header → α → pT_component) :
    ∀ (l : List α) (h : pT_header),
      (l.foldl (fun g a => g.setComp (F g a) (G g a)) h).interlace = h.interlace := by
  intro l
  induction l with
  | nil => intro h; rfl
  | cons a t ih =>
      intro h
      rw [List.foldl_cons]
      exact ih _

theorem foldl_pair_nr_images {α : Type}
    {f : pT_status × pT_header → α → pT_status × pT_header}
    (hf : ∀ g a, (f g a).2.nr_images = g.2.nr_images) :
    ∀ (l : List α) (s : pT_status × pT_header),
      (l.foldl f s).2.nr_images = s.2.nr_images := by
  intro l
  induction l with
  | nil => intro s; rfl
  | cons a t ih =>
      intro s
      rw [List.foldl_cons]
      exact (ih (f s a)).trans (hf s a)

theorem p_mod_add_comp_fields (h : pT_header) :
    (p_mod_add_comp h).2.nr_images = h.nr_images
      ∧ (p_mod_add_comp h).2.interlace = h.interlace := by
  unfold p_mod_add_comp
  split <;> exact ⟨rfl, rfl⟩

theorem p_mod_set_comp_2_fields (h : pT_header) (c : Int) (nm : String)
    (f : pT_data_fmt) (ps ls m : Int) :
    (p_mod_set_comp_2 h c nm f ps ls m).2.nr_images = h.nr_images
      ∧ (p_mod_set_comp_2 h c nm f ps ls m).2.interlace = h.interlace := by
  unfold p_mod_set_comp_2
  dsimp only
  constructor <;> ((repeat' split) <;> rfl)

theorem p_create_free_header_nr (color : pT_color) (ima lin pix : Rat)
    (al ap il hr vr : Int) :
    (p_create_free_header color ima lin pix al ap il hr vr).2.nr_images = 0 := by
  unfold p_create_free_header
  split
  · rfl
  · refine foldl_pair_nr_images ?_ _ _
    intro g a
    dsimp only
    split
    · exact ((p_mod_set_comp_2_fields _ _ _ _ _ _ _).1).trans
        (p_mod_add_comp_fields g.2).1
    · rfl

theorem p_create_free_header_inv (color : pT_color) (ima lin pix : Rat)
    (al ap il hr vr : Int) :
    framesInvariant (p_create_free_header color ima lin pix al ap il hr vr).2 :=
  framesInvariant_of_zero (p_create_free_header_nr color ima lin pix al ap il hr vr)

theorem p_mod_num_frames_inv (h : pT_header) (n : Int) :
    framesInvariant (p_mod_num_frames h n).2 :=
  framesInvariant_mul ⟨n, rfl⟩

/-- One step of the status-guarded call chains of cpfspd_mod.c. -/
theorem chain_step_inv (g : pT_header → pT_status × pT_header)
    (hg : ∀ x, framesInvariant x → framesInvariant (g x).2)
    (r : pT_status × pT_header) (hr : framesInvariant r.2) :
    framesInvariant (if r.1 = P_OK then g r.2 else r).2 := by
  split
  · exact hg _ hr
  · exact hr

theorem p_mod_file_data_format_fields (h : pT_header) (f : pT_data_fmt) :
    (p_mod_file_data_format h f).2.nr_images = h.nr_images
      ∧ (p_mod_file_data_format h f).2.interlace = h.interlace := by
  unfold p_mod_file_data_format
  dsimp only
  constructor
  · (repeat' split) <;>
      first
      | exact foldl_setComp_nr _ _ _ _
      | rfl
  · (repeat' split) <;>
      first
      | exact foldl_setComp_interlace _ _ _ _
      | rfl

theorem p_mod_color_format_inv (h : pT_header) (cf : pT_color)
    (hinv : framesInvariant h) : framesInvariant (p_mod_color_format h cf).2 := by
  unfold p_mod_color_format
  dsimp only
  apply framesInvariant_modified
  split
  · exact chain_step_inv _
      (fun x hx => inv_of_fields (p_mod_file_data_format_fields x _) hx) _
      (chain_step_inv _ (fun x _ => p_mod_num_frames_inv x _) _
        (p_create_free_header_inv _ _ _ _ _ _ _ _ _))
  · exact hinv

theorem p_mod_aspect_ratio_fields (h : pT_header) (r : pT_asp_rat) :
    (p_mod_aspect_ratio h r).2.nr_images = h.nr_images
      ∧ (p_mod_aspect_ratio h r).2.interlace = h.interlace := by
  unfold p_mod_aspect_ratio
  dsimp only
  constructor <;> ((repeat' split) <;> rfl)

theorem p_mod_to_progressive_inv (h : pT_header) (hinv : framesInvariant h) :
    framesInvariant (p_mod_to_progressive h).2 := by
  unfold p_mod_to_progressive
  dsimp only
  split
  · apply framesInvariant_modified
    apply framesInvariant_of_interlace_one
    exact foldl_setComp_interlace _ _ _ _
  · exact framesInvariant_modified hinv

theorem p_mod_to_interlaced_inv (h : pT_header) (hinv : framesInvariant h) :
    framesInvariant (p_mod_to_interlaced h).2 := by
  unfold p_mod_to_interlaced
  dsimp only
  split
  · apply framesInvariant_modified
    refine inv_of_fields
      ⟨foldl_setComp_nr _ _ _ _, foldl_setComp_interlace _ _ _ _⟩ ?_
    exact framesInvariant_mul ⟨h.nr_images, rfl⟩
  · exact framesInvariant_modified hinv

theorem p_mod_to_dbl_image_rate_inv (h : pT_header) (hinv : framesInvariant h) :
    framesInvariant (p_mod_to_dbl_image_rate h).2 := by
  unfold p_mod_to_dbl_image_rate
  dsimp only
  split
  · apply framesInvariant_modified
    have hv : h.nr_images = p_get_num_frames h * h.interlace := hinv
    refine framesInvariant_mul ⟨2 * p_get_num_frames h, ?_⟩
    show h.nr_images * 2 = 2 * p_get_num_frames h * h.interlace
    rw [hv]; ring
  · exact framesInvariant_modified hinv

theorem p_mod_image_size_fields (h : pT_header) (w t : Int) :
    (p_mod_image_size h w t).2.nr_images = h.nr_images
      ∧ (p_mod_image_size h w t).2.interlace = h.interlace := by
  unfold p_mod_image_size
  dsimp only
  constructor
  · split <;> exact foldl_setComp_nr _ _ _ _
  · split <;> exact foldl_setComp_interlace _ _ _ _

theorem p_mod_all_freqs_fields (h : pT_header) (i l p : Rat) :
    (p_mod_all_freqs h i l p).2.nr_images = h.nr_images
      ∧ (p_mod_all_freqs h i l p).2.interlace = h.interlace := by
  unfold p_mod_all_freqs
  split <;> exact ⟨rfl, rfl⟩

theorem p_mod_file_description_fields (h : pT_header) (d : List Nat) :
    (p_mod_file_description h d).2.nr_images = h.nr_images
      ∧ (p_mod_file_description h d).2.interlace = h.interlace := by
  unfold p_mod_file_description
  split <;> exact ⟨rfl, rfl⟩

theorem p_mod_rm_comp_fields (h : pT_header) (c : Int) :
    (p_mod_rm_comp h c).2.nr_images = h.nr_images
      ∧ (p_mod_rm_comp h c).2.interlace = h.interlace := by
  unfold p_mod_rm_comp
  split
  · exact ⟨rfl, rfl⟩
  · split <;> exact ⟨rfl, rfl⟩

theorem p_mod_rm_extra_comps_fields (h : pT_header) :
    (p_mod_rm_extra_comps h).2.nr_images = h.nr_images
      ∧ (p_mod_rm_extra_comps h).2.interlace = h.interlace := by
  unfold p_mod_rm_extra_comps
  dsimp only
  constructor <;> ((repeat' split) <;> rfl)

theorem p_mod_add_aux_fields (h : pT_header) (ms : Nat) (nm d : List Nat) :
    (p_mod_add_aux h ms nm d).2.nr_images = h.nr_images
      ∧ (p_mod_add_aux h ms nm d).2.interlace = h.interlace := by
  unfold p_mod_add_aux
  split
  · exact ⟨rfl, rfl⟩
  · dsimp only
    split <;> exact ⟨rfl, rfl⟩

theorem p_mod_rm_aux_fields (h : pT_header) (i : Int) :
    (p_mod_rm_aux h i).2.nr_images = h.nr_images
      ∧ (p_mod_rm_aux h i).2.interlace = h.interlace := by
  unfold p_mod_rm_aux
  split <;> exact ⟨rfl, rfl⟩

theorem p_create_ext_header_inv (h : pT_header) (color : pT_color)
    (f : pT_freq) (s : pT_size) (ppl prog : Int) (r : pT_asp_rat)
    (hinv : framesInvariant h) :
    framesInvariant (p_create_ext_header h color f s ppl prog r).2 := by
  unfold p_create_ext_header
  dsimp only
  apply framesInvariant_modified
  (repeat' split) <;>
    first
    | exact p_create_free_header_inv _ _ _ _ _ _ _ _ _
    | exact hinv

theorem p_mod_defined_image_size_inv (h : pT_header) (s : pT_size) (ppl : Int)
    (hinv : framesInvariant h) :
    framesInvariant (p_mod_defined_image_size h s ppl).2 := by
  unfold p_mod_defined_image_size
  dsimp only
  apply framesInvariant_modified
  have hbase := p_create_ext_header_inv h (p_get_color_format h) (p_get_image_freq h)
    s ppl (p_is_progressive h) (p_get_aspect_ratio h) hinv
  revert hbase
  generalize p_create_ext_header h (p_get_color_format h) (p_get_image_freq h)
    s ppl (p_is_progressive h) (p_get_aspect_ratio h) = r0
  intro hbase
  exact chain_step_inv _
    (fun x hx => inv_of_fields (p_mod_file_data_format_fields x _) hx) _
    (chain_step_inv _ (fun x _ => p_mod_num_frames_inv x _) _ hbase)

theorem p_mod_defined_image_freq_inv (h : pT_header) (f : pT_freq)
    (hinv : framesInvariant h) :
    framesInvariant (p_mod_defined_image_freq h f).2 := by
  unfold p_mod_defined_image_freq
  dsimp only
  apply framesInvariant_modified
  have hbase := p_create_ext_header_inv h (p_get_color_format h) f
    (p_get_image_size h) (p_get_frame_width h) (p_is_progressive h)
    (p_get_aspect_ratio h) hinv
  revert hbase
  generalize p_create_ext_header h (p_get_color_format h) f
    (p_get_image_size h) (p_get_frame_width h) (p_is_progressive h)
    (p_get_aspect_ratio h) = r0
  intro hbase
  exact chain_step_inv _
    (fun x hx => inv_of_fields (p_mod_file_data_format_fields x _) hx) _
    (chain_step_inv _ (fun x _ => p_mod_num_frames_inv x _) _ hbase)

theorem p_create_header_inv (h : pT_header) (color : pT_color) (f : pT_freq)
    (hinv : framesInvariant h) :
    framesInvariant (p_create_header h color f).2 := by
  unfold p_create_header
  split <;> exact p_create_ext_header_inv _ _ _ _ _ _ _ hinv

/-- One application of a header-modification operation of cpfspd_mod.c /
cpfspd_hdr.c, excluding `p_mod_to_onehalf_image_rate`. -/
inductive ModStep : pT_header → pT_header → Prop where
  | num_frames (h : pT_header) (n : Int) : ModStep h (p_mod_num_frames h n).2
  | color_format (h : pT_header) (cf : pT_color) : ModStep h (p_mod_color_format h cf).2
  | aspect_ratio (h : pT_header) (r : pT_asp_rat) : ModStep h (p_mod_aspect_ratio h r).2
  | to_progressive (h : pT_header) : ModStep h (p_mod_to_progressive h).2
  | to_interlaced (h : pT_header) : ModStep h (p_mod_to_interlaced h).2
  | to_dbl_image_rate (h : pT_header) : ModStep h (p_mod_to_dbl_image_rate h).2
  | image_size (h : pT_header) (w t : Int) : ModStep h (p_mod_image_size h w t).2
  | defined_image_size (h : pT_header) (s : pT_size) (ppl : Int) :
      ModStep h (p_mod_defined_image_size h s ppl).2
  | defined_image_freq (h : pT_header) (f : pT_freq) :
      ModStep h (p_mod_defined_image_freq h f).2
  | all_freqs (h : pT_header) (i l p : Rat) : ModStep h (p_mod_all_freqs h i l p).2
  | file_data_format (h : pT_header) (f : pT_data_fmt) :
      ModStep h (p_mod_file_data_format h f).2
  | file_description (h : pT_header) (d : List Nat) :
      ModStep h (p_mod_file_description h d).2
  | add_comp (h : pT_header) : ModStep h (p_mod_add_comp h).2
  | set_comp_2 (h : pT_header) (c : Int) (nm : String) (f : pT_data_fmt)
      (ps ls m : Int) : ModStep h (p_mod_set_comp_2 h c nm f ps ls m).2
  | rm_comp (h : pT_header) (c : Int) : ModStep h (p_mod_rm_comp h c).2
  | rm_extra_comps (h : pT_header) : ModStep h (p_mod_rm_extra_comps h).2
  | add_aux (h : pT_header) (ms : Nat) (nm d : List Nat) :
      ModStep h (p_mod_add_aux h ms nm d).2
  | rm_aux (h : pT_header) (i : Int) : ModStep h (p_mod_rm_aux h i).2
  | create_ext (h : pT_header) (color : pT_color) (f : pT_freq) (s : pT_size)
      (ppl prog : Int) (r : pT_asp_rat) :
      ModStep h (p_create_ext_header h color f s ppl prog r).2
  | create (h : pT_header) (color : pT_color) (f : pT_freq) :
      ModStep h (p_create_header h color f).2

/-- Headers reachable from a freshly created header by the modification
operations (including `p_mod_to_onehalf_image_rate`). -/
inductive Reachable : pT_header → Prop where
  | created (color : pT_color) (ima lin pix : Rat) (al ap il hr vr : Int) :
      Reachable (p_create_free_header color ima lin pix al ap il hr vr).2
  | step (h h' : pT_header) : Reachable h → ModStep h h' → Reachable h'
  | onehalf (h : pT_header) : Reachable h →
      Reachable (p_mod_to_onehalf_image_rate h).2

def c6Header0 : pT_header :=
  (p_create_free_header P_NO_COLOR 50 15.625 13.5 576 720 2 4 3).2

def c6Header1 : pT_header := (p_mod_num_frames c6Header0 1).2

def c6HeaderBad : pT_header := (p_mod_to_onehalf_image_rate c6Header1).2

end Cpfspd

namespace Cpfspd

open pT_status pT_color pT_data_fmt pT_freq pT_size pT_asp_rat

/-- C6 counterexample: starting from a freshly created interlaced 50 Hz
header and setting one frame (`nr_images = 2`),
`p_mod_to_onehalf_image_rate` produces `nr_images = 3` with
`interlace = 2`, so `nr_images ≠ p_get_num_frames * interlace` on a
header reachable by the modification operations. -/
theorem C6_counterexample :
    Reachable c6HeaderBad
      ∧ c6HeaderBad.nr_images ≠ p_get_num_frames c6HeaderBad * c6HeaderBad.interlace := by
  constructor
  · exact Reachable.onehalf _
      (Reachable.step _ _ (Reachable.created P_NO_COLOR 50 15.625 13.5 576 720 2 4 3)
        (ModStep.num_frames _ 1))
  · decide!

/-- C6 (amended): `p_create_free_header` and `p_mod_num_frames` establish
the invariant `nr_images = p_get_num_frames * interlace`, and every
header-modification operation except `p_mod_to_onehalf_image_rate`
preserves it (`ModStep` ranges over all the others, including
`p_create_ext_header` and `p_create_header`). `p_mod_to_onehalf_image_rate`
does not preserve it. -/
theorem C6_frames_invariant :
    (∀ (color : pT_color) (ima lin pix : Rat) (al ap il hr vr : Int),
        framesInvariant (p_create_free_header color ima lin pix al ap il hr vr).2)
    ∧ (∀ (h : pT_header) (n : Int),
        (p_mod_num_frames h n).2.nr_images = n * (p_mod_num_frames h n).2.interlace
          ∧ framesInvariant (p_mod_num_frames h n).2)
    ∧ (∀ h h' : pT_header, ModStep h h' → framesInvariant h → framesInvariant h') := by
  refine ⟨p_create_free_header_inv, fun h n => ⟨rfl, p_mod_num_frames_inv h n⟩, ?_⟩
  intro h h' hs hinv
  cases hs with
  | num_frames n => exact p_mod_num_frames_inv h n
  | color_format cf => exact p_mod_color_format_inv h cf hinv
  | aspect_ratio r => exact inv_of_fields (p_mod_aspect_ratio_fields h r) hinv
  | to_progressive => exact p_mod_to_progressive_inv h hinv
  | to_interlaced => exact p_mod_to_interlaced_inv h hinv
  | to_dbl_image_rate => exact p_mod_to_dbl_image_rate_inv h hinv
  | image_size w t => exact inv_of_fields (p_mod_image_size_fields h w t) hinv
  | defined_image_size s ppl => exact p_mod_defined_image_size_inv h s ppl hinv
  | defined_image_freq f => exact p_mod_defined_image_freq_inv h f hinv
  | all_freqs i l p => exact inv_of_fields (p_mod_all_freqs_fields h i l p) hinv
  | file_data_format f => exact inv_of_fields (p_mod_file_data_format_fields h f) hinv
  | file_description d => exact inv_of_fields (p_mod_file_description_fields h d) hinv
  | add_comp => exact inv_of_fields (p_mod_add_comp_fields h) hinv
  | set_comp_2 c nm f ps ls m =>
      exact inv_of_fields (p_mod_set_comp_2_fields h c nm f ps ls m) hinv
  | rm_comp c => exact inv_of_fields (p_mod_rm_comp_fields h c) hinv
  | rm_extra_comps => exact inv_of_fields (p_mod_rm_extra_comps_fields h) hinv
  | add_aux ms nm d => exact inv_of_fields (p_mod_add_aux_fields h ms nm d) hinv
  | rm_aux i => exact inv_of_fields (p_mod_rm_aux_fields h i) hinv
  | create_ext color f s ppl prog r =>
      exact p_create_ext_header_inv h color f s ppl prog r hinv
  | create color f => exact p_create_header_inv h color f hinv

theorem C6_frames_invariant_witness :
    framesInvariant sampleHeader
      ∧ framesInvariant (p_mod_aspect_ratio sampleHeader P_16_9).2 :=
  ⟨by unfold framesInvariant p_get_num_frames; decide,
   C6_frames_invariant.2.2 sampleHeader _
     (ModStep.aspect_ratio sampleHeader P_16_9)
     (by unfold framesInvariant p_get_num_frames; decide)⟩

end Cpfspd

namespace Cpfspd

open pT_status pT_color pT_data_fmt pT_freq pT_size pT_asp_rat

/-! ## The image read/write layer (cpfspd_low.c, cpfspd_rwi.c)

File I/O is abstracted: opening, seeking, and the raw `fread`/`fwrite`
calls are assumed to succeed (their failure statuses are orthogonal to
the claims below), the `filename`/`FILE*` plumbing is dropped, and a
buffer pointer is an abstract element address (an `Int`, with 0 playing
the role of `NULL`).  Each row moved between the file and memory is
recorded as a `pT_transfer`, which captures exactly the arguments that
determine the bytes moved by `p_read_image` / `p_write_image`. -/

def P_READ_Y : Int := 0
def P_READ_ALL : Int := 1
def P_READ_UV : Int := 2
def P_READ_U : Int := 3
def P_READ_V : Int := 4
def P_READ_R : Int := 5
def P_READ_G : Int := 6
def P_READ_B : Int := 7

def P_8_BIT_MEM : Int := 0 * 16
def P_10_BIT_MEM : Int := 1 * 16
def P_12_BIT_MEM : Int := 2 * 16
def P_14_BIT_MEM : Int := 3 * 16
def P_16_BIT_MEM : Int := 4 * 16
def P_16_BIT_MEM_LSB : Int := 5 * 16
def P_AF_BIT_MEM : Int := 7 * 16

def P_UNSIGNED_CHAR : Int := 8
def P_UNSIGNED_SHORT : Int := 16

def P_NORMAL_COMP : Int := -1

/-- `(int)((unsigned int)x & m)` for a mask `m < 2^31`. -/
def c_uint_and (x : Int) (m : Nat) : Int := ((Int.emod x 4294967296).toNat &&& m : Nat)

/-- `p_get_word_widths` of cpfspd_low.c:
`(status, file_no_bits, mem_no_bits, file_type)`. -/
def p_get_word_widths (file_data_fmt : pT_data_fmt) (mem_data_fmt : Int) :
    pT_status × Int × Int × Int :=
  let r1 : Option (Int × Int) :=
    match file_data_fmt with
    | P_8_BIT_FILE => some (8, P_UNSIGNED_CHAR)
    | P_10_BIT_FILE => some (10, P_UNSIGNED_SHORT)
    | P_12_BIT_FILE => some (12, P_UNSIGNED_SHORT)
    | P_14_BIT_FILE => some (14, P_UNSIGNED_SHORT)
    | P_16_BIT_FILE => some (16, P_UNSIGNED_SHORT)
    | P_16_REAL_FILE => some (16, P_UNSIGNED_SHORT)
    | P_UNKNOWN_DATA_FORMAT => none
  let file_no_bits := ((r1.map fun p => p.1).getD 0)
  let file_type := ((r1.map fun p => p.2).getD 0)
  let r2 : Option Int :=
    if mem_data_fmt = P_8_BIT_MEM then some 8
    else if mem_data_fmt = P_10_BIT_MEM then some 10
    else if mem_data_fmt = P_12_BIT_MEM then some 12
    else if mem_data_fmt = P_14_BIT_MEM then some 14
    else if mem_data_fmt = P_16_BIT_MEM ∨ mem_data_fmt = P_16_BIT_MEM_LSB then some 16
    else if mem_data_fmt = P_AF_BIT_MEM then some file_no_bits
    else none
  let status := if r2.isNone then P_ILLEGAL_MEM_DATA_FORMAT
    else if r1.isNone then P_ILLEGAL_FILE_DATA_FORMAT
    else P_OK
  (status, file_no_bits, r2.getD 0, file_type)

/-- `p_get_element_size` of cpfspd_low.c. -/
def p_get_element_size (t : Int) : pT_status × Int :=
  if t = P_UNSIGNED_CHAR then (P_OK, 1)
  else if t = P_UNSIGNED_SHORT then (P_OK, 2)
  else (P_UNKNOWN_FILE_TYPE, 0)

/-- One row moved between file and memory: the file byte range and the
memory element range referenced.  Together with the element conversion
determined by the data formats, these determine the bytes transferred. -/
structure pT_transfer where
  fileOffset : Int
  fileBytes : Int
  memAddr : Int
  memElems : Int
deriving DecidableEq, Repr

/-- The status computed by the parameter checks of `p_read_image` before
any data is moved. -/
def p_read_image_status (h : pT_header) (comp_nr : Int)
    (mem_type mem_data_fmt : Int) : pT_status :=
  let file_data_fmt := p_get_comp_data_format h comp_nr.toNat
  let w := p_get_word_widths file_data_fmt mem_data_fmt
  if w.1 ≠ P_OK then w.1
  else
    let st := P_OK
    let st := if mem_type ≠ P_UNSIGNED_CHAR ∧ mem_type ≠ P_UNSIGNED_SHORT
      then P_UNKNOWN_MEM_TYPE else st
    let st := if mem_type = P_UNSIGNED_CHAR ∧ mem_data_fmt = P_AF_BIT_MEM
      then P_ILLEGAL_MEM_DATA_FORMAT else st
    st

/-- `p_read_image` of cpfspd_low.c as a row-transfer generator: row `y`
(`y < MIN(height, lin_image)`, clamped width `MIN(width, pix_line)`) is
read from the file at the component offset plus `y` file lines of
`pix_line` elements, into memory at `buf + y*stride`. -/
def p_read_image (h : pT_header) (nr comp_nr : Int) (buf : Int)
    (mem_type mem_data_fmt width height stride : Int) :
    pT_status × List pT_transfer :=
  let status := p_read_image_status h comp_nr mem_type mem_data_fmt
  if status ≠ P_OK then (status, [])
  else
    let local_width := min width (h.comp comp_nr.toNat).pix_line
    let local_height := min height (h.comp comp_nr.toNat).lin_image
    let file_data_fmt := p_get_comp_data_format h comp_nr.toNat
    let w := p_get_word_widths file_data_fmt mem_data_fmt
    let file_el_size := (p_get_element_size w.2.2.2).2
    let base := p_read_image_offset h nr comp_nr.toNat
    (P_OK,
      (List.range local_height.toNat).map fun y : Nat =>
        { fileOffset := base + (y : Int) * ((h.comp comp_nr.toNat).pix_line * file_el_size)
          fileBytes := local_width * file_el_size
          memAddr := buf + (y : Int) * stride
          memElems := local_width })

/-- The status computed by the parameter checks of `p_write_image`.  The
loop's pointer-advance `switch` rejects an unknown `mem_type` on any
component with at least one row, which is modelled by the final check. -/
def p_write_image_status (h : pT_header) (comp_nr : Int)
    (mem_type mem_data_fmt width height : Int) : pT_status :=
  let file_data_fmt := p_get_comp_data_format h comp_nr.toNat
  let w := p_get_word_widths file_data_fmt mem_data_fmt
  if w.1 ≠ P_OK then w.1
  else if mem_data_fmt ≠ P_8_BIT_MEM ∧ mem_data_fmt ≠ P_10_BIT_MEM
      ∧ mem_data_fmt ≠ P_12_BIT_MEM ∧ mem_data_fmt ≠ P_14_BIT_MEM
      ∧ mem_data_fmt ≠ P_16_BIT_MEM then
    P_ILLEGAL_MEM_DATA_FORMAT
  else if mem_type ≠ P_UNSIGNED_CHAR ∧ mem_type ≠ P_UNSIGNED_SHORT
      ∧ 0 < min height (h.comp comp_nr.toNat).lin_image then
    P_UNKNOWN_MEM_TYPE
  else P_OK

/-- `p_write_image` of cpfspd_low.c as a row-transfer generator (the
conversion buffer assembled line by line and written with a single
`fwrite` is recorded as its constituent rows). -/
def p_write_image (h : pT_header) (nr comp_nr : Int) (buf : Int)
    (mem_type mem_data_fmt width height stride : Int) :
    pT_status × List pT_transfer :=
  let status := p_write_image_status h comp_nr mem_type mem_data_fmt width height
  if status ≠ P_OK then (status, [])
  else
    let local_width := min width (h.comp comp_nr.toNat).pix_line
    let local_height := min height (h.comp comp_nr.toNat).lin_image
    let file_data_fmt := p_get_comp_data_format h comp_nr.toNat
    let w := p_get_word_widths file_data_fmt mem_data_fmt
    let file_el_size := (p_get_element_size w.2.2.2).2
    let base := p_write_image_offset h nr comp_nr.toNat
    (P_OK,
      (List.range local_height.toNat).map fun y : Nat =>
        { fileOffset := base + (y : Int) * (local_width * file_el_size)
          fileBytes := local_width * file_el_size
          memAddr := buf + (y : Int) * stride
          memElems := local_width })

end Cpfspd

namespace Cpfspd

open pT_status pT_color pT_data_fmt pT_freq pT_size pT_asp_rat

/-- `p_read_buffers` of cpfspd_rwi.c: component dispatch table, component
widths/heights, image number selection, and up to three guarded
`p_read_image` calls. -/
def p_read_buffers (h : pT_header) (color_format : pT_color)
    (frame field comp read_field : Int) (buf_0 buf_1 buf_2 : Int)
    (mem_type read_mode : Int) (width height : Int)
    (stride_0 stride_1 stride_2 : Int) : pT_status × List pT_transfer :=
  let component_mode := c_uint_and read_mode 7
  let mem_data_fmt := c_uint_and read_mode 112
  let d : pT_status × Bool × Bool × Bool × Int :=
    if comp ≠ P_NORMAL_COMP then (P_OK, true, false, false, comp)
    else
      match color_format with
      | P_NO_COLOR =>
          if component_mode = P_READ_Y then (P_OK, true, false, false, 0)
          else if component_mode = P_READ_ALL ∨ component_mode = P_READ_UV
              ∨ component_mode = P_READ_U ∨ component_mode = P_READ_V then
            (P_READ_CHR_FROM_LUM_ONLY, false, false, false, 0)
          else (P_READ_RGB_FROM_LUM_ONLY, false, false, false, 0)
      | P_COLOR_422 | P_COLOR_420 =>
          if component_mode = P_READ_ALL then (P_OK, true, true, false, 0)
          else if component_mode = P_READ_Y then (P_OK, true, false, false, 0)
          else if component_mode = P_READ_UV then (P_OK, false, true, false, 0)
          else if component_mode = P_READ_U ∨ component_mode = P_READ_V then
            (P_READ_PLANAR_CHR_FROM_MULT_CHR, false, false, false, 0)
          else (P_READ_RGB_FROM_YUV, false, false, false, 0)
      | P_COLOR_444_PL | P_COLOR_422_PL | P_COLOR_420_PL =>
          if component_mode = P_READ_ALL then (P_OK, true, true, true, 0)
          else if component_mode = P_READ_Y then (P_OK, true, false, false, 0)
          else if component_mode = P_READ_UV then (P_OK, false, true, true, 0)
          else if component_mode = P_READ_U then (P_OK, false, true, false, 0)
          else if component_mode = P_READ_V then (P_OK, false, false, true, 0)
          else (P_READ_RGB_FROM_YUV, false, false, false, 0)
      | P_COLOR_RGB | P_COLOR_XYZ =>
          if component_mode = P_READ_ALL then (P_OK, true, true, true, 0)
          else if component_mode = P_READ_R then (P_OK, true, false, false, 0)
          else if component_mode = P_READ_G then (P_OK, false, true, false, 0)
          else if component_mode = P_READ_B then (P_OK, false, false, true, 0)
          else if component_mode = P_READ_Y then (P_OK, true, true, true, 0)
          else (P_READ_CHR_FROM_RGB, false, false, false, 0)
      | P_STREAM =>
          if component_mode = P_READ_ALL then (P_OK, true, false, false, 0)
          else if component_mode = P_READ_Y then (P_OK, true, false, false, 0)
          else if component_mode = P_READ_UV ∨ component_mode = P_READ_U
              ∨ component_mode = P_READ_V then
            (P_READ_CHR_FROM_STREAM, false, false, false, 0)
          else (P_READ_RGB_FROM_STREAM, false, false, false, 0)
      | P_UNKNOWN_COLOR => (P_OK, false, false, false, 0)
  let status := d.1
  let read_0 := d.2.1
  let read_1 := d.2.2.1
  let read_2 := d.2.2.2.1
  let comp_0 := d.2.2.2.2
  let width_0 := if read_0 then Int.tdiv width (h.comp 0).pix_sbsmpl else 0
  let height_0 := if read_0 then Int.tdiv height (h.comp 0).lin_sbsmpl else 0
  let width_1 := if read_1 then Int.tdiv width (h.comp 1).pix_sbsmpl else 0
  let height_1 := if read_1 then Int.tdiv height (h.comp 1).lin_sbsmpl else 0
  let width_2 := if read_2 then Int.tdiv width (h.comp 2).pix_sbsmpl else 0
  let height_2 := if read_2 then Int.tdiv height (h.comp 2).lin_sbsmpl else 0
  let width_1 := if color_format = P_COLOR_422 ∨ color_format = P_COLOR_420
    then width_1 * 2 else width_1
  let image_number := if read_field ≠ 0 then 2 * (frame - 1) + field else frame
  let acc : pT_status × List pT_transfer := (status, [])
  let acc := if acc.1 = P_OK ∧ read_0 then
      let r := p_read_image h image_number comp_0 buf_0 mem_type mem_data_fmt
        width_0 height_0 stride_0
      (r.1, acc.2 ++ r.2)
    else acc
  let acc := if acc.1 = P_OK ∧ read_1 then
      let r := p_read_image h image_number 1 buf_1 mem_type mem_data_fmt
        width_1 height_1 stride_1
      (r.1, acc.2 ++ r.2)
    else acc
  let acc := if acc.1 = P_OK ∧ read_2 then
      let r := p_read_image h image_number 2 buf_2 mem_type mem_data_fmt
        width_2 height_2 stride_2
      (r.1, acc.2 ++ r.2)
    else acc
  acc

/-- `p_write_buffers` of cpfspd_rwi.c. -/
def p_write_buffers (h : pT_header) (color_format : pT_color)
    (frame field comp write_field : Int) (buf_0 buf_1 buf_2 : Int)
    (mem_type write_mode : Int) (width height : Int)
    (stride_0 stride_1 stride_2 : Int) : pT_status × List pT_transfer :=
  let mem_data_fmt := c_uint_and write_mode 112
  let d : Bool × Bool × Bool × Int :=
    if comp ≠ P_NORMAL_COMP then (true, false, false, comp)
    else
      match color_format with
      | P_NO_COLOR | P_STREAM => (true, false, false, 0)
      | P_COLOR_422 | P_COLOR_420 => (true, true, false, 0)
      | P_COLOR_444_PL | P_COLOR_422_PL | P_COLOR_420_PL | P_COLOR_RGB
      | P_COLOR_XYZ => (true, true, true, 0)
      | P_UNKNOWN_COLOR => (false, false, false, 0)
  let write_0 := d.1
  let write_1 := d.2.1
  let write_2 := d.2.2.1
  let comp_0 := d.2.2.2
  let width_0 := if write_0 then Int.tdiv width (h.comp 0).pix_sbsmpl else 0
  let height_0 := if write_0 then Int.tdiv height (h.comp 0).lin_sbsmpl else 0
  let width_1 := if write_1 then Int.tdiv width (h.comp 1).pix_sbsmpl else 0
  let height_1 := if write_1 then Int.tdiv height (h.comp 1).lin_sbsmpl else 0
  let width_2 := if write_2 then Int.tdiv width (h.comp 2).pix_sbsmpl else 0
  let height_2 := if write_2 then Int.tdiv height (h.comp 2).lin_sbsmpl else 0
  let width_1 := if color_format = P_COLOR_422 ∨ color_format = P_COLOR_420
    then width_1 * 2 else width_1
  let image_number := if write_field ≠ 0 then 2 * (frame - 1) + field else frame
  let acc : pT_status × List pT_transfer := (P_OK, [])
  let acc := if acc.1 = P_OK ∧ write_0 then
      let r := p_write_image h image_number comp_0 buf_0 mem_type mem_data_fmt
        width_0 height_0 stride_0
      (r.1, acc.2 ++ r.2)
    else acc
  let acc := if acc.1 = P_OK ∧ write_1 then
      let r := p_write_image h image_number 1 buf_1 mem_type mem_data_fmt
        width_1 height_1 stride_1
      (r.1, acc.2 ++ r.2)
    else acc
  let acc := if acc.1 = P_OK ∧ write_2 then
      let r := p_write_image h image_number 2 buf_2 mem_type mem_data_fmt
        width_2 height_2 stride_2
      (r.1, acc.2 ++ r.2)
    else acc
  acc

/-- `p_get_strides` of cpfspd_rwi.c. -/
def p_get_strides (color_format : pT_color) (stride uv_stride : Int) :
    Int × Int × Int :=
  match color_format with
  | P_COLOR_422 | P_COLOR_420 | P_COLOR_444_PL | P_COLOR_422_PL | P_COLOR_420_PL =>
      if uv_stride ≠ 0 then (stride, uv_stride, uv_stride)
      else (stride, stride, stride)
  | _ => (stride, stride, stride)

/-- `p_read_field_all` of cpfspd_rwi.c. -/
def p_read_field_all (h : pT_header) (color_format : pT_color)
    (frame field comp : Int) (buf_0 buf_1 buf_2 : Int)
    (mem_type read_mode : Int) (width fld_height stride uv_stride : Int) :
    pT_status × List pT_transfer :=
  let s := p_get_strides color_format stride uv_stride
  if p_is_progressive h ≠ 0 then (P_SHOULD_BE_INTERLACED, [])
  else
    p_read_buffers h color_format frame field comp 1 buf_0 buf_1 buf_2
      mem_type read_mode width fld_height s.1 s.2.1 s.2.2

/-- `p_read_frame_all` of cpfspd_rwi.c. -/
def p_read_frame_all (h : pT_header) (color_format : pT_color)
    (frame comp : Int) (buf_0 buf_1 buf_2 : Int)
    (mem_type read_mode : Int) (width frm_height stride uv_stride : Int) :
    pT_status × List pT_transfer :=
  let s := p_get_strides color_format stride uv_stride
  if p_is_interlaced h ≠ 0 then
    let r1 := p_read_buffers h color_format frame 1 comp 1 buf_0 buf_1 buf_2
      mem_type read_mode width (Int.tdiv frm_height 2) (2*s.1) (2*s.2.1) (2*s.2.2)
    if r1.1 = P_OK then
      if mem_type = P_UNSIGNED_CHAR ∨ mem_type = P_UNSIGNED_SHORT then
        let r2 := p_read_buffers h color_format frame 2 comp 1
          (buf_0 + s.1) (buf_1 + s.2.1) (buf_2 + s.2.2)
          mem_type read_mode width (Int.tdiv frm_height 2) (2*s.1) (2*s.2.1) (2*s.2.2)
        (r2.1, r1.2 ++ r2.2)
      else (P_UNKNOWN_MEM_TYPE, r1.2)
    else r1
  else
    p_read_buffers h color_format frame 0 comp 0 buf_0 buf_1 buf_2
      mem_type read_mode width frm_height s.1 s.2.1 s.2.2

/-- `p_write_field_all` of cpfspd_rwi.c. -/
def p_write_field_all (h : pT_header) (color_format : pT_color)
    (frame field comp : Int) (buf_0 buf_1 buf_2 : Int)
    (mem_type write_mode : Int) (width fld_height stride uv_stride : Int) :
    pT_status × List pT_transfer :=
  let s := p_get_strides color_format stride uv_stride
  if p_is_progressive h ≠ 0 then (P_SHOULD_BE_INTERLACED, [])
  else
    p_write_buffers h color_format frame field comp 1 buf_0 buf_1 buf_2
      mem_type write_mode width fld_height s.1 s.2.1 s.2.2

/-- `p_write_frame_all` of cpfspd_rwi.c (second-field buffers keep `NULL`
at `NULL`). -/
def p_write_frame_all (h : pT_header) (color_format : pT_color)
    (frame comp : Int) (buf_0 buf_1 buf_2 : Int)
    (mem_type write_mode : Int) (width frm_height stride uv_stride : Int) :
    pT_status × List pT_transfer :=
  let s := p_get_strides color_format stride uv_stride
  if p_is_interlaced h ≠ 0 then
    let r1 := p_write_buffers h color_format frame 1 comp 1 buf_0 buf_1 buf_2
      mem_type write_mode width (Int.tdiv frm_height 2) (2*s.1) (2*s.2.1) (2*s.2.2)
    if r1.1 = P_OK then
      if mem_type = P_UNSIGNED_CHAR ∨ mem_type = P_UNSIGNED_SHORT then
        let sb0 := if buf_0 = 0 then 0 else buf_0 + s.1
        let sb1 := if buf_1 = 0 then 0 else buf_1 + s.2.1
        let sb2 := if buf_2 = 0 then 0 else buf_2 + s.2.2
        let r2 := p_write_buffers h color_format frame 2 comp 1 sb0 sb1 sb2
          mem_type write_mode width (Int.tdiv frm_height 2) (2*s.1) (2*s.2.1) (2*s.2.2)
        (r2.1, r1.2 ++ r2.2)
      else (P_UNKNOWN_MEM_TYPE, r1.2)
    else r1
  else
    p_write_buffers h color_format frame 0 comp 0 buf_0 buf_1 buf_2
      mem_type write_mode width frm_height s.1 s.2.1 s.2.2

/-- `p_check_modified` of cpfspd_rwi.c. -/
def p_check_modified (h : pT_header) : pT_status :=
  if h.modified = 1 then P_HEADER_IS_MODIFIED else P_OK

/-- `p_check_multiplexed` of cpfspd_rwi.c. -/
def p_check_multiplexed (color_format : pT_color) : pT_status :=
  if color_format ≠ P_NO_COLOR ∧ color_format ≠ P_COLOR_422
      ∧ color_format ≠ P_COLOR_420 then
    P_INCOMP_MULT_COLOR_FORMAT
  else P_OK

/-- `p_check_multi_or_stream` of cpfspd_rwi.c. -/
def p_check_multi_or_stream (color_format : pT_color) : pT_status :=
  if color_format ≠ P_NO_COLOR ∧ color_format ≠ P_COLOR_422
      ∧ color_format ≠ P_COLOR_420 ∧ color_format ≠ P_STREAM then
    P_INCOMP_MULT_COLOR_FORMAT
  else P_OK

/-- `p_check_planar` of cpfspd_rwi.c. -/
def p_check_planar (color_format : pT_color) : pT_status :=
  if color_format ≠ P_NO_COLOR ∧ color_format ≠ P_COLOR_444_PL
      ∧ color_format ≠ P_COLOR_422_PL ∧ color_format ≠ P_COLOR_420_PL
      ∧ color_format ≠ P_COLOR_RGB ∧ color_format ≠ P_COLOR_XYZ then
    P_INCOMP_PLANAR_COLOR_FORMAT
  else P_OK

/-- `p_check_comp` of cpfspd_rwi.c. -/
def p_check_comp (h : pT_header) (comp reading : Int) : pT_status :=
  if comp < 0 ∨ h.nr_compon ≤ comp then
    if reading ≠ 0 then P_READ_INVALID_COMPONENT else P_WRITE_INVALID_COMPONENT
  else P_OK

end Cpfspd

namespace Cpfspd

open pT_status pT_color pT_data_fmt pT_freq pT_size pT_asp_rat

/-! The 24 external read/write functions of cpfspd_rwi.c.  Each first
checks `p_check_modified`, then validates, then delegates. -/

def p_read_field (h : pT_header) (frame field : Int) (y_fld uv_fld : Int)
    (read_mode width fld_height stride : Int) : pT_status × List pT_transfer :=
  let cf := p_get_color_format h
  let status := p_check_modified h
  let status := if status = P_OK then p_check_header h else status
  let status := if status = P_OK then p_check_multiplexed cf else status
  if status = P_OK then
    p_read_field_all h cf frame field P_NORMAL_COMP y_fld uv_fld 0
      P_UNSIGNED_CHAR read_mode width fld_height stride 0
  else (status, [])

def p_read_frame (h : pT_header) (frame : Int) (y_or_s_frm uv_frm : Int)
    (read_mode width frm_height stride : Int) : pT_status × List pT_transfer :=
  let cf := p_get_color_format h
  let status := p_check_modified h
  let status := if status = P_OK then p_check_header h else status
  let status := if status = P_OK then p_check_multi_or_stream cf else status
  if status = P_OK then
    p_read_frame_all h cf frame P_NORMAL_COMP y_or_s_frm uv_frm 0
      P_UNSIGNED_CHAR read_mode width frm_height stride 0
  else (status, [])

def p_write_field (h : pT_header) (frame field : Int) (y_fld uv_fld : Int)
    (width fld_height stride : Int) : pT_status × List pT_transfer :=
  let cf := p_get_color_format h
  let status := p_check_modified h
  let status := if status = P_OK then p_check_header h else status
  let status := if status = P_OK then p_check_multiplexed cf else status
  if status = P_OK then
    p_write_field_all h cf frame field P_NORMAL_COMP y_fld uv_fld 0
      P_UNSIGNED_CHAR P_8_BIT_MEM width fld_height stride 0
  else (status, [])

def p_write_frame (h : pT_header) (frame : Int) (y_or_s_frm uv_frm : Int)
    (width frm_height stride : Int) : pT_status × List pT_transfer :=
  let cf := p_get_color_format h
  let status := p_check_modified h
  let status := if status = P_OK then p_check_header h else status
  let status := if status = P_OK then p_check_multi_or_stream cf else status
  if status = P_OK then
    p_write_frame_all h cf frame P_NORMAL_COMP y_or_s_frm uv_frm 0
      P_UNSIGNED_CHAR P_8_BIT_MEM width frm_height stride 0
  else (status, [])

def p_read_field_16 (h : pT_header) (frame field : Int) (y_fld uv_fld : Int)
    (read_mode width fld_height stride : Int) : pT_status × List pT_transfer :=
  let cf := p_get_color_format h
  let status := p_check_modified h
  let status := if status = P_OK then p_check_header h else status
  let status := if status = P_OK then p_check_multiplexed cf else status
  if status = P_OK then
    p_read_field_all h cf frame field P_NORMAL_COMP y_fld uv_fld 0
      P_UNSIGNED_SHORT read_mode width fld_height stride 0
  else (status, [])

def p_read_frame_16 (h : pT_header) (frame : Int) (y_or_s_frm uv_frm : Int)
    (read_mode width frm_height stride : Int) : pT_status × List pT_transfer :=
  let cf := p_get_color_format h
  let status := p_check_modified h
  let status := if status = P_OK then p_check_header h else status
  let status := if status = P_OK then p_check_multi_or_stream cf else status
  if status = P_OK then
    p_read_frame_all h cf frame P_NORMAL_COMP y_or_s_frm uv_frm 0
      P_UNSIGNED_SHORT read_mode width frm_height stride 0
  else (status, [])

def p_write_field_16 (h : pT_header) (frame field : Int) (y_fld uv_fld : Int)
    (write_mode width fld_height stride : Int) : pT_status × List pT_transfer :=
  let cf := p_get_color_format h
  let status := p_check_modified h
  let status := if status = P_OK then p_check_header h else status
  let status := if status = P_OK then p_check_multiplexed cf else status
  if status = P_OK then
    p_write_field_all h cf frame field P_NORMAL_COMP y_fld uv_fld 0
      P_UNSIGNED_SHORT write_mode width fld_height stride 0
  else (status, [])

def p_write_frame_16 (h : pT_header) (frame : Int) (y_or_s_frm uv_frm : Int)
    (write_mode width frm_height stride : Int) : pT_status × List pT_transfer :=
  let cf := p_get_color_format h
  let status := p_check_modified h
  let status := if status = P_OK then p_check_header h else status
  let status := if status = P_OK then p_check_multi_or_stream cf else status
  if status = P_OK then
    p_write_frame_all h cf frame P_NORMAL_COMP y_or_s_frm uv_frm 0
      P_UNSIGNED_SHORT write_mode width frm_height stride 0
  else (status, [])

def p_read_field_planar (h : pT_header) (frame field : Int) (b0 b1 b2 : Int)
    (read_mode width fld_height stride uv_stride : Int) :
    pT_status × List pT_transfer :=
  let cf := p_get_color_format h
  let status := p_check_modified h
  let status := if status = P_OK then p_check_header h else status
  let status := if status = P_OK then p_check_planar cf else status
  if status = P_OK then
    p_read_field_all h cf frame field P_NORMAL_COMP b0 b1 b2
      P_UNSIGNED_CHAR read_mode width fld_height stride uv_stride
  else (status, [])

def p_read_frame_planar (h : pT_header) (frame : Int) (b0 b1 b2 : Int)
    (read_mode width frm_height stride uv_stride : Int) :
    pT_status × List pT_transfer :=
  let cf := p_get_color_format h
  let status := p_check_modified h
  let status := if status = P_OK then p_check_header h else status
  let status := if status = P_OK then p_check_planar cf else status
  if status = P_OK then
    p_read_frame_all h cf frame P_NORMAL_COMP b0 b1 b2
      P_UNSIGNED_CHAR read_mode width frm_height stride uv_stride
  else (status, [])

def p_write_field_planar (h : pT_header) (frame field : Int) (b0 b1 b2 : Int)
    (width fld_height stride uv_stride : Int) : pT_status × List pT_transfer :=
  let cf := p_get_color_format h
  let status := p_check_modified h
  let status := if status = P_OK then p_check_header h else status
  let status := if status = P_OK then p_check_planar cf else status
  if status = P_OK then
    p_write_field_all h cf frame field P_NORMAL_COMP b0 b1 b2
      P_UNSIGNED_CHAR P_8_BIT_MEM width fld_height stride uv_stride
  else (status, [])

def p_write_frame_planar (h : pT_header) (frame : Int) (b0 b1 b2 : Int)
    (width frm_height stride uv_stride : Int) : pT_status × List pT_transfer :=
  let cf := p_get_color_format h
  let status := p_check_modified h
  let status := if status = P_OK then p_check_header h else status
  let status := if status = P_OK then p_check_planar cf else status
  if status = P_OK then
    p_write_frame_all h cf frame P_NORMAL_COMP b0 b1 b2
      P_UNSIGNED_CHAR P_8_BIT_MEM width frm_height stride uv_stride
  else (status, [])

def p_read_field_planar_16 (h : pT_header) (frame field : Int) (b0 b1 b2 : Int)
    (read_mode width fld_height stride uv_stride : Int) :
    pT_status × List pT_transfer :=
  let cf := p_get_color_format h
  let status := p_check_modified h
  let status := if status = P_OK then p_check_header h else status
  let status := if status = P_OK then p_check_planar cf else status
  if status = P_OK then
    p_read_field_all h cf frame field P_NORMAL_COMP b0 b1 b2
      P_UNSIGNED_SHORT read_mode width fld_height stride uv_stride
  else (status, [])

def p_read_frame_planar_16 (h : pT_header) (frame : Int) (b0 b1 b2 : Int)
    (read_mode width frm_height stride uv_stride : Int) :
    pT_status × List pT_transfer :=
  let cf := p_get_color_format h
  let status := p_check_modified h
  let status := if status = P_OK then p_check_header h else status
  let status := if status = P_OK then p_check_planar cf else status
  if status = P_OK then
    p_read_frame_all h cf frame P_NORMAL_COMP b0 b1 b2
      P_UNSIGNED_SHORT read_mode width frm_height stride uv_stride
  else (status, [])

def p_write_field_planar_16 (h : pT_header) (frame field : Int) (b0 b1 b2 : Int)
    (write_mode width fld_height stride uv_stride : Int) :
    pT_status × List pT_transfer :=
  let cf := p_get_color_format h
  let status := p_check_modified h
  let status := if status = P_OK then p_check_header h else status
  let status := if status = P_OK then p_check_planar cf else status
  if status = P_OK then
    p_write_field_all h cf frame field P_NORMAL_COMP b0 b1 b2
      P_UNSIGNED_SHORT write_mode width fld_height stride uv_stride
  else (status, [])

/-- `p_write_frame_planar_16` checks `p_check_planar` before
`p_check_header` (unlike its siblings). -/
def p_write_frame_planar_16 (h : pT_header) (frame : Int) (b0 b1 b2 : Int)
    (write_mode width frm_height stride uv_stride : Int) :
    pT_status × List pT_transfer :=
  let cf := p_get_color_format h
  let status := p_check_modified h
  let status := if status = P_OK then p_check_planar cf else status
  let status := if status = P_OK then p_check_header h else status
  if status = P_OK then
    p_write_frame_all h cf frame P_NORMAL_COMP b0 b1 b2
      P_UNSIGNED_SHORT write_mode width frm_height stride uv_stride
  else (status, [])

def p_read_field_comp (h : pT_header) (frame field comp : Int) (c_fld : Int)
    (read_mode width fld_height stride : Int) : pT_status × List pT_transfer :=
  let status := p_check_modified h
  let status := if status = P_OK then p_check_comp h comp 1 else status
  if status = P_OK then
    p_read_field_all h P_UNKNOWN_COLOR frame field comp c_fld 0 0
      P_UNSIGNED_CHAR read_mode width fld_height stride 0
  else (status, [])

def p_read_frame_comp (h : pT_header) (frame comp : Int) (c_frm : Int)
    (read_mode width frm_height stride : Int) : pT_status × List pT_transfer :=
  let status := p_check_modified h
  let status := if status = P_OK then p_check_comp h comp 1 else status
  if status = P_OK then
    p_read_frame_all h P_UNKNOWN_COLOR frame comp c_frm 0 0
      P_UNSIGNED_CHAR read_mode width frm_height stride 0
  else (status, [])

def p_write_field_comp (h : pT_header) (frame field comp : Int) (c_fld : Int)
    (width fld_height stride : Int) : pT_status × List pT_transfer :=
  let status := p_check_modified h
  let status := if status = P_OK then p_check_comp h comp 0 else status
  if status = P_OK then
    p_write_field_all h P_UNKNOWN_COLOR frame field comp c_fld 0 0
      P_UNSIGNED_CHAR P_8_BIT_MEM width fld_height stride 0
  else (status, [])

def p_write_frame_comp (h : pT_header) (frame comp : Int) (c_frm : Int)
    (width frm_height stride : Int) : pT_status × List pT_transfer :=
  let status := p_check_modified h
  let status := if status = P_OK then p_check_comp h comp 0 else status
  if status = P_OK then
    p_write_frame_all h P_UNKNOWN_COLOR frame comp c_frm 0 0
      P_UNSIGNED_CHAR P_8_BIT_MEM width frm_height stride 0
  else (status, [])

def p_read_field_comp_16 (h : pT_header) (frame field comp : Int) (c_fld : Int)
    (read_mode width fld_height stride : Int) : pT_status × List pT_transfer :=
  let status := p_check_modified h
  let status := if status = P_OK then p_check_comp h comp 1 else status
  if status = P_OK then
    p_read_field_all h P_UNKNOWN_COLOR frame field comp c_fld 0 0
      P_UNSIGNED_SHORT read_mode width fld_height stride 0
  else (status, [])

def p_read_frame_comp_16 (h : pT_header) (frame comp : Int) (c_frm : Int)
    (read_mode width frm_height stride : Int) : pT_status × List pT_transfer :=
  let status := p_check_modified h
  let status := if status = P_OK then p_check_comp h comp 1 else status
  if status = P_OK then
    p_read_frame_all h P_UNKNOWN_COLOR frame comp c_frm 0 0
      P_UNSIGNED_SHORT read_mode width frm_height stride 0
  else (status, [])

def p_write_field_comp_16 (h : pT_header) (frame field comp : Int) (c_fld : Int)
    (write_mode width fld_height stride : Int) : pT_status × List pT_transfer :=
  let status := p_check_modified h
  let status := if status = P_OK then p_check_comp h comp 0 else status
  if status = P_OK then
    p_write_field_all h P_UNKNOWN_COLOR frame field comp c_fld 0 0
      P_UNSIGNED_SHORT write_mode width fld_height stride 0
  else (status, [])

def p_write_frame_comp_16 (h : pT_header) (frame comp : Int) (c_frm : Int)
    (write_mode width frm_height stride : Int) : pT_status × List pT_transfer :=
  let status := p_check_modified h
  let status := if status = P_OK then p_check_comp h comp 0 else status
  if status = P_OK then
    p_write_frame_all h P_UNKNOWN_COLOR frame comp c_frm 0 0
      P_UNSIGNED_SHORT write_mode width frm_height stride 0
  else (status, [])

end Cpfspd


namespace Cpfspd

open pT_status pT_color pT_data_fmt pT_freq pT_size pT_asp_rat

/-- C8: every field-level and frame-level image read/write operation
(`p_read_field`, `p_read_frame`, `p_write_field`, `p_write_frame` and
their `_16`, `_planar` and `_comp` variants) fails with
`P_HEADER_IS_MODIFIED` and performs no file transfer whenever
`header->modified == 1`. -/
theorem C8_modified_header_rejected :
    ∀ h : pT_header, h.modified = 1 →
    (∀ a b c d e f g i, p_read_field h a b c d e f g i = (P_HEADER_IS_MODIFIED, []))
    ∧ (∀ a b c d e f g, p_read_frame h a b c d e f g = (P_HEADER_IS_MODIFIED, []))
    ∧ (∀ a b c d e f g, p_write_field h a b c d e f g = (P_HEADER_IS_MODIFIED, []))
    ∧ (∀ a b c d e f, p_write_frame h a b c d e f = (P_HEADER_IS_MODIFIED, []))
    ∧ (∀ a b c d e f g i, p_read_field_16 h a b c d e f g i = (P_HEADER_IS_MODIFIED, []))
    ∧ (∀ a b c d e f g, p_read_frame_16 h a b c d e f g = (P_HEADER_IS_MODIFIED, []))
    ∧ (∀ a b c d e f g i, p_write_field_16 h a b c d e f g i = (P_HEADER_IS_MODIFIED, []))
    ∧ (∀ a b c d e f g, p_write_frame_16 h a b c d e f g = (P_HEADER_IS_MODIFIED, []))
    ∧ (∀ a b c d e f g i j k, p_read_field_planar h a b c d e f g i j k = (P_HEADER_IS_MODIFIED, []))
    ∧ (∀ a b c d e f g i j, p_read_frame_planar h a b c d e f g i j = (P_HEADER_IS_MODIFIED, []))
    ∧ (∀ a b c d e f g i j, p_write_field_planar h a b c d e f g i j = (P_HEADER_IS_MODIFIED, []))
    ∧ (∀ a b c d e f g i, p_write_frame_planar h a b c d e f g i = (P_HEADER_IS_MODIFIED, []))
    ∧ (∀ a b c d e f g i j k, p_read_field_planar_16 h a b c d e f g i j k = (P_HEADER_IS_MODIFIED, []))
    ∧ (∀ a b c d e f g i j, p_read_frame_planar_16 h a b c d e f g i j = (P_HEADER_IS_MODIFIED, []))
    ∧ (∀ a b c d e f g i j k, p_write_field_planar_16 h a b c d e f g i j k = (P_HEADER_IS_MODIFIED, []))
    ∧ (∀ a b c d e f g i j, p_write_frame_planar_16 h a b c d e f g i j = (P_HEADER_IS_MODIFIED, []))
    ∧ (∀ a b c d e f g i, p_read_field_comp h a b c d e f g i = (P_HEADER_IS_MODIFIED, []))
    ∧ (∀ a b c d e f g, p_read_frame_comp h a b c d e f g = (P_HEADER_IS_MODIFIED, []))
    ∧ (∀ a b c d e f g, p_write_field_comp h a b c d e f g = (P_HEADER_IS_MODIFIED, []))
    ∧ (∀ a b c d e f, p_write_frame_comp h a b c d e f = (P_HEADER_IS_MODIFIED, []))
    ∧ (∀ a b c d e f g i, p_read_field_comp_16 h a b c d e f g i = (P_HEADER_IS_MODIFIED, []))
    ∧ (∀ a b c d e f g, p_read_frame_comp_16 h a b c d e f g = (P_HEADER_IS_MODIFIED, []))
    ∧ (∀ a b c d e f g i, p_write_field_comp_16 h a b c d e f g i = (P_HEADER_IS_MODIFIED, []))
    ∧ (∀ a b c d e f g, p_write_frame_comp_16 h a b c d e f g = (P_HEADER_IS_MODIFIED, [])) := by
  intro h hm
  have hc : p_check_modified h = P_HEADER_IS_MODIFIED := by
    simp [p_check_modified, hm]
  refine ⟨?_, ?_, ?_, ?_, ?_, ?_, ?_, ?_, ?_, ?_, ?_, ?_, ?_, ?_, ?_, ?_, ?_, ?_, ?_, ?_, ?_, ?_, ?_, ?_⟩ <;> intros <;>
    simp [p_read_field, p_read_frame, p_write_field, p_write_frame, p_read_field_16, p_read_frame_16, p_write_field_16, p_write_frame_16, p_read_field_planar, p_read_frame_planar, p_write_field_planar, p_write_frame_planar, p_read_field_planar_16, p_read_frame_planar_16, p_write_field_planar_16, p_write_frame_planar_16, p_read_field_comp, p_read_frame_comp, p_write_field_comp, p_write_frame_comp, p_read_field_comp_16, p_read_frame_comp_16, p_write_field_comp_16, p_write_frame_comp_16, hc]

def c8Header : pT_header := { sampleHeader with modified := 1 }

theorem C8_modified_header_rejected_witness :
    c8Header.modified = 1
      ∧ p_read_frame c8Header 1 0 0 0 4 6 4 = (P_HEADER_IS_MODIFIED, [])
      ∧ p_write_field c8Header 1 1 0 0 4 3 4 = (P_HEADER_IS_MODIFIED, []) :=
  ⟨rfl,
   (C8_modified_header_rejected c8Header rfl).2.1 1 0 0 0 4 6 4,
   (C8_modified_header_rejected c8Header rfl).2.2.1 1 1 0 0 4 3 4⟩

end Cpfspd

namespace Cpfspd

open pT_status pT_color pT_data_fmt pT_freq pT_size pT_asp_rat

theorem p_get_strides_double (cf : pT_color) (a b : Int) :
    p_get_strides cf (2*a) (2*b)
      = (2 * (p_get_strides cf a b).1, 2 * (p_get_strides cf a b).2.1,
          2 * (p_get_strides cf a b).2.2) := by
  rcases eq_or_ne b 0 with rfl | hb
  · cases cf <;> simp [p_get_strides]
  · have h2 : (2:Int) * b ≠ 0 := by omega
    cases cf <;> simp [p_get_strides, hb, h2]

theorem interlaced_not_progressive {h : pT_header} (hint : p_is_interlaced h ≠ 0) :
    p_is_progressive h = 0 := by
  unfold p_is_interlaced at hint
  unfold p_is_progressive
  split at hint
  · rw [if_neg (by omega)]
  · exact absurd rfl hint

/-- The transfer rows of a single-component `p_read_buffers` call with
unit luminance subsampling and unclamped geometry. -/
theorem p_read_buffers_comp_rows (h : pT_header)
    (frame field comp b c1 c2 mt rm w H s0 s1 s2 : Int)
    (hcomp : 0 ≤ comp)
    (hps : (h.comp 0).pix_sbsmpl = 1) (hls : (h.comp 0).lin_sbsmpl = 1)
    (hw : w ≤ (h.comp comp.toNat).pix_line)
    (hH : H ≤ (h.comp comp.toNat).lin_image)
    (hok : p_read_image_status h comp mt (c_uint_and rm 112) = P_OK) :
    (p_read_buffers h P_UNKNOWN_COLOR frame field comp 1 b c1 c2
        mt rm w H s0 s1 s2).1 = P_OK
    ∧ (p_read_buffers h P_UNKNOWN_COLOR frame field comp 1 b c1 c2
        mt rm w H s0 s1 s2).2.map (fun t => t.memAddr)
      = (List.range H.toNat).map (fun y : Nat => b + (y : Int) * s0) := by
  have hne : comp ≠ P_NORMAL_COMP := by unfold P_NORMAL_COMP; omega
  unfold p_read_buffers p_read_image
  simp [hne, hok, hps, hls, min_eq_left hw, min_eq_left hH,
    List.map_map, Function.comp]

end Cpfspd

namespace Cpfspd

open pT_status pT_color pT_data_fmt pT_freq pT_size pT_asp_rat

/-- C7: for an interlaced header, a frame-level read (resp. write, with
non-NULL buffers) with strides `(st, uvst)` equals two field-level
operations — field 1 into the original buffers and field 2 into the
buffers offset by the respective per-buffer stride — both with doubled
strides and half the frame height, so the transfers performed are exactly
the concatenation of the two field-level transfer lists; for a
non-interlaced header a frame operation is a single direct
`p_read_buffers`/`p_write_buffers` access with strides unchanged.
Finally, for a single-component interlaced read with unit subsampling and
unclamped geometry, the two fields' memory rows interleave to cover every
row `buf + r*stride`, `0 ≤ r < frame height`, of the frame buffer. -/
theorem C7_frame_two_fields :
    (∀ (h : pT_header) (cf : pT_color) (frame comp b0 b1 b2 mt rm w fh st uvst : Int),
        p_is_interlaced h ≠ 0 →
        (mt = P_UNSIGNED_CHAR ∨ mt = P_UNSIGNED_SHORT) →
        p_read_frame_all h cf frame comp b0 b1 b2 mt rm w fh st uvst
          = (let s := p_get_strides cf st uvst
             let r1 := p_read_field_all h cf frame 1 comp b0 b1 b2 mt rm
               w (Int.tdiv fh 2) (2*st) (2*uvst)
             if r1.1 = P_OK then
               let r2 := p_read_field_all h cf frame 2 comp
                 (b0 + s.1) (b1 + s.2.1) (b2 + s.2.2) mt rm
                 w (Int.tdiv fh 2) (2*st) (2*uvst)
               (r2.1, r1.2 ++ r2.2)
             else r1))
    ∧ (∀ (h : pT_header) (cf : pT_color) (frame comp b0 b1 b2 mt wm w fh st uvst : Int),
        p_is_interlaced h ≠ 0 →
        (mt = P_UNSIGNED_CHAR ∨ mt = P_UNSIGNED_SHORT) →
        b0 ≠ 0 → b1 ≠ 0 → b2 ≠ 0 →
        p_write_frame_all h cf frame comp b0 b1 b2 mt wm w fh st uvst
          = (let s := p_get_strides cf st uvst
             let r1 := p_write_field_all h cf frame 1 comp b0 b1 b2 mt wm
               w (Int.tdiv fh 2) (2*st) (2*uvst)
             if r1.1 = P_OK then
               let r2 := p_write_field_all h cf frame 2 comp
                 (b0 + s.1) (b1 + s.2.1) (b2 + s.2.2) mt wm
                 w (Int.tdiv fh 2) (2*st) (2*uvst)
               (r2.1, r1.2 ++ r2.2)
             else r1))
    ∧ (∀ (h : pT_header) (cf : pT_color) (frame comp b0 b1 b2 mt rm w fh st uvst : Int),
        p_is_interlaced h = 0 →
        p_read_frame_all h cf frame comp b0 b1 b2 mt rm w fh st uvst
          = (let s := p_get_strides cf st uvst
             p_read_buffers h cf frame 0 comp 0 b0 b1 b2 mt rm w fh s.1 s.2.1 s.2.2))
    ∧ (∀ (h : pT_header) (cf : pT_color) (frame comp b0 b1 b2 mt wm w fh st uvst : Int),
        p_is_interlaced h = 0 →
        p_write_frame_all h cf frame comp b0 b1 b2 mt wm w fh st uvst
          = (let s := p_get_strides cf st uvst
             p_write_buffers h cf frame 0 comp 0 b0 b1 b2 mt wm w fh s.1 s.2.1 s.2.2))
    ∧ (∀ (h : pT_header) (frame comp b mt rm w H st : Int),
        p_is_interlaced h ≠ 0 →
        (mt = P_UNSIGNED_CHAR ∨ mt = P_UNSIGNED_SHORT) →
        0 ≤ comp →
        (h.comp 0).pix_sbsmpl = 1 → (h.comp 0).lin_sbsmpl = 1 →
        w ≤ (h.comp comp.toNat).pix_line → H ≤ (h.comp comp.toNat).lin_image →
        p_read_image_status h comp mt (c_uint_and rm 112) = P_OK →
        ((p_read_frame_all h P_UNKNOWN_COLOR frame comp b 0 0
            mt rm w (2*H) st 0).1 = P_OK
          ∧ (p_read_frame_all h P_UNKNOWN_COLOR frame comp b 0 0
              mt rm w (2*H) st 0).2.map (fun t => t.memAddr)
            = (List.range H.toNat).map (fun y : Nat => b + (y : Int) * (2*st))
              ++ (List.range H.toNat).map (fun y : Nat => b + st + (y : Int) * (2*st))
          ∧ ∀ r : Int, 0 ≤ r → r < 2*H →
              b + r * st ∈ (p_read_frame_all h P_UNKNOWN_COLOR frame comp b 0 0
                mt rm w (2*H) st 0).2.map (fun t => t.memAddr))) := by
  refine ⟨?_, ?_, ?_, ?_, ?_⟩
  · intro h cf frame comp b0 b1 b2 mt rm w fh st uvst hint hmt
    have hprog := interlaced_not_progressive hint
    simp only [p_read_frame_all, p_read_field_all, p_get_strides_double, hprog,
      hint, hmt, ne_eq, not_true_eq_false, not_false_eq_true, ite_true,
      ite_false, if_true, if_false, OfNat.zero_ne_ofNat, reduceIte]
  · intro h cf frame comp b0 b1 b2 mt wm w fh st uvst hint hmt hb0 hb1 hb2
    have hprog := interlaced_not_progressive hint
    simp only [p_write_frame_all, p_write_field_all, p_get_strides_double, hprog,
      hint, hmt, hb0, hb1, hb2, ne_eq, not_true_eq_false, not_false_eq_true,
      ite_true, ite_false, if_true, if_false, reduceIte]
  · intro h cf frame comp b0 b1 b2 mt rm w fh st uvst hint
    simp only [p_read_frame_all, hint, ne_eq, not_true_eq_false, ite_false,
      reduceIte]
  · intro h cf frame comp b0 b1 b2 mt wm w fh st uvst hint
    simp only [p_write_frame_all, hint, ne_eq, not_true_eq_false, ite_false,
      reduceIte]
  · intro h frame comp b mt rm w H st hint hmt hcomp hps hls hw hH hok
    have hH2 : Int.tdiv (2*H) 2 = H := Int.mul_tdiv_cancel_left H (by norm_num)
    have h1 := p_read_buffers_comp_rows h frame 1 comp b 0 0 mt rm w H
      (2*st) (2*st) (2*st) hcomp hps hls hw hH hok
    have h2 := p_read_buffers_comp_rows h frame 2 comp (b + st) (0 + st) (0 + st)
      mt rm w H (2*st) (2*st) (2*st) hcomp hps hls hw hH hok
    have hres : p_read_frame_all h P_UNKNOWN_COLOR frame comp b 0 0
        mt rm w (2*H) st 0
        = ((p_read_buffers h P_UNKNOWN_COLOR frame 2 comp 1 (b + st) (0 + st) (0 + st)
              mt rm w H (2*st) (2*st) (2*st)).1,
           (p_read_buffers h P_UNKNOWN_COLOR frame 1 comp 1 b 0 0
              mt rm w H (2*st) (2*st) (2*st)).2
            ++ (p_read_buffers h P_UNKNOWN_COLOR frame 2 comp 1 (b + st) (0 + st) (0 + st)
              mt rm w H (2*st) (2*st) (2*st)).2) := by
      simp only [p_read_frame_all, p_get_strides, hint, hmt, hH2, ne_eq,
        not_true_eq_false, not_false_eq_true, ite_true, ite_false, if_true,
        if_false, reduceIte, h1.1]
    rw [hres]
    refine ⟨h2.1, ?_, ?_⟩
    · rw [List.map_append, h1.2, h2.2]
    · intro r hr0 hr2
      rw [List.map_append, h1.2, h2.2]
      rcases Int.even_or_odd r with ⟨y, hy⟩ | ⟨y, hy⟩
      · refine List.mem_append.mpr (Or.inl (List.mem_map.mpr ⟨y.toNat, ?_, ?_⟩))
        · exact List.mem_range.mpr (by omega)
        · rw [Int.toNat_of_nonneg (by omega), hy]; ring
      · refine List.mem_append.mpr (Or.inr (List.mem_map.mpr ⟨y.toNat, ?_, ?_⟩))
        · exact List.mem_range.mpr (by omega)
        · rw [Int.toNat_of_nonneg (by omega), hy]; ring

end Cpfspd

namespace Cpfspd

open pT_status pT_color pT_data_fmt pT_freq pT_size pT_asp_rat

def c7Header : pT_header := { sampleHeader with interlace := 2 }

theorem C7_frame_two_fields_witness :
    p_is_interlaced c7Header ≠ 0
      ∧ p_read_frame_all c7Header P_NO_COLOR 1 (-1) 0 0 0 P_UNSIGNED_CHAR 0 4 6 4 0
        = (let s := p_get_strides P_NO_COLOR 4 0
           let r1 := p_read_field_all c7Header P_NO_COLOR 1 1 (-1) 0 0 0
             P_UNSIGNED_CHAR 0 4 (Int.tdiv 6 2) (2*4) (2*0)
           if r1.1 = P_OK then
             let r2 := p_read_field_all c7Header P_NO_COLOR 1 2 (-1)
               (0 + s.1) (0 + s.2.1) (0 + s.2.2) P_UNSIGNED_CHAR 0 4
               (Int.tdiv 6 2) (2*4) (2*0)
             (r2.1, r1.2 ++ r2.2)
           else r1) :=
  ⟨by decide,
   C7_frame_two_fields.1 c7Header P_NO_COLOR 1 (-1) 0 0 0 P_UNSIGNED_CHAR 0 4 6 4 0
     (by decide) (Or.inl rfl)⟩

end Cpfspd
